import Mathlib

/-!
# Task execution engine of the workflow control plane

A shallow embedding of `src/jobs/index.js` (the `execute-task` job handler and
`reconcileWorkflow`), of the records it reads and writes (`models/Task.js`,
`models/Workflow.js`, `models/AuditLog.js`), of `services/auditService.js`, and of the
producer side: `core/router.js`, `services/workflowService.js`, the create-workflow endpoint
of `api/controllers/workflowController.js` and the tool handler of
`infrastructure/internalMcpServer.js`.

Conventions of the embedding:

* a collection is a list and the id of a record is its position in the list
  (ObjectIds are opaque in the source, only equality of ids is ever used);
* every awaited store operation can throw: a `Faults` map says which of them throw
  during one delivery, `noFaults` is the store working normally;
* the in-memory document `task` of the handler is threaded explicitly, since the
  `catch` block works on the document as the `try` block left it;
* besides the store the world carries a ghost trace `effects` of what was done, in order;
* what a call draws from outside (uuids, the clock, the router, the tool) is an argument;
* the schemas keep Mongoose's defaults, so a write drops empty objects from the `Mixed`
  paths (`minimize`) and `create` checks the `required` paths before it writes.
-/

namespace ControlPlane

/-! ## Data model -/

/-- Opaque structured payload (the `Mixed` fields: context, input, output, result, details). -/
inductive Payload where
  | null
  | bool (b : Bool)
  | num (n : Int)
  | str (s : String)
  | arr (items : List Payload)
  | obj (fields : List (String × Payload))

/-- JavaScript truthiness of a payload value: `null`, `false`, `0` and the empty string are
falsy, everything else (arrays and objects included) is truthy. -/
def Payload.truthy : Payload → Bool
  | .null => false
  | .bool b => b
  | .num n => n != 0
  | .str s => s != ""
  | .arr _ => true
  | .obj _ => true

/-- Truthiness of a possibly absent field (`undefined` is falsy). -/
def truthy? : Option Payload → Bool
  | none => false
  | some p => p.truthy

/-! ### Mongoose's `minimize`

None of the three schemas sets the option `minimize`, so it has its default `true`: a write
leaves out the empty objects of a `Mixed` path. An update (`doc.save()` of a loaded
document) runs `helpers/minimize.js` on each plain object it is about to `$set`, and unsets
the path when nothing is left; an insert (`Model.create`) copies the document with
`helpers/clone.js`, which does the same and also goes through arrays, where it keeps an
element that is an object, even an empty one, but cleans the fields of it. -/

mutual
/-- The fields `helpers/minimize.js` keeps of a plain object: a field that is a plain object
is minimized first and dropped when nothing of it is left; arrays are not looked into. -/
def minimizedFields : List (String × Payload) → List (String × Payload)
  | [] => []
  | (key, value) :: rest =>
    match minimizedValue value with
    | none => minimizedFields rest
    | some kept => (key, kept) :: minimizedFields rest
/-- A value as an update writes it: `none` when the path is unset (the value was a plain
object of which nothing is left). -/
def minimizedValue : Payload → Option Payload
  | .obj fields =>
    match minimizedFields fields with
    | [] => none
    | kept => some (.obj kept)
  | .null => some .null
  | .bool b => some (.bool b)
  | .num n => some (.num n)
  | .str s => some (.str s)
  | .arr items => some (.arr items)
end

mutual
/-- The fields `helpers/clone.js` keeps of a plain object under `minimize`. -/
def insertedFields : List (String × Payload) → List (String × Payload)
  | [] => []
  | (key, value) :: rest =>
    match insertedValue value with
    | none => insertedFields rest
    | some kept => (key, kept) :: insertedFields rest
/-- The elements of an array as an insert writes them: an element that is an object stays,
with its fields cleaned. -/
def insertedItems : List Payload → List Payload
  | [] => []
  | .obj fields :: rest => .obj (insertedFields fields) :: insertedItems rest
  | .arr items :: rest => .arr (insertedItems items) :: insertedItems rest
  | .null :: rest => .null :: insertedItems rest
  | .bool b :: rest => .bool b :: insertedItems rest
  | .num n :: rest => .num n :: insertedItems rest
  | .str s :: rest => .str s :: insertedItems rest
/-- A value as an insert writes it: `none` when the path is left out of the document. -/
def insertedValue : Payload → Option Payload
  | .obj fields =>
    match insertedFields fields with
    | [] => none
    | kept => some (.obj kept)
  | .arr items => some (.arr (insertedItems items))
  | .null => some .null
  | .bool b => some (.bool b)
  | .num n => some (.num n)
  | .str s => some (.str s)
end

/-- Status vocabulary of `models/Task.js`. -/
inductive TaskStatus where
  | PENDING | SCHEDULED | RUNNING | COMPLETED | FAILED
  deriving DecidableEq, Repr

/-- Status vocabulary of `models/Workflow.js`. -/
inductive WorkflowStatus where
  | PENDING | RUNNING | COMPLETED | FAILED | CANCELLED
  deriving DecidableEq, Repr

/-- Task kinds of `models/Task.js`. -/
inductive TaskType where
  | TOOL_CALL | ROUTING | REASONING | SYSTEM
  deriving DecidableEq, Repr

/-- Severity levels of `models/AuditLog.js`. -/
inductive Level where
  | INFO | WARN | ERROR | DEBUG
  deriving DecidableEq, Repr

/-- The event tags the code emits. -/
inductive EventType where
  | WORKFLOW_CREATED | TASK_SCHEDULED | TASK_STARTED | TASK_COMPLETED
  | TASK_FAILED | WORKFLOW_COMPLETED | WORKFLOW_FAILED
  deriving DecidableEq, Repr

/-- A thrown JavaScript `Error`. -/
structure JsError where
  message : String
  stack : String
  deriving DecidableEq, Repr

/-- The persisted `error` sub-document `{ message, stack }`. -/
structure ErrorInfo where
  message : String
  stack : Option String
  deriving DecidableEq, Repr

/-- Record of `models/Task.js` (the automatic createdAt/updatedAt stamps are left out). -/
structure Task where
  workflowId : Nat
  type : TaskType
  name : String
  status : TaskStatus
  input : Option Payload
  output : Option Payload
  retryCount : Nat
  maxRetries : Int
  error : Option ErrorInfo
  startedAt : Option Nat
  completedAt : Option Nat

/-- Record of `models/Workflow.js` (the automatic createdAt/updatedAt stamps are left out). -/
structure Workflow where
  traceId : String
  goal : String
  status : WorkflowStatus
  context : Payload
  result : Option Payload
  error : Option ErrorInfo

/-- Record of `models/AuditLog.js`; the write-time timestamp is the position in the log. -/
structure AuditLogEntry where
  workflowId : Nat
  level : Level
  eventType : EventType
  details : Option Payload

/-- One observable step of the engine, recorded in order in the ghost trace. -/
inductive Effect where
  | taskSaved (taskId : Nat) (task : Task)
  | workflowSaved (workflowId : Nat) (workflow : Workflow)
  | auditAppended (entry : AuditLogEntry)
  | toolInvoked (toolName : String) (args : Option Payload)
  | reconcileCalled (workflowId : Nat)
  | workflowCreated (workflowId : Nat) (workflow : Workflow)
  | taskCreated (taskId : Nat) (task : Task)
  | jobScheduled (taskId : Nat) (executionId : String)

/-- The persistent store (three collections and the job queue) and the ghost trace. -/
structure World where
  tasks : List Task
  workflows : List Workflow
  auditLog : List AuditLogEntry
  jobs : List (Nat × String)
  effects : List Effect

/-- The awaited store operations of one delivery, by the place they stand in
`src/jobs/index.js`, and those of one `createWorkflow`, by the place they stand in
`src/services/workflowService.js` (the operations inside its loop carry the index of the
step). -/
inductive Site where
  | loadTask          -- Task.findById, line 36
  | saveRecovered     -- task.save, line 61
  | saveRunning       -- task.save, line 66
  | saveCompleted     -- task.save, line 76
  | saveRetry         -- task.save, line 93
  | saveFailed        -- task.save, line 100
  | updateWorkflow    -- Workflow.findByIdAndUpdate, line 104
  | findTasks         -- Task.find, line 9
  | findWorkflow      -- Workflow.findById, line 10
  | saveWorkflow      -- workflow.save, lines 18 and 27
  | audit (eventType : EventType)   -- AuditLog.create inside auditService.log
  | createWorkflow        -- Workflow.create, workflowService.js line 14
  | saveWorkflowRunning   -- workflow.save, workflowService.js line 32
  | createTask (step : Nat)    -- Task.create, workflowService.js line 37
  | scheduleJob (step : Nat)   -- scheduleJob, workflowService.js line 48
  | saveWorkflowFailed    -- workflow.save, workflowService.js line 57
  deriving DecidableEq, Repr

/-- Which store operations throw, and what they throw. -/
abbrev Faults := Site → Option JsError

/-- The store working normally: no operation throws. -/
def noFaults : Faults := fun _ => none

/-- One delivery of the `execute-task` job: the job data, how the tool-invocation interface
answers during it, the two readings of the clock, and the faults of the store. -/
structure Delivery where
  taskId : Nat
  executionId : String
  tool : String → Option Payload → Except JsError Payload
  startedNow : Nat
  completedNow : Nat
  faults : Faults

/-- How a handler invocation ends: it returns, or it throws (the queue redelivers). -/
inductive Outcome where
  | returned
  | threw (error : JsError)
  deriving DecidableEq, Repr

/-! ## Store operations -/

/-- An opaque id as it appears inside a payload. -/
def idPayload (id : Nat) : Payload := .num (Int.ofNat id)

/-- The entry `AuditLog.create({ workflowId, eventType, details, level })` inserts: the
details lose their empty objects. The `required` paths `workflowId` and `eventType` are
always given (the event tags are non-empty constants). -/
def auditEntry (workflowId : Nat) (level : Level) (eventType : EventType) (details : Payload) :
    AuditLogEntry :=
  ⟨workflowId, level, eventType, insertedValue details⟩

/-- `auditService.log(workflowId, eventType, details, level)`: appends one entry; a failing
write is swallowed. -/
def auditService_log (f : Faults) (workflowId : Nat) (eventType : EventType)
    (details : Payload) (level : Level) (w : World) : World :=
  match f (.audit eventType) with
  | some _ => w
  | none =>
    let entry : AuditLogEntry := auditEntry workflowId level eventType details
    { w with auditLog := w.auditLog ++ [entry], effects := w.effects ++ [.auditAppended entry] }

/-- `Task.findById(taskId)`. -/
def Task_findById (f : Faults) (taskId : Nat) (w : World) : Except JsError (Option Task) :=
  match f .loadTask with
  | some e => .error e
  | none => .ok w.tasks[taskId]?

/-- `Task.find({ workflowId })`. -/
def Task_find (f : Faults) (workflowId : Nat) (w : World) : Except JsError (List Task) :=
  match f .findTasks with
  | some e => .error e
  | none => .ok (w.tasks.filter (fun t => t.workflowId == workflowId))

/-- `Workflow.findById(workflowId)`. -/
def Workflow_findById (f : Faults) (workflowId : Nat) (w : World) :
    Except JsError (Option Workflow) :=
  match f .findWorkflow with
  | some e => .error e
  | none => .ok w.workflows[workflowId]?

/-- `task.save()` at the given place: an update that writes the paths assigned since the
document was loaded. The handler is the only writer during a delivery, so the other paths
of the in-memory document are those of the store and the document is stored whole. The one
`Mixed` path the handler assigns is `output` (line 73); the in-memory document carries it as
the update writes it (see `tryBlock`). -/
def Task_save (f : Faults) (site : Site) (taskId : Nat) (task : Task) (w : World) :
    Except JsError Unit × World :=
  match f site with
  | some e => (.error e, w)
  | none =>
    (.ok (), { w with tasks := w.tasks.set taskId task,
                      effects := w.effects ++ [.taskSaved taskId task] })

/-- `workflow.save()`. -/
def Workflow_save (f : Faults) (workflowId : Nat) (workflow : Workflow) (w : World) :
    Except JsError Unit × World :=
  match f .saveWorkflow with
  | some e => (.error e, w)
  | none =>
    (.ok (), { w with workflows := w.workflows.set workflowId workflow,
                      effects := w.effects ++ [.workflowSaved workflowId workflow] })

/-- `Workflow.findByIdAndUpdate(id, { status, error })`; a missing workflow is not an error. -/
def Workflow_findByIdAndUpdate (f : Faults) (workflowId : Nat) (status : WorkflowStatus)
    (error : ErrorInfo) (w : World) : Except JsError Unit × World :=
  match f .updateWorkflow with
  | some e => (.error e, w)
  | none =>
    match w.workflows[workflowId]? with
    | none => (.ok (), w)
    | some workflow =>
      let workflow1 : Workflow := { workflow with status := status, error := some error }
      (.ok (), { w with workflows := w.workflows.set workflowId workflow1,
                        effects := w.effects ++ [.workflowSaved workflowId workflow1] })

/-- `mcpClient.executeTool(toolName, args)` during delivery `d`. -/
def executeTool (d : Delivery) (toolName : String) (args : Option Payload) (w : World) :
    Except JsError Payload × World :=
  (d.tool toolName args, { w with effects := w.effects ++ [.toolInvoked toolName args] })

/-! ## Reconciliation (`src/jobs/index.js`, lines 8-30) -/

/-- The error message reconciliation writes. -/
def reconciledFailureMessage : String :=
  "Workflow failed due to one or more task failures (Reconciled)"

/-- The result reconciliation writes. -/
def reconciledResult : Payload :=
  .obj [("message", .str "All tasks completed successfully (Reconciled)")]

/-- The function `reconcileWorkflow(workflowId)`. -/
def reconcileWorkflow (f : Faults) (workflowId : Nat) (w0 : World) :
    Except JsError Unit × World :=
  let w : World := { w0 with effects := w0.effects ++ [.reconcileCalled workflowId] }
  match Task_find f workflowId w with
  | .error e => (.error e, w)
  | .ok tasks =>
    match Workflow_findById f workflowId w with
    | .error e => (.error e, w)
    | .ok none => (.ok (), w)
    | .ok (some workflow) =>
      if workflow.status = .COMPLETED ∨ workflow.status = .FAILED then (.ok (), w)
      else if tasks.any (fun t => t.status == .FAILED) then
        let workflow1 : Workflow :=
          { workflow with status := .FAILED, error := some ⟨reconciledFailureMessage, none⟩ }
        match Workflow_save f workflowId workflow1 w with
        | (.error e, w1) => (.error e, w1)
        | (.ok _, w1) =>
          (.ok (), auditService_log f workflowId .WORKFLOW_FAILED
            (.obj [("reason", .str "Reconciliation found failed tasks")]) .INFO w1)
      else if tasks.all (fun t => t.status == .COMPLETED) then
        let workflow1 : Workflow :=
          { workflow with status := .COMPLETED, result := some reconciledResult }
        match Workflow_save f workflowId workflow1 w with
        | (.error e, w1) => (.error e, w1)
        | (.ok _, w1) =>
          (.ok (), auditService_log f workflowId .WORKFLOW_COMPLETED
            (.obj [("reason", .str "Reconciliation confirmed completion")]) .INFO w1)
      else (.ok (), w)

/-! ## The `execute-task` handler (`src/jobs/index.js`, lines 34-112) -/

/-- Carries the in-memory task document along with the result of a step. -/
def withTask (task : Task) (r : Except JsError Unit × World) :
    Except JsError Unit × Task × World :=
  (r.1, task, r.2)

/-- The `try` block (lines 43-84): the result, the in-memory task document as the block
left it, and the world. After `task.output = result` (line 73) the handler does not read
`task.output` again, it only saves the document (line 76, or lines 93 and 100 when that
save throws), and a save writes the output minimized: the document is threaded with the
output in that form, `minimizedValue result`. The audit event of line 78 takes `result`
itself. -/
def tryBlock (d : Delivery) (task : Task) (w : World) : Except JsError Unit × Task × World :=
  if task.status = .COMPLETED then
    withTask task (reconcileWorkflow d.faults task.workflowId w)
  else if task.status = .FAILED then
    withTask task (reconcileWorkflow d.faults task.workflowId w)
  else if truthy? task.output then
    let task1 : Task := { task with status := .COMPLETED, completedAt := some d.completedNow }
    match Task_save d.faults .saveRecovered d.taskId task1 w with
    | (.error e, w1) => (.error e, task1, w1)
    | (.ok _, w1) => withTask task1 (reconcileWorkflow d.faults task1.workflowId w1)
  else
    let task1 : Task := { task with status := .RUNNING, startedAt := some d.startedNow }
    match Task_save d.faults .saveRunning d.taskId task1 w with
    | (.error e, w1) => (.error e, task1, w1)
    | (.ok _, w1) =>
      let w2 := auditService_log d.faults task1.workflowId .TASK_STARTED
        (.obj [("taskId", idPayload d.taskId), ("tool", .str task1.name)]) .INFO w1
      match executeTool d task1.name task1.input w2 with
      | (.error e, w3) => (.error e, task1, w3)
      | (.ok result, w3) =>
        let task2 : Task :=
          { task1 with output := minimizedValue result, status := .COMPLETED,
                       completedAt := some d.completedNow }
        match Task_save d.faults .saveCompleted d.taskId task2 w3 with
        | (.error e, w4) => (.error e, task2, w4)
        | (.ok _, w4) =>
          let w5 := auditService_log d.faults task2.workflowId .TASK_COMPLETED
            (.obj [("taskId", idPayload d.taskId), ("result", result)]) .INFO w4
          withTask task2 (reconcileWorkflow d.faults task2.workflowId w5)

/-- The error message failure propagation writes on the workflow. -/
def taskFailureMessage (taskName : String) (errorMessage : String) : String :=
  "Task " ++ taskName ++ " failed: " ++ errorMessage

/-- The `catch` block (lines 85-111), on the in-memory task document as the `try` block
left it. It always ends by throwing. -/
def catchBlock (d : Delivery) (task : Task) (error : JsError) (w : World) : Outcome × World :=
  let task1 : Task :=
    { task with retryCount := task.retryCount + 1,
                error := some ⟨error.message, some error.stack⟩ }
  if (task1.retryCount : Int) < task1.maxRetries then
    let task2 : Task := { task1 with status := .PENDING }
    match Task_save d.faults .saveRetry d.taskId task2 w with
    | (.error e, w1) => (.threw e, w1)
    | (.ok _, w1) => (.threw error, w1)
  else
    let task2 : Task := { task1 with status := .FAILED }
    match Task_save d.faults .saveFailed d.taskId task2 w with
    | (.error e, w1) => (.threw e, w1)
    | (.ok _, w1) =>
      let w2 := auditService_log d.faults task2.workflowId .TASK_FAILED
        (.obj [("taskId", idPayload d.taskId), ("error", .str error.message)]) .INFO w1
      match Workflow_findByIdAndUpdate d.faults task2.workflowId .FAILED
          ⟨taskFailureMessage task2.name error.message, none⟩ w2 with
      | (.error e, w3) => (.threw e, w3)
      | (.ok _, w3) =>
        let w4 := auditService_log d.faults task2.workflowId .WORKFLOW_FAILED
          (.obj [("workflowId", idPayload task2.workflowId), ("error", .str error.message)])
          .INFO w3
        (.threw error, w4)

/-- The `execute-task` job handler, for one delivery. -/
def executeTask (d : Delivery) (w : World) : Outcome × World :=
  match Task_findById d.faults d.taskId w with
  | .error e => (.threw e, w)
  | .ok none => (.returned, w)
  | .ok (some task) =>
    match tryBlock d task w with
    | (.ok _, _, w1) => (.returned, w1)
    | (.error e, task1, w1) => catchBlock d task1 e w1

/-- Successive deliveries, oldest first; whether a delivery returned or threw only matters
to the queue. -/
def deliverAll : List Delivery → World → World
  | [], w => w
  | d :: ds, w => deliverAll ds (executeTask d w).2

/-! ## The keyword router (`src/core/router.js`) -/

/-- A task descriptor `{ type, name, input }` as a router returns it. -/
structure TaskDescriptor where
  type : TaskType
  name : String
  input : Option Payload

/-- `String.prototype.toLowerCase`, on the letters that matter to the keyword match: the
only characters that lower-case to a letter of "search" are the ASCII capitals. -/
def toLowerCase (s : String) : String := ⟨s.data.map Char.toLower⟩

/-- The pattern is at the start of the text. -/
def startsWithChars : List Char → List Char → Bool
  | [], _ => true
  | _ :: _, [] => false
  | p :: ps, c :: cs => p == c && startsWithChars ps cs

/-- The pattern occurs somewhere in the text. -/
def includesChars (pattern : List Char) : List Char → Bool
  | [] => startsWithChars pattern []
  | c :: cs => startsWithChars pattern (c :: cs) || includesChars pattern cs

/-- `String.prototype.includes`. -/
def includes (s pattern : String) : Bool := includesChars pattern.data s.data

/-- `ContextRouter.route(goal, context)` (lines 13-35). -/
def contextRouter_route (goal : String) (_context : Payload) : List TaskDescriptor :=
  let tasks : List TaskDescriptor :=
    if includes (toLowerCase goal) "search" then
      [⟨.TOOL_CALL, "search_web", some (.obj [("query", .str goal)])⟩]
    else []
  if tasks.length = 0 then
    tasks ++ [⟨.REASONING, "analyze_request", some (.obj [("goal", .str goal)])⟩]
  else tasks

/-- The condition of the router in the words of the specification: the lower-cased goal
contains "search", that is, the characters of the goal, capitals lowered, are some
characters, then s, e, a, r, c, h, then some characters. It is stated on the characters and
not with `includes` and `toLowerCase`, the functions of the embedding it is compared
with. -/
def mentionsSearch (goal : String) : Prop :=
  ∃ pre post : List Char,
    goal.data.map Char.toLower = pre ++ ['s', 'e', 'a', 'r', 'c', 'h'] ++ post

/-! ## The orchestration service (`src/services/workflowService.js`) -/

/-- What one call of `createWorkflow` draws from outside: the two kinds of fresh uuids, the
router it consults (a swappable strategy that may throw), and the faults of the store. The
trace id is fresh, so the unique index on `traceId` does not come into play. -/
structure CreateEnv where
  traceId : String
  executionId : Nat → String
  route : String → Payload → Except JsError (List TaskDescriptor)
  faults : Faults

/-- The `ValidationError` of `Model.create` for a document whose `required` string paths
are empty: `paths` pairs each required path with its value. The stack is not modelled. -/
def validationError (model : String) (paths : List (String × String)) : JsError :=
  ⟨model ++ " validation failed: " ++
      ", ".intercalate ((paths.filter (fun p => p.2 == "")).map
        (fun p => p.1 ++ ": Path `" ++ p.1 ++ "` is required.")),
    "ValidationError"⟩

/-- The context of a workflow as the store holds it and a load returns it: an insert leaves
out the empty objects, and the default `{}` of the schema stands for a context that is left
out altogether. -/
def storedContext (context : Payload) : Payload :=
  (insertedValue context).getD (.obj [])

/-- `Workflow.create(doc)`: the document is validated (`traceId` and `goal` are `required`,
which for a string means non-empty) before anything is written; the new record gets the
next id. -/
def Workflow_create (f : Faults) (workflow : Workflow) (w : World) :
    Except JsError Nat × World :=
  if workflow.traceId = "" ∨ workflow.goal = "" then
    (.error (validationError "Workflow"
      [("traceId", workflow.traceId), ("goal", workflow.goal)]), w)
  else
    match f .createWorkflow with
    | some e => (.error e, w)
    | none =>
      (.ok w.workflows.length,
        { w with workflows := w.workflows ++ [workflow],
                 effects := w.effects ++ [.workflowCreated w.workflows.length workflow] })

/-- `workflow.save()` inside `createWorkflow`, at the given place. -/
def Workflow_saveAt (f : Faults) (site : Site) (workflowId : Nat) (workflow : Workflow)
    (w : World) : Except JsError Unit × World :=
  match f site with
  | some e => (.error e, w)
  | none =>
    (.ok (), { w with workflows := w.workflows.set workflowId workflow,
                      effects := w.effects ++ [.workflowSaved workflowId workflow] })

/-- `Task.create(doc)` for step number `step`: the document is validated (`name` is
`required`; `workflowId` and `type` are always given) before anything is written; the new
record gets the next id. -/
def Task_create (f : Faults) (step : Nat) (task : Task) (w : World) :
    Except JsError Nat × World :=
  if task.name = "" then
    (.error (validationError "Task" [("name", task.name)]), w)
  else
    match f (.createTask step) with
    | some e => (.error e, w)
    | none =>
      (.ok w.tasks.length,
        { w with tasks := w.tasks ++ [task],
                 effects := w.effects ++ [.taskCreated w.tasks.length task] })

/-- `scheduleJob('now', 'execute-task', { taskId, executionId })` for step number `step`. -/
def scheduleJob (f : Faults) (step : Nat) (taskId : Nat) (executionId : String) (w : World) :
    Except JsError Unit × World :=
  match f (.scheduleJob step) with
  | some e => (.error e, w)
  | none =>
    (.ok (), { w with jobs := w.jobs ++ [(taskId, executionId)],
                      effects := w.effects ++ [.jobScheduled taskId executionId] })

/-- The task document of lines 37-43 as the insert writes it, with the defaults of the
schema; the input loses its empty objects. -/
def newTask (workflowId : Nat) (step : TaskDescriptor) : Task :=
  { workflowId := workflowId, type := step.type, name := step.name, status := .PENDING,
    input := step.input.bind insertedValue, output := none, retryCount := 0, maxRetries := 3,
    error := none, startedAt := none, completedAt := none }

/-- The loop of lines 36-51 from step number `step` on. -/
def scheduleSteps (env : CreateEnv) (workflowId : Nat) :
    Nat → List TaskDescriptor → World → Except JsError Unit × World
  | _, [], w => (.ok (), w)
  | step, descriptor :: rest, w =>
    match Task_create env.faults step (newTask workflowId descriptor) w with
    | (.error e, w1) => (.error e, w1)
    | (.ok taskId, w1) =>
      let executionId := env.executionId step
      match scheduleJob env.faults step taskId executionId w1 with
      | (.error e, w2) => (.error e, w2)
      | (.ok _, w2) =>
        let w3 := auditService_log env.faults workflowId .TASK_SCHEDULED
          (.obj [("taskId", idPayload taskId), ("taskName", .str descriptor.name),
            ("executionId", .str executionId)]) .INFO w2
        scheduleSteps env workflowId (step + 1) rest w3

/-- The `try` block of `createWorkflow` (lines 24-52): the result, the in-memory workflow
document as the block left it, and the world. -/
def routeAndSchedule (env : CreateEnv) (goal : String) (context : Payload) (workflowId : Nat)
    (workflow : Workflow) (w : World) : Except JsError Unit × Workflow × World :=
  match env.route goal context with
  | .error e => (.error e, workflow, w)
  | .ok nextSteps =>
    if nextSteps.length > 0 then
      let workflow1 : Workflow := { workflow with status := .RUNNING }
      match Workflow_saveAt env.faults .saveWorkflowRunning workflowId workflow1 w with
      | (.error e, w1) => (.error e, workflow1, w1)
      | (.ok _, w1) =>
        ((scheduleSteps env workflowId 0 nextSteps w1).1, workflow1,
          (scheduleSteps env workflowId 0 nextSteps w1).2)
    else
      ((scheduleSteps env workflowId 0 nextSteps w).1, workflow,
        (scheduleSteps env workflowId 0 nextSteps w).2)

/-- `WorkflowService.createWorkflow(goal, context = {})` (lines 10-61): it returns the id
and the document of the workflow, or throws. The workflow document is threaded with its
context as the store holds it; the function does not read `workflow.context`, the router
gets the argument `context`. -/
def workflowService_createWorkflow (env : CreateEnv) (goal : String)
    (context? : Option Payload) (w : World) : Except JsError (Nat × Workflow) × World :=
  let context : Payload := context?.getD (.obj [])
  let workflow : Workflow :=
    { traceId := env.traceId, goal := goal, status := .PENDING,
      context := storedContext context, result := none, error := none }
  match Workflow_create env.faults workflow w with
  | (.error e, w1) => (.error e, w1)
  | (.ok workflowId, w1) =>
    let w2 := auditService_log env.faults workflowId .WORKFLOW_CREATED
      (.obj [("goal", .str goal), ("traceId", .str env.traceId)]) .INFO w1
    match routeAndSchedule env goal context workflowId workflow w2 with
    | (.ok _, workflow1, w3) => (.ok (workflowId, workflow1), w3)
    | (.error error, workflow1, w3) =>
      let workflow2 : Workflow :=
        { workflow1 with status := .FAILED,
                         error := some ⟨error.message, some error.stack⟩ }
      match Workflow_saveAt env.faults .saveWorkflowFailed workflowId workflow2 w3 with
      | (.error e, w4) => (.error e, w4)
      | (.ok _, w4) => (.ok (workflowId, workflow2), w4)

/-! ## The create-workflow endpoint (`src/api/controllers/workflowController.js`) -/

/-- A parsed JSON request body, as far as the endpoint looks at it: the two keys it reads.
Other keys are dropped by the schema. -/
structure RequestBody where
  goal : Option Payload
  context : Option Payload

/-- The answer of the endpoint: 201 with the workflow, 400 on a validation error, or the
error handed to `next`. -/
inductive Response where
  | created (workflowId : Nat) (workflow : Workflow)
  | badRequest
  | failed (error : JsError)

/-- `z.object({})` applied to a value: a plain object is accepted and, the schema declaring
no key and zod object schemas stripping the keys they do not declare, comes out as `{}`;
anything else is a validation error (`none`). -/
def zObjectEmpty_parse : Payload → Option Payload
  | .obj _ => some (.obj [])
  | _ => none

/-- `createWorkflowSchema.parse(req.body)` (lines 6-9, 13): `goal` is a string of length at
least 1 and `context` an optional object; `none` is the ZodError. -/
def createWorkflowSchema_parse (body : RequestBody) : Option (String × Option Payload) :=
  match body.goal with
  | some (.str goal) =>
    if goal.length ≥ 1 then
      match body.context with
      | none => some (goal, none)
      | some c =>
        match zObjectEmpty_parse c with
        | some parsed => some (goal, some parsed)
        | none => none
    else none
  | _ => none

/-- The controller `createWorkflow(req, res, next)` (lines 11-22). -/
def workflowController_createWorkflow (env : CreateEnv) (body : RequestBody) (w : World) :
    Response × World :=
  match createWorkflowSchema_parse body with
  | none => (.badRequest, w)
  | some (goal, context) =>
    match workflowService_createWorkflow env goal context w with
    | (.ok (workflowId, workflow), w1) => (.created workflowId workflow, w1)
    | (.error e, w1) => (.failed e, w1)

/-! ## The internal tool server (`src/infrastructure/internalMcpServer.js`) -/

/-- The `CallToolRequestSchema` handler (lines 43-64) seen through `mcpClient.executeTool`,
which parses the JSON text of the answer: `search_web` answers with two results, the title
of the first one quoting `arguments?.query` as the template literal renders it
(`renderQuery`); for any other tool name the handler throws `Error("Tool not found")`, which
reaches the caller as the error the protocol client makes of that message
(`protocolError`). -/
def internalServer_executeTool (renderQuery : Option Payload → String)
    (protocolError : String → JsError) (toolName : String) (args : Option Payload) :
    Except JsError Payload :=
  if toolName = "search_web" then
    .ok (.arr [.obj [("title", .str ("Real Protocol Result for: " ++ renderQuery args)),
                     ("url", .str "https://mcp.io/docs")],
               .obj [("title", .str "Production Grade Node.js"),
                     ("url", .str "https://nodejs.org")]])
  else .error (protocolError "Tool not found")

/-! ## Observations on the ghost trace and the log -/

/-- Number of tool invocations recorded in a trace. -/
def toolInvocations (es : List Effect) : Nat :=
  es.countP (fun
    | .toolInvoked _ _ => true
    | _ => false)

/-- The documents with which task `taskId` was saved, in order. -/
def savedTasks (taskId : Nat) (es : List Effect) : List Task :=
  es.filterMap (fun
    | .taskSaved i t => if i = taskId then some t else none
    | _ => none)

/-- The statuses with which task `taskId` was saved, in order. -/
def savedStatuses (taskId : Nat) (es : List Effect) : List TaskStatus :=
  (savedTasks taskId es).map (fun t => t.status)

/-- The retry counters with which task `taskId` was saved, in order. -/
def savedRetryCounts (taskId : Nat) (es : List Effect) : List Nat :=
  (savedTasks taskId es).map (fun t => t.retryCount)

/-- The event tags of a log, in order. -/
def eventTypes (log : List AuditLogEntry) : List EventType :=
  log.map (fun e => e.eventType)

/-- Two worlds hold the same durable state: they agree on everything but the ghost trace. -/
def World.sameStore (w1 w2 : World) : Prop :=
  w1.tasks = w2.tasks ∧ w1.workflows = w2.workflows ∧ w1.auditLog = w2.auditLog ∧
    w1.jobs = w2.jobs

/-- The tasks `Task.find({ workflowId })` returns. -/
def tasksOf (workflowId : Nat) (w : World) : List Task :=
  w.tasks.filter (fun t => t.workflowId == workflowId)

/-- The workflow document as reconciliation saves it when a task has failed (lines 16-17). -/
def failedWorkflow (workflow : Workflow) : Workflow :=
  { workflow with status := .FAILED, error := some ⟨reconciledFailureMessage, none⟩ }

/-- The workflow document as reconciliation saves it when all tasks completed (lines 25-26). -/
def completedWorkflow (workflow : Workflow) : Workflow :=
  { workflow with status := .COMPLETED, result := some reconciledResult }

/-- The audit entry of line 19. -/
def reconcileFailedEntry (workflowId : Nat) : AuditLogEntry :=
  auditEntry workflowId .INFO .WORKFLOW_FAILED
    (.obj [("reason", .str "Reconciliation found failed tasks")])

/-- The audit entry of line 28. -/
def reconcileCompletedEntry (workflowId : Nat) : AuditLogEntry :=
  auditEntry workflowId .INFO .WORKFLOW_COMPLETED
    (.obj [("reason", .str "Reconciliation confirmed completion")])

/-- The task document as the handler saves it on the recovery path (lines 59-60). -/
def recoveredTask (d : Delivery) (task : Task) : Task :=
  { task with status := .COMPLETED, completedAt := some d.completedNow }

/-- The task document as the handler saves it before invoking the tool (lines 64-65). -/
def runningTask (d : Delivery) (task : Task) : Task :=
  { task with status := .RUNNING, startedAt := some d.startedNow }

/-- The audit entry of line 68. -/
def startedEntry (d : Delivery) (task : Task) : AuditLogEntry :=
  auditEntry task.workflowId .INFO .TASK_STARTED
    (.obj [("taskId", idPayload d.taskId), ("tool", .str task.name)])

/-- The task document as the handler saves it after the tool answered (lines 73-75). -/
def finishedTask (d : Delivery) (task : Task) (result : Payload) : Task :=
  { runningTask d task with output := minimizedValue result, status := .COMPLETED,
                            completedAt := some d.completedNow }

/-- The audit entry of line 78. -/
def completedEntry (d : Delivery) (task : Task) (result : Payload) : AuditLogEntry :=
  auditEntry task.workflowId .INFO .TASK_COMPLETED
    (.obj [("taskId", idPayload d.taskId), ("result", result)])

/-- The task document after lines 88-89 on the running document. -/
def erroredTask (d : Delivery) (task : Task) (error : JsError) : Task :=
  { runningTask d task with retryCount := task.retryCount + 1,
                            error := some ⟨error.message, some error.stack⟩ }

/-- The audit entry of line 101. -/
def taskFailedEntry (d : Delivery) (task : Task) (error : JsError) : AuditLogEntry :=
  auditEntry task.workflowId .INFO .TASK_FAILED
    (.obj [("taskId", idPayload d.taskId), ("error", .str error.message)])

/-- The audit entry of line 108. -/
def workflowFailedEntry (task : Task) (error : JsError) : AuditLogEntry :=
  auditEntry task.workflowId .INFO .WORKFLOW_FAILED
    (.obj [("workflowId", idPayload task.workflowId), ("error", .str error.message)])

/-- The status history the retry policy writes in `n` failed attempts that are retried:
RUNNING then PENDING, `n` times. -/
def retryCycles : Nat → List TaskStatus
  | 0 => []
  | n + 1 => .RUNNING :: .PENDING :: retryCycles n

/-- A status history starts with the cycle PENDING, RUNNING, PENDING. -/
def isCycleStart : List TaskStatus → Bool
  | .PENDING :: .RUNNING :: .PENDING :: _ => true
  | _ => false

/-- Number of times the cycle PENDING, RUNNING, PENDING occurs in a status history
(consecutive cycles share their PENDING). -/
def countRetryCycles : List TaskStatus → Nat
  | [] => 0
  | s :: rest => (if isCycleStart (s :: rest) then 1 else 0) + countRetryCycles rest

/-- The tool-invocation interface fails during delivery `d`, whatever it is asked. -/
def toolFails (d : Delivery) : Prop :=
  ∀ toolName args, ∃ e, d.tool toolName args = .error e

/-! ## Concrete stores used as examples -/

/-- A task as `createWorkflow` creates it: PENDING, no output, three retries. -/
def freshTask : Task :=
  ⟨0, .TOOL_CALL, "search_web", .PENDING, some (.obj [("query", .str "search logs")]), none,
    0, 3, none, none, none⟩

/-- A workflow in the given status, otherwise empty. -/
def workflowIn (status : WorkflowStatus) : Workflow :=
  ⟨"trace-0", "search logs", status, .obj [], none, none⟩

/-- A store with one workflow and its tasks, empty log and trace. -/
def storeOf (workflow : Workflow) (tasks : List Task) : World :=
  ⟨tasks, [workflow], [], [], []⟩

/-- A fault-free delivery for task 0 during which the tool fails with the given message. -/
def failingDelivery (message : String) : Delivery :=
  ⟨0, "exec", fun _ _ => .error ⟨message, "stack"⟩, 1, 2, noFaults⟩

/-- A fault-free delivery for task 0 during which the tool answers `result`. -/
def succeedingDelivery (result : Payload) : Delivery :=
  ⟨0, "exec", fun _ _ => .ok result, 1, 2, noFaults⟩

/-- What the deliveries of the retry scenario have in common: they are for task `taskId`,
the store works normally, and the tool fails. -/
def failingDeliveries (taskId : Nat) (ds : List Delivery) : Prop :=
  ∀ d ∈ ds, d.taskId = taskId ∧ d.faults = noFaults ∧ toolFails d

/-- The deliveries are for task `taskId`, the store works normally, and the tool fails when
it is asked for `toolName` with `args`. -/
def failingOn (taskId : Nat) (toolName : String) (args : Option Payload)
    (ds : List Delivery) : Prop :=
  ∀ d ∈ ds, d.taskId = taskId ∧ d.faults = noFaults ∧ ∃ e, d.tool toolName args = .error e

/-- The invariant of the retry counter of one task under failing deliveries, for the bound
`m`: the bound itself is never written, the counter is at most `m`, it is `m` on a FAILED
task, and it is below `m` on a task that will still invoke the tool. -/
def RetryInv (m : Int) (t : Task) : Prop :=
  t.maxRetries = m ∧ (t.retryCount : Int) ≤ m ∧
  (t.status = .FAILED → (t.retryCount : Int) = m) ∧
  (t.status ≠ .FAILED → t.status ≠ .COMPLETED → truthy? t.output = false →
    (t.retryCount : Int) < m)

/-- A store with one RUNNING workflow and three tasks: COMPLETED, FAILED, PENDING. -/
def mixedStore : World :=
  storeOf (workflowIn .RUNNING)
    [{ freshTask with status := .COMPLETED, output := some (.str "done") },
     { freshTask with status := .FAILED }, freshTask]

/-- The store of the counterexample to C4: a fresh task with `maxRetries` 0. -/
def zeroRetriesStore : World :=
  storeOf (workflowIn .RUNNING) [{ freshTask with maxRetries := 0 }]

/-- A store with one RUNNING workflow whose task is COMPLETED with an output. -/
def completedStore : World :=
  storeOf (workflowIn .RUNNING)
    [{ freshTask with status := .COMPLETED, output := some (.str "done") }]

/-- A store with one RUNNING workflow and its fresh task (three retries). -/
def freshStore : World :=
  storeOf (workflowIn .RUNNING) [freshTask]

/-- The store of the failing input of C2: task 0 is RUNNING and its output is the number 0. -/
def zeroOutputStore : World :=
  storeOf (workflowIn .RUNNING) [{ freshTask with status := .RUNNING, output := some (.num 0) }]

/-- The descriptor the router returns for a goal that mentions "search". -/
def searchDescriptor (goal : String) : TaskDescriptor :=
  ⟨.TOOL_CALL, "search_web", some (.obj [("query", .str goal)])⟩

/-- The fallback descriptor of the router. -/
def fallbackDescriptor (goal : String) : TaskDescriptor :=
  ⟨.REASONING, "analyze_request", some (.obj [("goal", .str goal)])⟩

/-- The workflow document `createWorkflow` starts from (lines 14-19). -/
def pendingWorkflow (env : CreateEnv) (goal : String) (context? : Option Payload) : Workflow :=
  { traceId := env.traceId, goal := goal, status := .PENDING,
    context := storedContext (context?.getD (.obj [])), result := none, error := none }

/-- The audit entry of line 21. -/
def createdEntry (env : CreateEnv) (goal : String) (workflowId : Nat) : AuditLogEntry :=
  auditEntry workflowId .INFO .WORKFLOW_CREATED
    (.obj [("goal", .str goal), ("traceId", .str env.traceId)])

/-- The audit entry of line 50. -/
def scheduledEntry (workflowId taskId : Nat) (taskName executionId : String) :
    AuditLogEntry :=
  auditEntry workflowId .INFO .TASK_SCHEDULED
    (.obj [("taskId", idPayload taskId), ("taskName", .str taskName),
      ("executionId", .str executionId)])

/-- The store `createWorkflow` leaves when the router returned the one descriptor and no
store operation failed. -/
def createdStore (env : CreateEnv) (goal : String) (context? : Option Payload) (w : World)
    (descriptor : TaskDescriptor) : World :=
  { tasks := w.tasks ++ [newTask w.workflows.length descriptor],
    workflows := w.workflows ++
      [{ pendingWorkflow env goal context? with status := .RUNNING }],
    auditLog := w.auditLog ++ [createdEntry env goal w.workflows.length,
      scheduledEntry w.workflows.length w.tasks.length descriptor.name (env.executionId 0)],
    jobs := w.jobs ++ [(w.tasks.length, env.executionId 0)],
    effects := w.effects ++
      [.workflowCreated w.workflows.length (pendingWorkflow env goal context?),
       .auditAppended (createdEntry env goal w.workflows.length),
       .workflowSaved w.workflows.length
         { pendingWorkflow env goal context? with status := .RUNNING },
       .taskCreated w.tasks.length (newTask w.workflows.length descriptor),
       .jobScheduled w.tasks.length (env.executionId 0),
       .auditAppended (scheduledEntry w.workflows.length w.tasks.length descriptor.name
         (env.executionId 0))] }

/-- What `auditService.log` appends: the entry, or nothing when the write fails. -/
def auditSuffix (f : Faults) (workflowId : Nat) (eventType : EventType) (details : Payload)
    (level : Level) : List AuditLogEntry :=
  match f (.audit eventType) with
  | some _ => []
  | none => [auditEntry workflowId level eventType details]

/-- What `reconcileWorkflow` appends to the log of `w`. -/
def reconcileSuffix (f : Faults) (workflowId : Nat) (w : World) : List AuditLogEntry :=
  (reconcileWorkflow f workflowId w).2.auditLog.drop w.auditLog.length

/-- A store with one RUNNING workflow and two fresh tasks, `search_web` and
`analyze_request`. -/
def twoTaskStore : World :=
  storeOf (workflowIn .RUNNING)
    [freshTask, { freshTask with type := .REASONING, name := "analyze_request" }]

/-- A store with one RUNNING workflow, a COMPLETED task and a PENDING one. -/
def progressStore : World :=
  storeOf (workflowIn .RUNNING)
    [{ freshTask with status := .COMPLETED, output := some (.str "done") }, freshTask]

/-- The empty store. -/
def emptyStore : World := ⟨[], [], [], [], []⟩

/-- An environment of `createWorkflow` with the keyword router and a store that works. -/
def keywordEnv : CreateEnv :=
  ⟨"trace-1", fun _ => "exec-1", fun goal context => .ok (contextRouter_route goal context),
    noFaults⟩

/-- An environment of `createWorkflow` whose router throws, with a store that works. -/
def brokenRouterEnv : CreateEnv :=
  ⟨"trace-1", fun _ => "exec-1", fun _ _ => .error ⟨"router down", "stack"⟩, noFaults⟩

/-- A fault-free delivery for task 0 whose tool is the internal server. -/
def internalDelivery : Delivery :=
  ⟨0, "exec", internalServer_executeTool (fun _ => "undefined")
    (fun message => ⟨message, "stack"⟩), 1, 2, noFaults⟩

/-- The log holds an event of the given type for the given workflow. -/
def hasEvent (log : List AuditLogEntry) (workflowId : Nat) (eventType : EventType) : Prop :=
  ∃ e ∈ log, e.workflowId = workflowId ∧ e.eventType = eventType

/-- The audit log is consistent with the terminal statuses: every FAILED workflow has a
WORKFLOW_FAILED event and every COMPLETED workflow a WORKFLOW_COMPLETED event. -/
def AuditConsistent (w : World) : Prop :=
  ∀ i wf, w.workflows[i]? = some wf →
    (wf.status = .FAILED → hasEvent w.auditLog i .WORKFLOW_FAILED) ∧
    (wf.status = .COMPLETED → hasEvent w.auditLog i .WORKFLOW_COMPLETED)

/-- The stores the system reaches from the empty store when the store works and the router
returns descriptors that name their task (any such descriptors, as the keyword router's):
by `createWorkflow`, by deliveries of the execute-task handler with any tool behaviour, and
by `reconcileWorkflow`. -/
inductive ReachableRouted : World → Prop
  | empty : ReachableRouted ⟨[], [], [], [], []⟩
  | create (env : CreateEnv) (goal : String) (context? : Option Payload) (w : World)
      (steps : List TaskDescriptor) :
      ReachableRouted w → env.faults = noFaults →
      env.route goal (context?.getD (.obj [])) = .ok steps →
      (∀ step ∈ steps, step.name ≠ "") →
      ReachableRouted (workflowService_createWorkflow env goal context? w).2
  | deliver (d : Delivery) (w : World) :
      ReachableRouted w → d.faults = noFaults → ReachableRouted (executeTask d w).2
  | reconcile (workflowId : Nat) (w : World) :
      ReachableRouted w → ReachableRouted (reconcileWorkflow noFaults workflowId w).2

/-- Among the effects `pre`, task `taskId` was saved with a document satisfying `p`. -/
def savedTaskWith (taskId : Nat) (p : Task → Bool) (pre : List Effect) : Bool :=
  pre.any (fun
    | .taskSaved i t => i == taskId && p t
    | _ => false)

/-- Among the effects `pre`, workflow `workflowId` was saved with a document satisfying
`p`. -/
def savedWorkflowWith (workflowId : Nat) (p : Workflow → Bool) (pre : List Effect) : Bool :=
  pre.any (fun
    | .workflowSaved i wf => i == workflowId && p wf
    | _ => false)

/-- The save that an audit event of a delivery describes has been made among the effects
`pre` that came before it: the task saved RUNNING for TASK_STARTED, saved COMPLETED for
TASK_COMPLETED (the output goes with the same save, as far as the save keeps it), saved
FAILED for TASK_FAILED, and the workflow of the event saved FAILED or COMPLETED for
WORKFLOW_FAILED and WORKFLOW_COMPLETED. A delivery emits no other event. -/
def accountedFor (taskId : Nat) (pre : List Effect) (e : AuditLogEntry) : Bool :=
  match e.eventType with
  | .TASK_STARTED => savedTaskWith taskId (fun t => t.status == .RUNNING) pre
  | .TASK_COMPLETED => savedTaskWith taskId (fun t => t.status == .COMPLETED) pre
  | .TASK_FAILED => savedTaskWith taskId (fun t => t.status == .FAILED) pre
  | .WORKFLOW_FAILED => savedWorkflowWith e.workflowId (fun wf => wf.status == .FAILED) pre
  | .WORKFLOW_COMPLETED =>
    savedWorkflowWith e.workflowId (fun wf => wf.status == .COMPLETED) pre
  | .WORKFLOW_CREATED => false
  | .TASK_SCHEDULED => false

/-- The status of task `taskId` in the store after the effects `pre` of a delivery that
loaded the document `task`: the status of the last save, or the loaded one. -/
def persistedStatus (taskId : Nat) (task : Task) (pre : List Effect) : TaskStatus :=
  match (savedTasks taskId pre).getLast? with
  | some t => t.status
  | none => task.status

/-- The order of one delivery's effects `es`, read after the effects `pre`: every audit
event comes after the save it describes, and `reconcileWorkflow` is called only when the
status of the task in the store is COMPLETED or FAILED. -/
def persistBeforeAudit (taskId : Nat) (task : Task) : List Effect → List Effect → Bool
  | _, [] => true
  | pre, .auditAppended e :: rest =>
    accountedFor taskId pre e && persistBeforeAudit taskId task (pre ++ [.auditAppended e]) rest
  | pre, .reconcileCalled workflowId :: rest =>
    (persistedStatus taskId task pre == .COMPLETED ||
      persistedStatus taskId task pre == .FAILED) &&
    persistBeforeAudit taskId task (pre ++ [.reconcileCalled workflowId]) rest
  | pre, x :: rest => persistBeforeAudit taskId task (pre ++ [x]) rest

/-- What `auditService.log` adds to the trace: the append, or nothing when the write
fails. -/
def auditTrace (f : Faults) (workflowId : Nat) (eventType : EventType) (details : Payload)
    (level : Level) : List Effect :=
  match f (.audit eventType) with
  | some _ => []
  | none => [.auditAppended (auditEntry workflowId level eventType details)]

/-- What `reconcileWorkflow` adds to the trace of `w`. -/
def reconcileTrace (f : Faults) (workflowId : Nat) (w : World) : List Effect :=
  (reconcileWorkflow f workflowId w).2.effects.drop w.effects.length

/-- The effects one delivery of the handler adds to the trace. -/
def deliveryTrace (d : Delivery) (w : World) : List Effect :=
  (executeTask d w).2.effects.drop w.effects.length

/-- A store in which `Task.find`, the first query of `reconcileWorkflow`, throws. -/
def findTasksDown : Faults
  | .findTasks => some ⟨"store down", "stack"⟩
  | _ => none

/-- A delivery for task 0 during which the tool would answer, and `Task.find` throws. -/
def reconcileFailsDelivery : Delivery :=
  ⟨0, "exec", fun _ _ => .ok (.str "found"), 1, 2, findTasksDown⟩

/-- A store in which `Workflow.findById`, the second query of `reconcileWorkflow`, throws. -/
def findWorkflowDown : Faults
  | .findWorkflow => some ⟨"store down", "stack"⟩
  | _ => none

/-- A delivery for task 0 during which the tool would answer, and `Workflow.findById`
throws. -/
def lookupFailsDelivery : Delivery :=
  ⟨0, "exec", fun _ _ => .ok (.str "found"), 1, 2, findWorkflowDown⟩

/-- A store with one RUNNING workflow whose only task is FAILED (retryCount 0 of 3). -/
def failedTaskStore : World :=
  storeOf (workflowIn .RUNNING) [{ freshTask with status := .FAILED }]

/-- A store as three failing deliveries leave it: the workflow is FAILED and its task is
FAILED with retryCount 3 of 3. -/
def exhaustedStore : World :=
  storeOf { workflowIn .FAILED with error := some ⟨"Task search_web failed: boom", none⟩ }
    [{ freshTask with status := .FAILED, retryCount := 3,
                      error := some ⟨"boom", some "stack"⟩, startedAt := some 1 }]

/-- A store whose only task names workflow 7, and there is no such workflow; the task has
one attempt. -/
def orphanStore : World :=
  ⟨[{ freshTask with workflowId := 7, maxRetries := 1 }], [], [], [], []⟩

/-- A store with one RUNNING workflow whose task has failed twice and is PENDING again. -/
def lastAttemptStore : World :=
  storeOf (workflowIn .RUNNING) [{ freshTask with retryCount := 2 }]

/-! ## Theorems -/

/-! ### The audit entries, written out

The details of the events the engine emits hold no empty object, except for what a tool
result may bring into TASK_COMPLETED, so they are stored as they are given. -/

theorem startedEntry_eq (d : Delivery) (task : Task) :
    startedEntry d task = ⟨task.workflowId, .INFO, .TASK_STARTED,
      some (.obj [("taskId", idPayload d.taskId), ("tool", .str task.name)])⟩ := rfl

theorem taskFailedEntry_eq (d : Delivery) (task : Task) (error : JsError) :
    taskFailedEntry d task error = ⟨task.workflowId, .INFO, .TASK_FAILED,
      some (.obj [("taskId", idPayload d.taskId), ("error", .str error.message)])⟩ := rfl

theorem workflowFailedEntry_eq (task : Task) (error : JsError) :
    workflowFailedEntry task error = ⟨task.workflowId, .INFO, .WORKFLOW_FAILED,
      some (.obj [("workflowId", idPayload task.workflowId),
        ("error", .str error.message)])⟩ := rfl

theorem reconcileFailedEntry_eq (workflowId : Nat) :
    reconcileFailedEntry workflowId = ⟨workflowId, .INFO, .WORKFLOW_FAILED,
      some (.obj [("reason", .str "Reconciliation found failed tasks")])⟩ := rfl

theorem reconcileCompletedEntry_eq (workflowId : Nat) :
    reconcileCompletedEntry workflowId = ⟨workflowId, .INFO, .WORKFLOW_COMPLETED,
      some (.obj [("reason", .str "Reconciliation confirmed completion")])⟩ := rfl

theorem createdEntry_eq (env : CreateEnv) (goal : String) (workflowId : Nat) :
    createdEntry env goal workflowId = ⟨workflowId, .INFO, .WORKFLOW_CREATED,
      some (.obj [("goal", .str goal), ("traceId", .str env.traceId)])⟩ := rfl

theorem scheduledEntry_eq (workflowId taskId : Nat) (taskName executionId : String) :
    scheduledEntry workflowId taskId taskName executionId =
      ⟨workflowId, .INFO, .TASK_SCHEDULED,
        some (.obj [("taskId", idPayload taskId), ("taskName", .str taskName),
          ("executionId", .str executionId)])⟩ := rfl

@[simp] theorem auditEntry_workflowId (workflowId : Nat) (level : Level)
    (eventType : EventType) (details : Payload) :
    (auditEntry workflowId level eventType details).workflowId = workflowId := rfl

@[simp] theorem auditEntry_eventType (workflowId : Nat) (level : Level)
    (eventType : EventType) (details : Payload) :
    (auditEntry workflowId level eventType details).eventType = eventType := rfl

@[simp] theorem auditEntry_level (workflowId : Nat) (level : Level)
    (eventType : EventType) (details : Payload) :
    (auditEntry workflowId level eventType details).level = level := rfl

/-! ### Reconciliation -/

theorem getElem?_some_lt {α : Type} {l : List α} {i : Nat} {a : α} (h : l[i]? = some a) :
    i < l.length := by
  rcases List.getElem?_eq_some.mp h with ⟨hlt, _⟩
  exact hlt

theorem getElem?_some_mem {α : Type} {l : List α} {i : Nat} {a : α} (h : l[i]? = some a) :
    a ∈ l := by
  rcases List.getElem?_eq_some.mp h with ⟨hlt, heq⟩
  exact heq ▸ List.getElem_mem hlt

theorem sameStore_refl (w : World) : w.sameStore w := ⟨rfl, rfl, rfl, rfl⟩

/-- With the store working normally reconciliation never throws. -/
theorem reconcile_noFaults_ok (wid : Nat) (w : World) :
    (reconcileWorkflow noFaults wid w).1 = .ok () := by
  unfold reconcileWorkflow Task_find Workflow_findById Workflow_save auditService_log noFaults
  simp only
  cases w.workflows[wid]? with
  | none => rfl
  | some wf =>
    simp only
    split
    · rfl
    · split
      · rfl
      · split <;> rfl

/-- Reconciliation never writes a task. -/
theorem reconcile_tasks (f : Faults) (wid : Nat) (w : World) :
    (reconcileWorkflow f wid w).2.tasks = w.tasks := by
  unfold reconcileWorkflow Task_find Workflow_findById
  cases f .findTasks <;> cases f .findWorkflow <;> simp
  cases w.workflows[wid]? with
  | none => simp
  | some wf =>
    simp only
    split
    · simp
    · split
      · unfold Workflow_save auditService_log
        cases f .saveWorkflow <;> cases f (.audit .WORKFLOW_FAILED) <;> simp
      · split
        · unfold Workflow_save auditService_log
          cases f .saveWorkflow <;> cases f (.audit .WORKFLOW_COMPLETED) <;> simp
        · simp

theorem reconcile_missing_eq (wid : Nat) (w : World) (hwf : w.workflows[wid]? = none) :
    reconcileWorkflow noFaults wid w =
      (.ok (), { w with effects := w.effects ++ [.reconcileCalled wid] }) := by
  simp [reconcileWorkflow, Task_find, Workflow_findById, noFaults, hwf]

theorem reconcile_terminal_eq (wid : Nat) (w : World) (wf : Workflow)
    (hwf : w.workflows[wid]? = some wf)
    (hterm : wf.status = .COMPLETED ∨ wf.status = .FAILED) :
    reconcileWorkflow noFaults wid w =
      (.ok (), { w with effects := w.effects ++ [.reconcileCalled wid] }) := by
  simp [reconcileWorkflow, Task_find, Workflow_findById, noFaults, hwf, hterm]

theorem reconcile_failed_eq (wid : Nat) (w : World) (wf : Workflow)
    (hwf : w.workflows[wid]? = some wf)
    (hc : wf.status ≠ .COMPLETED) (hf : wf.status ≠ .FAILED)
    (hany : (tasksOf wid w).any (fun t => t.status == .FAILED) = true) :
    reconcileWorkflow noFaults wid w =
      (.ok (), { w with
        workflows := w.workflows.set wid (failedWorkflow wf),
        auditLog := w.auditLog ++ [reconcileFailedEntry wid],
        effects := w.effects ++ [.reconcileCalled wid, .workflowSaved wid (failedWorkflow wf),
          .auditAppended (reconcileFailedEntry wid)] }) := by
  unfold tasksOf at hany
  simp [reconcileWorkflow, Task_find, Workflow_findById, Workflow_save, auditService_log,
    noFaults, hwf, hc, hf, hany, failedWorkflow, reconcileFailedEntry]

theorem reconcile_completed_eq (wid : Nat) (w : World) (wf : Workflow)
    (hwf : w.workflows[wid]? = some wf)
    (hc : wf.status ≠ .COMPLETED) (hf : wf.status ≠ .FAILED)
    (hany : (tasksOf wid w).any (fun t => t.status == .FAILED) = false)
    (hall : (tasksOf wid w).all (fun t => t.status == .COMPLETED) = true) :
    reconcileWorkflow noFaults wid w =
      (.ok (), { w with
        workflows := w.workflows.set wid (completedWorkflow wf),
        auditLog := w.auditLog ++ [reconcileCompletedEntry wid],
        effects := w.effects ++ [.reconcileCalled wid,
          .workflowSaved wid (completedWorkflow wf),
          .auditAppended (reconcileCompletedEntry wid)] }) := by
  unfold tasksOf at hany hall
  simp [reconcileWorkflow, Task_find, Workflow_findById, Workflow_save, auditService_log,
    noFaults, hwf, hc, hf, hany, hall, completedWorkflow, reconcileCompletedEntry]

/-- The terminal-state guard, whatever store operations fail. -/
theorem reconcile_terminal (f : Faults) (wid : Nat) (w : World) (wf : Workflow)
    (hwf : w.workflows[wid]? = some wf)
    (hterm : wf.status = .COMPLETED ∨ wf.status = .FAILED) :
    (reconcileWorkflow f wid w).2.sameStore w := by
  unfold reconcileWorkflow Task_find Workflow_findById World.sameStore
  cases f .findTasks <;> cases f .findWorkflow <;> simp [hwf, hterm]

/-- What reconciliation does to the store depends on the store only, not on the trace. -/
theorem reconcile_congr (f : Faults) (wid : Nat) (w w' : World) (h : w.sameStore w') :
    (reconcileWorkflow f wid w).1 = (reconcileWorkflow f wid w').1 ∧
    (reconcileWorkflow f wid w).2.sameStore (reconcileWorkflow f wid w').2 := by
  obtain ⟨ts, wfs, log, jobs, es⟩ := w
  obtain ⟨ts', wfs', log', jobs', es'⟩ := w'
  obtain ⟨h1, h2, h3, h4⟩ := h
  simp only at h1 h2 h3 h4
  subst h1 h2 h3 h4
  unfold reconcileWorkflow Task_find Workflow_findById World.sameStore
  cases f .findTasks <;> cases f .findWorkflow <;> simp
  cases wfs[wid]? with
  | none => simp
  | some wf =>
    simp only
    split
    · simp
    · split
      · unfold Workflow_save auditService_log
        cases f .saveWorkflow <;> cases f (.audit .WORKFLOW_FAILED) <;> simp
      · split
        · unfold Workflow_save auditService_log
          cases f .saveWorkflow <;> cases f (.audit .WORKFLOW_COMPLETED) <;> simp
        · simp

/-- After reconciliation either the store is as before or the workflow is terminal. -/
theorem reconcile_dichotomy (f : Faults) (wid : Nat) (w : World) :
    (reconcileWorkflow f wid w).2.sameStore w ∨
    ∃ wf, (reconcileWorkflow f wid w).2.workflows[wid]? = some wf ∧
      (wf.status = .COMPLETED ∨ wf.status = .FAILED) := by
  unfold reconcileWorkflow Task_find Workflow_findById World.sameStore
  cases f .findTasks <;> cases f .findWorkflow <;> simp
  cases hwf : w.workflows[wid]? with
  | none => simp
  | some wf =>
    have hlt := getElem?_some_lt hwf
    simp only
    split
    · simp
    · split
      · unfold Workflow_save auditService_log
        cases f .saveWorkflow <;> cases f (.audit .WORKFLOW_FAILED) <;> simp [hlt]
      · split
        · unfold Workflow_save auditService_log
          cases f .saveWorkflow <;> cases f (.audit .WORKFLOW_COMPLETED) <;> simp [hlt]
        · simp

theorem any_failed_of_mem {ts : List Task} {t : Task} (hm : t ∈ ts)
    (hs : t.status = .FAILED) : ts.any (fun t => t.status == .FAILED) = true := by
  rw [List.any_eq_true]
  exact ⟨t, hm, by simp [hs]⟩

theorem mem_tasksOf {w : World} {wid : Nat} {t : Task} (hm : t ∈ w.tasks)
    (hw : t.workflowId = wid) : t ∈ tasksOf wid w := by
  unfold tasksOf
  rw [List.mem_filter]
  exact ⟨hm, by simp [hw]⟩

theorem all_completed_tasksOf {w : World} {wid : Nat}
    (hall : ∀ t ∈ w.tasks, t.workflowId = wid → t.status = .COMPLETED) :
    (tasksOf wid w).any (fun t => t.status == .FAILED) = false ∧
    (tasksOf wid w).all (fun t => t.status == .COMPLETED) = true := by
  constructor
  · rw [Bool.eq_false_iff]
    intro hany
    rw [List.any_eq_true] at hany
    obtain ⟨t, hm, hs⟩ := hany
    unfold tasksOf at hm
    rw [List.mem_filter] at hm
    have h1 := hall t hm.1 (by simpa using hm.2)
    simp [h1] at hs
  · rw [List.all_eq_true]
    intro t hm
    unfold tasksOf at hm
    rw [List.mem_filter] at hm
    have h1 := hall t hm.1 (by simpa using hm.2)
    simp [h1]

/-! ### The handler, branch by branch, with the store working normally -/

@[simp] theorem noFaults_apply (s : Site) : noFaults s = none := rfl

theorem exec_completed (d : Delivery) (w : World) (task : Task) (hf : d.faults = noFaults)
    (ht : w.tasks[d.taskId]? = some task) (hs : task.status = .COMPLETED) :
    executeTask d w = (.returned, (reconcileWorkflow noFaults task.workflowId w).2) := by
  have hok := reconcile_noFaults_ok task.workflowId w
  simp [executeTask, Task_findById, tryBlock, withTask, hf, ht, hs, hok]

theorem exec_failed (d : Delivery) (w : World) (task : Task) (hf : d.faults = noFaults)
    (ht : w.tasks[d.taskId]? = some task) (hs : task.status = .FAILED) :
    executeTask d w = (.returned, (reconcileWorkflow noFaults task.workflowId w).2) := by
  have hok := reconcile_noFaults_ok task.workflowId w
  simp [executeTask, Task_findById, tryBlock, withTask, hf, ht, hs, hok]

theorem exec_recovered (d : Delivery) (w : World) (task : Task) (hf : d.faults = noFaults)
    (ht : w.tasks[d.taskId]? = some task) (hc : task.status ≠ .COMPLETED)
    (hnf : task.status ≠ .FAILED) (hout : truthy? task.output = true) :
    executeTask d w = (.returned, (reconcileWorkflow noFaults task.workflowId
      { w with tasks := w.tasks.set d.taskId (recoveredTask d task),
               effects := w.effects ++ [.taskSaved d.taskId (recoveredTask d task)] }).2) := by
  have hok := reconcile_noFaults_ok task.workflowId
    { w with tasks := w.tasks.set d.taskId (recoveredTask d task),
             effects := w.effects ++ [.taskSaved d.taskId (recoveredTask d task)] }
  simp only [recoveredTask] at hok ⊢
  simp [executeTask, Task_findById, tryBlock, withTask, Task_save, hf, ht, hc, hnf, hout, hok]

theorem exec_success (d : Delivery) (w : World) (task : Task) (result : Payload)
    (hf : d.faults = noFaults)
    (ht : w.tasks[d.taskId]? = some task) (hc : task.status ≠ .COMPLETED)
    (hnf : task.status ≠ .FAILED) (hout : truthy? task.output = false)
    (htool : d.tool task.name task.input = .ok result) :
    executeTask d w = (.returned, (reconcileWorkflow noFaults task.workflowId
      { w with tasks := w.tasks.set d.taskId (finishedTask d task result),
               auditLog := w.auditLog ++ [startedEntry d task, completedEntry d task result],
               effects := w.effects ++ [.taskSaved d.taskId (runningTask d task),
                 .auditAppended (startedEntry d task), .toolInvoked task.name task.input,
                 .taskSaved d.taskId (finishedTask d task result),
                 .auditAppended (completedEntry d task result)] }).2) := by
  have hok := reconcile_noFaults_ok task.workflowId
      { w with tasks := w.tasks.set d.taskId (finishedTask d task result),
               auditLog := w.auditLog ++ [startedEntry d task, completedEntry d task result],
               effects := w.effects ++ [.taskSaved d.taskId (runningTask d task),
                 .auditAppended (startedEntry d task), .toolInvoked task.name task.input,
                 .taskSaved d.taskId (finishedTask d task result),
                 .auditAppended (completedEntry d task result)] }
  simp only [runningTask, finishedTask, startedEntry, completedEntry] at hok ⊢
  simp [executeTask, Task_findById, tryBlock, withTask, Task_save, auditService_log,
    executeTool, hf, ht, hc, hnf, hout, htool, hok]

theorem exec_retry (d : Delivery) (w : World) (task : Task) (error : JsError)
    (hf : d.faults = noFaults)
    (ht : w.tasks[d.taskId]? = some task) (hc : task.status ≠ .COMPLETED)
    (hnf : task.status ≠ .FAILED) (hout : truthy? task.output = false)
    (htool : d.tool task.name task.input = .error error)
    (hlt : ((task.retryCount + 1 : Nat) : Int) < task.maxRetries) :
    executeTask d w = (.threw error,
      { w with tasks := w.tasks.set d.taskId
                          { erroredTask d task error with status := .PENDING },
               auditLog := w.auditLog ++ [startedEntry d task],
               effects := w.effects ++ [.taskSaved d.taskId (runningTask d task),
                 .auditAppended (startedEntry d task), .toolInvoked task.name task.input,
                 .taskSaved d.taskId { erroredTask d task error with status := .PENDING }] }) := by
  simp only [runningTask, erroredTask, startedEntry]
  simp [executeTask, Task_findById, tryBlock, catchBlock, Task_save, auditService_log,
    executeTool, hf, ht, hc, hnf, hout, htool]
  intro h
  omega

theorem exec_exhausted (d : Delivery) (w : World) (task : Task) (error : JsError)
    (hf : d.faults = noFaults)
    (ht : w.tasks[d.taskId]? = some task) (hc : task.status ≠ .COMPLETED)
    (hnf : task.status ≠ .FAILED) (hout : truthy? task.output = false)
    (htool : d.tool task.name task.input = .error error)
    (hge : ¬ ((task.retryCount + 1 : Nat) : Int) < task.maxRetries) :
    executeTask d w = (.threw error,
      { w with tasks := w.tasks.set d.taskId
                          { erroredTask d task error with status := .FAILED },
               workflows := match w.workflows[task.workflowId]? with
                 | none => w.workflows
                 | some wf => w.workflows.set task.workflowId
                     { wf with status := .FAILED,
                               error := some ⟨taskFailureMessage task.name error.message, none⟩ },
               auditLog := w.auditLog ++ [startedEntry d task, taskFailedEntry d task error,
                 workflowFailedEntry task error],
               effects := w.effects ++ ([.taskSaved d.taskId (runningTask d task),
                 .auditAppended (startedEntry d task), .toolInvoked task.name task.input,
                 .taskSaved d.taskId { erroredTask d task error with status := .FAILED },
                 .auditAppended (taskFailedEntry d task error)] ++
                 (match w.workflows[task.workflowId]? with
                 | none => []
                 | some wf => [.workflowSaved task.workflowId
                     { wf with status := .FAILED,
                               error := some ⟨taskFailureMessage task.name error.message, none⟩ }])
                 ++ [.auditAppended (workflowFailedEntry task error)]) }) := by
  simp only [runningTask, erroredTask, startedEntry, taskFailedEntry, workflowFailedEntry]
  cases hwf : w.workflows[task.workflowId]? <;>
  simp [executeTask, Task_findById, tryBlock, catchBlock, Task_save, auditService_log,
    executeTool, Workflow_findByIdAndUpdate, hf, ht, hc, hnf, hout, htool, hwf] <;>
  omega

/-! ### Traces, logs and successive deliveries -/

theorem toolInvocations_append (a b : List Effect) :
    toolInvocations (a ++ b) = toolInvocations a + toolInvocations b := by
  simp [toolInvocations, List.countP_append]

theorem savedTasks_append (tid : Nat) (a b : List Effect) :
    savedTasks tid (a ++ b) = savedTasks tid a ++ savedTasks tid b := by
  simp [savedTasks, List.filterMap_append]

theorem savedStatuses_append (tid : Nat) (a b : List Effect) :
    savedStatuses tid (a ++ b) = savedStatuses tid a ++ savedStatuses tid b := by
  simp [savedStatuses, savedTasks_append]

/-- The three shapes of what a reconciliation leaves behind: nothing but the call, a saved
workflow whose audit write failed, or a saved workflow and its workflow-level event. -/
theorem reconcile_shape (f : Faults) (wid : Nat) (w : World) :
    (reconcileWorkflow f wid w).2 =
        { w with effects := w.effects ++ [.reconcileCalled wid] } ∨
    (∃ wf, (reconcileWorkflow f wid w).2 =
        { w with workflows := w.workflows.set wid wf,
                 effects := w.effects ++ [.reconcileCalled wid] ++ [.workflowSaved wid wf] }) ∨
    (∃ wf entry, (reconcileWorkflow f wid w).2 =
        { w with workflows := w.workflows.set wid wf,
                 auditLog := w.auditLog ++ [entry],
                 effects := w.effects ++ [.reconcileCalled wid] ++ [.workflowSaved wid wf] ++
                   [.auditAppended entry] } ∧
        (entry.eventType = .WORKFLOW_FAILED ∨ entry.eventType = .WORKFLOW_COMPLETED)) := by
  unfold reconcileWorkflow Task_find Workflow_findById
  cases f .findTasks with
  | some e => exact Or.inl rfl
  | none =>
    cases f .findWorkflow with
    | some e => exact Or.inl rfl
    | none =>
      dsimp only
      cases w.workflows[wid]? with
      | none => exact Or.inl rfl
      | some wf =>
        dsimp only
        split
        · exact Or.inl rfl
        · split
          · unfold Workflow_save auditService_log
            cases f .saveWorkflow with
            | some e => exact Or.inl rfl
            | none =>
              cases f (.audit .WORKFLOW_FAILED) with
              | some e => exact Or.inr (Or.inl ⟨_, rfl⟩)
              | none => exact Or.inr (Or.inr ⟨_, _, rfl, Or.inl rfl⟩)
          · split
            · unfold Workflow_save auditService_log
              cases f .saveWorkflow with
              | some e => exact Or.inl rfl
              | none =>
                cases f (.audit .WORKFLOW_COMPLETED) with
                | some e => exact Or.inr (Or.inl ⟨_, rfl⟩)
                | none => exact Or.inr (Or.inr ⟨_, _, rfl, Or.inr rfl⟩)
            · exact Or.inl rfl

/-- The trace of a reconciliation: no tool invocation, no task saved. -/
theorem reconcile_trace (f : Faults) (wid : Nat) (w : World) :
    ∃ es, (reconcileWorkflow f wid w).2.effects = w.effects ++ es ∧
      toolInvocations es = 0 ∧ ∀ tid, savedTasks tid es = [] := by
  rcases reconcile_shape f wid w with h | ⟨wf, h⟩ | ⟨wf, entry, h, _⟩ <;> rw [h] <;>
    simp only [List.append_assoc] <;>
    exact ⟨_, rfl, by simp [toolInvocations], fun _ => by simp [savedTasks]⟩

/-- The log of a reconciliation: at most one workflow-level event is appended. -/
theorem reconcile_log (f : Faults) (wid : Nat) (w : World) :
    ∃ suffix, (reconcileWorkflow f wid w).2.auditLog = w.auditLog ++ suffix ∧
      suffix.length ≤ 1 ∧
      ∀ e ∈ suffix, e.eventType = .WORKFLOW_FAILED ∨ e.eventType = .WORKFLOW_COMPLETED := by
  rcases reconcile_shape f wid w with h | ⟨wf, h⟩ | ⟨wf, entry, h, he⟩ <;> rw [h]
  · exact ⟨[], by simp, by simp, by simp⟩
  · exact ⟨[], by simp, by simp, by simp⟩
  · exact ⟨[entry], rfl, by simp, by simpa using he⟩

theorem deliverAll_append (ds1 ds2 : List Delivery) (w : World) :
    deliverAll (ds1 ++ ds2) w = deliverAll ds2 (deliverAll ds1 w) := by
  induction ds1 generalizing w with
  | nil => rfl
  | cons d ds ih => simp [deliverAll, ih]

theorem countRetryCycles_retryCycles (k : Nat) :
    countRetryCycles (.PENDING :: (retryCycles k ++ [.RUNNING, .FAILED])) = k := by
  induction k with
  | zero => rfl
  | succ k ih =>
    have h1 : countRetryCycles (.PENDING :: (retryCycles (k + 1) ++ [.RUNNING, .FAILED])) =
        1 + (0 + countRetryCycles (.PENDING :: (retryCycles k ++ [.RUNNING, .FAILED]))) := rfl
    rw [h1, ih]
    omega

/-! ### The retry policy over successive deliveries -/

theorem getElem?_set_self_of_some {α : Type} {l : List α} {i : Nat} {a b : α}
    (h : l[i]? = some a) : (l.set i b)[i]? = some b := by
  have hlt := getElem?_some_lt h
  simp [hlt]

/-- Retried attempts, for a tool that fails on what this task asks: while the counter stays
below `maxRetries`, each failing delivery
saves RUNNING then PENDING, appends one TASK_STARTED, invokes the tool once and adds one
to the counter; nothing else changes. -/
theorem retried_deliveries_on (taskId : Nat) (ds : List Delivery) :
    ∀ (w : World) (task : Task), failingOn taskId task.name task.input ds →
      w.tasks[taskId]? = some task → task.status ≠ .COMPLETED → task.status ≠ .FAILED →
      truthy? task.output = false →
      ((task.retryCount + ds.length : Nat) : Int) < task.maxRetries →
      ∃ task', (deliverAll ds w).tasks[taskId]? = some task' ∧
        task'.retryCount = task.retryCount + ds.length ∧
        task'.maxRetries = task.maxRetries ∧ task'.name = task.name ∧
        task'.input = task.input ∧ task'.workflowId = task.workflowId ∧
        task'.output = task.output ∧
        task'.status ≠ .COMPLETED ∧ task'.status ≠ .FAILED ∧
        (deliverAll ds w).workflows = w.workflows ∧
        (deliverAll ds w).jobs = w.jobs ∧
        (deliverAll ds w).auditLog = w.auditLog ++ List.replicate ds.length
          ⟨task.workflowId, .INFO, .TASK_STARTED,
            some (.obj [("taskId", idPayload taskId), ("tool", .str task.name)])⟩ ∧
        savedStatuses taskId (deliverAll ds w).effects =
          savedStatuses taskId w.effects ++ retryCycles ds.length ∧
        toolInvocations (deliverAll ds w).effects = toolInvocations w.effects + ds.length := by
  induction ds with
  | nil =>
    intro w task _ ht hc hnf _ _
    exact ⟨task, ht, rfl, rfl, rfl, rfl, rfl, rfl, hc, hnf, rfl, rfl, by simp [deliverAll],
      by simp [deliverAll, retryCycles], rfl⟩
  | cons d ds ih =>
    intro w task hds ht hc hnf hout hlt
    obtain ⟨hid, hf, e, he⟩ := hds d (List.mem_cons_self d ds)
    have hlt1 : ((task.retryCount + 1 : Nat) : Int) < task.maxRetries := by
      simp only [List.length_cons] at hlt
      omega
    subst hid
    have hstep := exec_retry d w task e hf ht hc hnf hout he hlt1
    have hds' : failingOn d.taskId task.name task.input ds :=
      fun x hx => hds x (List.mem_cons_of_mem d hx)
    have hnext := ih (executeTask d w).2 { erroredTask d task e with status := .PENDING } hds'
      (by rw [hstep]; exact getElem?_set_self_of_some ht) (by simp) (by simp)
      (by simpa [erroredTask, runningTask] using hout)
      (by simp only [erroredTask, runningTask, List.length_cons] at hlt ⊢; omega)
    obtain ⟨task', h1, h2, h3, h4, h5, h6, h7, h8, h9, h10, h11, h12, h13, h14⟩ := hnext
    refine ⟨task', h1, ?_, h3, h4, h5, h6, h7, h8, h9, ?_, ?_, ?_, ?_, ?_⟩
    · simp only [erroredTask, runningTask, List.length_cons] at h2 ⊢; omega
    · rw [show deliverAll (d :: ds) w = deliverAll ds (executeTask d w).2 from rfl, h10, hstep]
    · rw [show deliverAll (d :: ds) w = deliverAll ds (executeTask d w).2 from rfl, h11, hstep]
    · rw [show deliverAll (d :: ds) w = deliverAll ds (executeTask d w).2 from rfl, h12, hstep]
      simp [erroredTask, runningTask, startedEntry_eq, List.replicate_succ]
    · rw [show deliverAll (d :: ds) w = deliverAll ds (executeTask d w).2 from rfl, h13, hstep]
      simp [savedStatuses_append, savedStatuses, savedTasks, retryCycles, erroredTask,
        runningTask]
    · rw [show deliverAll (d :: ds) w = deliverAll ds (executeTask d w).2 from rfl, h14, hstep]
      simp [toolInvocations_append, toolInvocations]
      omega

/-- Retried attempts: while the counter stays below `maxRetries`, each failing delivery
saves RUNNING then PENDING, appends one TASK_STARTED, invokes the tool once and adds one
to the counter; nothing else changes. -/
theorem retried_deliveries (taskId : Nat) (ds : List Delivery) :
    ∀ (w : World) (task : Task), failingDeliveries taskId ds →
      w.tasks[taskId]? = some task → task.status ≠ .COMPLETED → task.status ≠ .FAILED →
      truthy? task.output = false →
      ((task.retryCount + ds.length : Nat) : Int) < task.maxRetries →
      ∃ task', (deliverAll ds w).tasks[taskId]? = some task' ∧
        task'.retryCount = task.retryCount + ds.length ∧
        task'.maxRetries = task.maxRetries ∧ task'.name = task.name ∧
        task'.input = task.input ∧ task'.workflowId = task.workflowId ∧
        task'.output = task.output ∧
        task'.status ≠ .COMPLETED ∧ task'.status ≠ .FAILED ∧
        (deliverAll ds w).workflows = w.workflows ∧
        (deliverAll ds w).jobs = w.jobs ∧
        (deliverAll ds w).auditLog = w.auditLog ++ List.replicate ds.length
          ⟨task.workflowId, .INFO, .TASK_STARTED,
            some (.obj [("taskId", idPayload taskId), ("tool", .str task.name)])⟩ ∧
        savedStatuses taskId (deliverAll ds w).effects =
          savedStatuses taskId w.effects ++ retryCycles ds.length ∧
        toolInvocations (deliverAll ds w).effects = toolInvocations w.effects + ds.length := by
  intro w task hds
  exact retried_deliveries_on taskId ds w task
    (fun d hd => ⟨(hds d hd).1, (hds d hd).2.1, (hds d hd).2.2 task.name task.input⟩)

theorem retryInv_step (m : Int) (d : Delivery) (w : World) (task : Task)
    (hf : d.faults = noFaults) (hfail : toolFails d)
    (ht : w.tasks[d.taskId]? = some task) (hinv : RetryInv m task) :
    ∃ task', (executeTask d w).2.tasks[d.taskId]? = some task' ∧ RetryInv m task' ∧
      ∃ es, (executeTask d w).2.effects = w.effects ++ es ∧
        ∀ t ∈ savedTasks d.taskId es, (t.retryCount : Int) ≤ m := by
  obtain ⟨hm, hle, hfl, hlt⟩ := hinv
  by_cases hc : task.status = .COMPLETED
  · rw [exec_completed d w task hf ht hc]
    obtain ⟨es, hes, _, hsaved⟩ := reconcile_trace noFaults task.workflowId w
    refine ⟨task, by rw [reconcile_tasks]; exact ht, ⟨hm, hle, hfl, hlt⟩, es, hes, ?_⟩
    simp [hsaved]
  by_cases hnf : task.status = .FAILED
  · rw [exec_failed d w task hf ht hnf]
    obtain ⟨es, hes, _, hsaved⟩ := reconcile_trace noFaults task.workflowId w
    refine ⟨task, by rw [reconcile_tasks]; exact ht, ⟨hm, hle, hfl, hlt⟩, es, hes, ?_⟩
    simp [hsaved]
  by_cases hout : truthy? task.output = true
  · rw [exec_recovered d w task hf ht hc hnf hout]
    obtain ⟨es, hes, _, hsaved⟩ := reconcile_trace noFaults task.workflowId
      { w with tasks := w.tasks.set d.taskId (recoveredTask d task),
               effects := w.effects ++ [.taskSaved d.taskId (recoveredTask d task)] }
    refine ⟨recoveredTask d task, ?_, ⟨hm, hle, by simp [recoveredTask],
      by simp [recoveredTask]⟩, [.taskSaved d.taskId (recoveredTask d task)] ++ es, ?_, ?_⟩
    · rw [reconcile_tasks]
      exact getElem?_set_self_of_some ht
    · rw [hes]
      simp
    · rw [savedTasks_append, hsaved]
      simp [savedTasks, recoveredTask, hle]
  · have hout' : truthy? task.output = false := by simpa using hout
    obtain ⟨e, he⟩ := hfail task.name task.input
    have hrc := hlt hnf hc hout'
    by_cases hretry : ((task.retryCount + 1 : Nat) : Int) < task.maxRetries
    · rw [exec_retry d w task e hf ht hc hnf hout' he hretry]
      refine ⟨{ erroredTask d task e with status := .PENDING }, getElem?_set_self_of_some ht,
        ⟨hm, ?_, by simp, ?_⟩, _, rfl, ?_⟩
      · simp only [erroredTask, runningTask]; omega
      · intro _ _ _
        simp only [erroredTask, runningTask]; omega
      · simp [savedTasks, erroredTask, runningTask]
        omega
    · rw [exec_exhausted d w task e hf ht hc hnf hout' he hretry]
      refine ⟨{ erroredTask d task e with status := .FAILED }, getElem?_set_self_of_some ht,
        ⟨hm, ?_, ?_, by simp⟩, _, rfl, ?_⟩
      · simp only [erroredTask, runningTask]; omega
      · intro _
        simp only [erroredTask, runningTask]; omega
      · cases w.workflows[task.workflowId]? <;>
          simp [savedTasks, erroredTask, runningTask] <;> omega

theorem retryInv_deliveries (m : Int) (taskId : Nat) (ds : List Delivery) :
    ∀ (w : World) (task : Task), failingDeliveries taskId ds →
      w.tasks[taskId]? = some task → RetryInv m task →
      ∃ task', (deliverAll ds w).tasks[taskId]? = some task' ∧ RetryInv m task' ∧
        ∃ es, (deliverAll ds w).effects = w.effects ++ es ∧
          ∀ t ∈ savedTasks taskId es, (t.retryCount : Int) ≤ m := by
  induction ds with
  | nil =>
    intro w task _ ht hinv
    exact ⟨task, ht, hinv, [], by simp [deliverAll], by simp [savedTasks]⟩
  | cons d ds ih =>
    intro w task hds ht hinv
    obtain ⟨hid, hf, hfail⟩ := hds d (List.mem_cons_self d ds)
    subst hid
    obtain ⟨task1, ht1, hinv1, es1, hes1, hb1⟩ := retryInv_step m d w task hf hfail ht hinv
    obtain ⟨task2, ht2, hinv2, es2, hes2, hb2⟩ := ih (executeTask d w).2 task1
      (fun x hx => hds x (List.mem_cons_of_mem d hx)) ht1 hinv1
    refine ⟨task2, ht2, hinv2, es1 ++ es2, ?_, ?_⟩
    · rw [show deliverAll (d :: ds) w = deliverAll ds (executeTask d w).2 from rfl, hes2, hes1,
        List.append_assoc]
    · intro t hmem
      rw [savedTasks_append, List.mem_append] at hmem
      rcases hmem with h | h
      · exact hb1 t h
      · exact hb2 t h

/-- The retry scenario to its end, for a tool that fails on what this task asks: `maxRetries` failing deliveries of a task that starts
with counter 0. The last delivery is the one that exhausts the retries. -/
theorem exhausting_deliveries_on (taskId : Nat) (ds : List Delivery) (w : World) (task : Task)
    (hds : failingOn taskId task.name task.input ds) (ht : w.tasks[taskId]? = some task)
    (hc : task.status ≠ .COMPLETED) (hnf : task.status ≠ .FAILED)
    (hout : truthy? task.output = false) (h0 : task.retryCount = 0)
    (hmax : task.maxRetries = (ds.length : Int)) (hpos : 1 ≤ ds.length) :
    ∃ init dlast e task',
      ds = init ++ [dlast] ∧ dlast.tool task.name task.input = .error e ∧
      (deliverAll ds w).tasks[taskId]? = some task' ∧
      task'.status = .FAILED ∧ task'.retryCount = ds.length ∧
      task'.workflowId = task.workflowId ∧
      (deliverAll ds w).workflows =
        (match w.workflows[task.workflowId]? with
          | none => w.workflows
          | some wf => w.workflows.set task.workflowId
              { wf with status := .FAILED,
                        error := some ⟨taskFailureMessage task.name e.message, none⟩ }) ∧
      (deliverAll ds w).auditLog = w.auditLog ++
        List.replicate ds.length ⟨task.workflowId, .INFO, .TASK_STARTED,
          some (.obj [("taskId", idPayload taskId), ("tool", .str task.name)])⟩ ++
        [⟨task.workflowId, .INFO, .TASK_FAILED,
            some (.obj [("taskId", idPayload taskId), ("error", .str e.message)])⟩,
         ⟨task.workflowId, .INFO, .WORKFLOW_FAILED,
            some (.obj [("workflowId", idPayload task.workflowId), ("error", .str e.message)])⟩] ∧
      savedStatuses taskId (deliverAll ds w).effects =
        savedStatuses taskId w.effects ++ retryCycles (ds.length - 1) ++ [.RUNNING, .FAILED] ∧
      toolInvocations (deliverAll ds w).effects = toolInvocations w.effects + ds.length := by
  rcases List.eq_nil_or_concat ds with hnil | ⟨init, dlast, hcat⟩
  · subst hnil
    simp at hpos
  rw [List.concat_eq_append] at hcat
  subst hcat
  have hinit : failingOn taskId task.name task.input init :=
    fun x hx => hds x (List.mem_append_left _ hx)
  obtain ⟨hid, hf, e, he⟩ := hds dlast (by simp)
  simp only [List.length_append, List.length_singleton] at hmax ⊢
  obtain ⟨task1, ht1, hrc1, hmax1, hname1, hinput1, hwid1, hout1, hc1, hnf1, hwfs, _, hlog,
      hsaved, htools⟩ :=
    retried_deliveries_on taskId init w task hinit ht hc hnf hout (by rw [h0, hmax]; omega)
  subst hid
  have hge : ¬ ((task1.retryCount + 1 : Nat) : Int) < task1.maxRetries := by
    rw [hrc1, hmax1, h0, hmax]
    omega
  have hstep := exec_exhausted dlast (deliverAll init w) task1 e hf ht1 hc1 hnf1
    (by rw [hout1]; exact hout) (by rw [hname1, hinput1]; exact he) hge
  refine ⟨init, dlast, e, { erroredTask dlast task1 e with status := .FAILED }, rfl, he, ?_,
    rfl, ?_, hwid1, ?_, ?_, ?_, ?_⟩
  · rw [deliverAll_append]
    show (executeTask dlast (deliverAll init w)).2.tasks[dlast.taskId]? = _
    rw [hstep]
    exact getElem?_set_self_of_some ht1
  · simp only [erroredTask, runningTask]
    omega
  · rw [deliverAll_append]
    show (executeTask dlast (deliverAll init w)).2.workflows = _
    rw [hstep]
    simp only [hwfs, hwid1, hname1]
  · rw [deliverAll_append]
    show (executeTask dlast (deliverAll init w)).2.auditLog = _
    rw [hstep]
    simp only [hlog, startedEntry_eq, taskFailedEntry_eq, workflowFailedEntry_eq, hwid1, hname1,
      List.replicate_succ', List.append_assoc, List.singleton_append, List.cons_append,
      List.nil_append]
  · rw [deliverAll_append]
    show savedStatuses dlast.taskId (executeTask dlast (deliverAll init w)).2.effects = _
    rw [hstep]
    rw [savedStatuses_append, hsaved, Nat.add_sub_cancel]
    cases (deliverAll init w).workflows[task1.workflowId]? <;>
      simp [savedStatuses, savedTasks, erroredTask, runningTask]
  · rw [deliverAll_append]
    show toolInvocations (executeTask dlast (deliverAll init w)).2.effects = _
    rw [hstep]
    cases (deliverAll init w).workflows[task1.workflowId]? <;>
      simp [toolInvocations_append, htools] <;> simp [toolInvocations] <;> omega

/-- The retry scenario to its end: `maxRetries` failing deliveries of a task that starts
with counter 0. The last delivery is the one that exhausts the retries. -/
theorem exhausting_deliveries (taskId : Nat) (ds : List Delivery) (w : World) (task : Task)
    (hds : failingDeliveries taskId ds) (ht : w.tasks[taskId]? = some task)
    (hc : task.status ≠ .COMPLETED) (hnf : task.status ≠ .FAILED)
    (hout : truthy? task.output = false) (h0 : task.retryCount = 0)
    (hmax : task.maxRetries = (ds.length : Int)) (hpos : 1 ≤ ds.length) :
    ∃ init dlast e task',
      ds = init ++ [dlast] ∧ dlast.tool task.name task.input = .error e ∧
      (deliverAll ds w).tasks[taskId]? = some task' ∧
      task'.status = .FAILED ∧ task'.retryCount = ds.length ∧
      task'.workflowId = task.workflowId ∧
      (deliverAll ds w).workflows =
        (match w.workflows[task.workflowId]? with
          | none => w.workflows
          | some wf => w.workflows.set task.workflowId
              { wf with status := .FAILED,
                        error := some ⟨taskFailureMessage task.name e.message, none⟩ }) ∧
      (deliverAll ds w).auditLog = w.auditLog ++
        List.replicate ds.length ⟨task.workflowId, .INFO, .TASK_STARTED,
          some (.obj [("taskId", idPayload taskId), ("tool", .str task.name)])⟩ ++
        [⟨task.workflowId, .INFO, .TASK_FAILED,
            some (.obj [("taskId", idPayload taskId), ("error", .str e.message)])⟩,
         ⟨task.workflowId, .INFO, .WORKFLOW_FAILED,
            some (.obj [("workflowId", idPayload task.workflowId), ("error", .str e.message)])⟩] ∧
      savedStatuses taskId (deliverAll ds w).effects =
        savedStatuses taskId w.effects ++ retryCycles (ds.length - 1) ++ [.RUNNING, .FAILED] ∧
      toolInvocations (deliverAll ds w).effects = toolInvocations w.effects + ds.length := by
  exact exhausting_deliveries_on taskId ds w task
    (fun d hd => ⟨(hds d hd).1, (hds d hd).2.1, (hds d hd).2.2 task.name task.input⟩)
    ht hc hnf hout h0 hmax hpos

/-! ### The claims -/

theorem failingDeliveries_map (messages : List String) :
    failingDeliveries 0 (messages.map failingDelivery) := by
  intro d hd
  rw [List.mem_map] at hd
  obtain ⟨m, _, rfl⟩ := hd
  exact ⟨rfl, rfl, fun _ _ => ⟨_, rfl⟩⟩

/-- C1 at its failing input: task 0 is COMPLETED with output "done", retryCount 0 and no
error, and it is delivered again while `Workflow.findById` (line 10) throws. The guard of
line 45 applies and the tool is not invoked, but `reconcileWorkflow` (line 82) stands inside
the `try` block, so the `catch` block takes its exception for a failed attempt: the record
is saved PENDING with retryCount 1 and the error, and the handler throws, which makes the
queue deliver the task once more. Only the output is as it was. -/
theorem c1_completed_task_reopened :
    (completedStore.tasks[0]?).map (fun t => (t.status, t.output, t.retryCount, t.error))
      = some (.COMPLETED, some (.str "done"), 0, none) ∧
    toolInvocations (executeTask lookupFailsDelivery completedStore).2.effects = 0 ∧
    ((executeTask lookupFailsDelivery completedStore).2.tasks[0]?).map
        (fun t => (t.status, t.output, t.retryCount, t.error))
      = some (.PENDING, some (.str "done"), 1, some ⟨"store down", some "stack"⟩) ∧
    (executeTask lookupFailsDelivery completedStore).1 = .threw ⟨"store down", "stack"⟩ := by
  exact ⟨rfl, by decide, rfl, rfl⟩

/-- What C1 asks does hold while the store works normally. First part: a delivery for a
task whose persisted status is COMPLETED does not invoke the tool, leaves every task record
as it was, and appends to the audit log no TASK_STARTED and no TASK_COMPLETED event (what it
does is run `reconcileWorkflow`). Second part: when a first delivery executes the task and
the tool answers `result`, a second delivery of the same task id, whatever the tool would
answer then, brings the number of tool invocations to exactly one, and the task records
(output included) after the second delivery are those after the first. -/
theorem completed_redelivery_when_store_works :
    (∀ (d : Delivery) (w : World) (task : Task),
      d.faults = noFaults → w.tasks[d.taskId]? = some task → task.status = .COMPLETED →
      executeTask d w = (.returned, (reconcileWorkflow noFaults task.workflowId w).2) ∧
      toolInvocations (executeTask d w).2.effects = toolInvocations w.effects ∧
      (executeTask d w).2.tasks = w.tasks ∧
      ∃ suffix, (executeTask d w).2.auditLog = w.auditLog ++ suffix ∧
        ∀ e ∈ suffix, e.eventType ≠ .TASK_STARTED ∧ e.eventType ≠ .TASK_COMPLETED) ∧
    (∀ (d1 d2 : Delivery) (w : World) (task : Task) (result : Payload),
      d1.faults = noFaults → d2.faults = noFaults → d2.taskId = d1.taskId →
      w.tasks[d1.taskId]? = some task →
      task.status ≠ .COMPLETED → task.status ≠ .FAILED → truthy? task.output = false →
      d1.tool task.name task.input = .ok result →
      toolInvocations (deliverAll [d1, d2] w).effects = toolInvocations w.effects + 1 ∧
      (∃ task1, (executeTask d1 w).2.tasks[d1.taskId]? = some task1 ∧
        task1.status = .COMPLETED ∧ task1.output = minimizedValue result ∧
        (deliverAll [d1, d2] w).tasks[d1.taskId]? = some task1) ∧
      (deliverAll [d1, d2] w).tasks = (executeTask d1 w).2.tasks) := by
  have part1 : ∀ (d : Delivery) (w : World) (task : Task),
      d.faults = noFaults → w.tasks[d.taskId]? = some task → task.status = .COMPLETED →
      executeTask d w = (.returned, (reconcileWorkflow noFaults task.workflowId w).2) ∧
      toolInvocations (executeTask d w).2.effects = toolInvocations w.effects ∧
      (executeTask d w).2.tasks = w.tasks ∧
      ∃ suffix, (executeTask d w).2.auditLog = w.auditLog ++ suffix ∧
        ∀ e ∈ suffix, e.eventType ≠ .TASK_STARTED ∧ e.eventType ≠ .TASK_COMPLETED := by
    intro d w task hf ht hs
    have hexec := exec_completed d w task hf ht hs
    obtain ⟨es, hes, htool, _⟩ := reconcile_trace noFaults task.workflowId w
    obtain ⟨suffix, hlog, _, hev⟩ := reconcile_log noFaults task.workflowId w
    refine ⟨hexec, ?_, ?_, suffix, ?_, ?_⟩
    · rw [hexec]
      simp only
      rw [hes, toolInvocations_append, htool]
      rfl
    · rw [hexec]
      exact reconcile_tasks _ _ _
    · rw [hexec]
      exact hlog
    · intro e he
      rcases hev e he with h | h <;> rw [h] <;> exact ⟨by decide, by decide⟩
  refine ⟨part1, ?_⟩
  intro d1 d2 w task result hf1 hf2 hid ht hc hnf hout htool
  have hexec := exec_success d1 w task result hf1 ht hc hnf hout htool
  have ht1 : (executeTask d1 w).2.tasks[d2.taskId]? = some (finishedTask d1 task result) := by
    rw [hexec, hid]
    simp only
    rw [reconcile_tasks]
    exact getElem?_set_self_of_some ht
  obtain ⟨_, h2, h3, _⟩ := part1 d2 (executeTask d1 w).2 (finishedTask d1 task result) hf2 ht1 rfl
  have hdel : deliverAll [d1, d2] w = (executeTask d2 (executeTask d1 w).2).2 := rfl
  rw [hdel]
  refine ⟨?_, ⟨finishedTask d1 task result, hid ▸ ht1, rfl, rfl, ?_⟩, h3⟩
  · rw [h2, hexec]
    simp only
    obtain ⟨es, hes, htool0, _⟩ := reconcile_trace noFaults task.workflowId
      { w with tasks := w.tasks.set d1.taskId (finishedTask d1 task result),
               auditLog := w.auditLog ++ [startedEntry d1 task, completedEntry d1 task result],
               effects := w.effects ++ [.taskSaved d1.taskId (runningTask d1 task),
                 .auditAppended (startedEntry d1 task), .toolInvoked task.name task.input,
                 .taskSaved d1.taskId (finishedTask d1 task result),
                 .auditAppended (completedEntry d1 task result)] }
    rw [hes, toolInvocations_append, toolInvocations_append, htool0]
    simp [toolInvocations]
  · rw [h3]
    exact hid ▸ ht1

/-- An instance of `completed_redelivery_when_store_works`: a COMPLETED task is redelivered
(first part), and a fresh task is delivered twice while the tool answers (second part). -/
theorem completed_redelivery_example :
    toolInvocations (executeTask (succeedingDelivery .null) completedStore).2.effects
      = toolInvocations completedStore.effects ∧
    (executeTask (succeedingDelivery .null) completedStore).2.tasks = completedStore.tasks ∧
    toolInvocations
        (deliverAll [succeedingDelivery (.str "r1"), succeedingDelivery (.str "r2")]
          freshStore).effects
      = toolInvocations freshStore.effects + 1 ∧
    (deliverAll [succeedingDelivery (.str "r1"), succeedingDelivery (.str "r2")]
        freshStore).tasks
      = (executeTask (succeedingDelivery (.str "r1")) freshStore).2.tasks :=
  have h1 := completed_redelivery_when_store_works.1 (succeedingDelivery .null) completedStore
    { freshTask with status := .COMPLETED, output := some (.str "done") } rfl rfl rfl
  have h2 := completed_redelivery_when_store_works.2 (succeedingDelivery (.str "r1"))
    (succeedingDelivery (.str "r2")) freshStore freshTask (.str "r1") rfl rfl rfl rfl
    (by decide) (by decide) rfl rfl
  ⟨h1.2.1, h1.2.2.1, h2.1, h2.2.2⟩

/-- The recovery path (lines 56-61) where the code takes it: when the output is truthy and
the status is neither COMPLETED nor FAILED, the delivery does not invoke the tool, saves the
task COMPLETED with `completedAt` set and the output untouched, and then runs
`reconcileWorkflow`. -/
theorem recovered_without_tool (d : Delivery) (w : World) (task : Task)
    (hf : d.faults = noFaults) (ht : w.tasks[d.taskId]? = some task)
    (hc : task.status ≠ .COMPLETED) (hnf : task.status ≠ .FAILED)
    (hout : truthy? task.output = true) :
    toolInvocations (executeTask d w).2.effects = toolInvocations w.effects ∧
    (executeTask d w).2.tasks[d.taskId]? =
      some { task with status := .COMPLETED, completedAt := some d.completedNow } ∧
    (executeTask d w).2 = (reconcileWorkflow noFaults task.workflowId
      { w with tasks := w.tasks.set d.taskId (recoveredTask d task),
               effects := w.effects ++ [.taskSaved d.taskId (recoveredTask d task)] }).2 := by
  rw [exec_recovered d w task hf ht hc hnf hout]
  obtain ⟨es, hes, htool0, _⟩ := reconcile_trace noFaults task.workflowId
      { w with tasks := w.tasks.set d.taskId (recoveredTask d task),
               effects := w.effects ++ [.taskSaved d.taskId (recoveredTask d task)] }
  refine ⟨?_, ?_, rfl⟩
  · simp only
    rw [hes, toolInvocations_append, toolInvocations_append, htool0]
    simp [toolInvocations]
  · simp only
    rw [reconcile_tasks]
    exact getElem?_set_self_of_some ht

/-- C2 at its failing input: task 0 is RUNNING and already holds the output `0`, the store
works normally and the tool would answer "fresh". The delivery takes the normal execution
path: it invokes the tool once, overwrites the output with the new answer and logs
TASK_STARTED and TASK_COMPLETED, because line 56 tests the output for truthiness and `0` is
falsy. -/
theorem c2_falsy_output_invokes_tool :
    ((zeroOutputStore.tasks[0]?).map (fun t => t.status)) = some .RUNNING ∧
    ((zeroOutputStore.tasks[0]?).map (fun t => t.output.isSome)) = some true ∧
    toolInvocations zeroOutputStore.effects = 0 ∧
    toolInvocations (executeTask (succeedingDelivery (.str "fresh")) zeroOutputStore).2.effects
      = 1 ∧
    (((executeTask (succeedingDelivery (.str "fresh")) zeroOutputStore).2.tasks[0]?).map
      (fun t => t.output)) = some (some (.str "fresh")) ∧
    eventTypes (executeTask (succeedingDelivery (.str "fresh")) zeroOutputStore).2.auditLog
      = [.TASK_STARTED, .TASK_COMPLETED, .WORKFLOW_COMPLETED] := by
  refine ⟨by decide, by decide, by decide, by decide, rfl, by decide⟩

/-- The store `exhaustedStore` is the one three failing deliveries of the fresh task leave. -/
theorem exhaustedStore_reached :
    (deliverAll (["boom", "boom", "boom"].map failingDelivery) freshStore).tasks
      = exhaustedStore.tasks ∧
    (deliverAll (["boom", "boom", "boom"].map failingDelivery) freshStore).workflows
      = exhaustedStore.workflows :=
  ⟨rfl, rfl⟩

/-- C3 at its failing inputs, deliveries of a FAILED task during which `Task.find` (line 9)
throws; `reconcileWorkflow` (line 54) stands inside the `try` block, so the `catch` block
takes its exception for a failed attempt. First: a FAILED task with retryCount 0 of 3 is
saved PENDING with retryCount 1; the next delivery, the store working again, invokes the
tool and the task and its workflow end COMPLETED. Second: a FAILED task with retryCount 3 of
3 in a FAILED workflow stays FAILED, but its retryCount becomes 4 and its error is replaced,
and a TASK_FAILED and a WORKFLOW_FAILED event are logged again. -/
theorem c3_failed_task_resurrected :
    ((failedTaskStore.tasks[0]?).map (fun t => (t.status, t.retryCount))) = some (.FAILED, 0) ∧
    ((executeTask reconcileFailsDelivery failedTaskStore).2.tasks[0]?).map
        (fun t => (t.status, t.retryCount, t.error))
      = some (.PENDING, 1, some ⟨"store down", some "stack"⟩) ∧
    toolInvocations
      (deliverAll [reconcileFailsDelivery, succeedingDelivery (.str "late")]
        failedTaskStore).effects = 1 ∧
    ((deliverAll [reconcileFailsDelivery, succeedingDelivery (.str "late")]
        failedTaskStore).tasks[0]?).map (fun t => t.status) = some .COMPLETED ∧
    ((deliverAll [reconcileFailsDelivery, succeedingDelivery (.str "late")]
        failedTaskStore).workflows[0]?).map (fun wf => wf.status) = some .COMPLETED ∧
    ((exhaustedStore.tasks[0]?).map (fun t => (t.status, t.retryCount, t.maxRetries)))
      = some (.FAILED, 3, 3) ∧
    ((executeTask reconcileFailsDelivery exhaustedStore).2.tasks[0]?).map
        (fun t => (t.status, t.retryCount, t.error))
      = some (.FAILED, 4, some ⟨"store down", some "stack"⟩) ∧
    eventTypes (executeTask reconcileFailsDelivery exhaustedStore).2.auditLog
      = [.TASK_FAILED, .WORKFLOW_FAILED] := by
  refine ⟨by decide, by decide, by decide, by decide, by decide, by decide, by decide,
    by decide⟩

/-- What C3 asks does hold while the store works normally: a delivery for a task whose
status is FAILED returns after running `reconcileWorkflow` for the owning workflow and
nothing else; it does not invoke the tool, it leaves every task record as it was (so the
task stays FAILED with its retryCount and output), and an owning workflow that was PENDING
or RUNNING is FAILED after the delivery. -/
theorem failed_redelivery_when_store_works (d : Delivery) (w : World) (task : Task)
    (hf : d.faults = noFaults) (ht : w.tasks[d.taskId]? = some task)
    (hs : task.status = .FAILED) :
    executeTask d w = (.returned, (reconcileWorkflow noFaults task.workflowId w).2) ∧
    toolInvocations (executeTask d w).2.effects = toolInvocations w.effects ∧
    (executeTask d w).2.tasks = w.tasks ∧
    ∀ workflow, w.workflows[task.workflowId]? = some workflow →
      workflow.status = .PENDING ∨ workflow.status = .RUNNING →
      ((executeTask d w).2.workflows[task.workflowId]?).map (fun wf => wf.status)
        = some .FAILED := by
  have hexec := exec_failed d w task hf ht hs
  obtain ⟨es, hes, htool, _⟩ := reconcile_trace noFaults task.workflowId w
  refine ⟨hexec, ?_, ?_, ?_⟩
  · rw [hexec]
    simp only
    rw [hes, toolInvocations_append, htool]
    rfl
  · rw [hexec]
    exact reconcile_tasks _ _ _
  · intro workflow hwf hst
    have hc : workflow.status ≠ .COMPLETED := by rcases hst with h | h <;> rw [h] <;> decide
    have hnf : workflow.status ≠ .FAILED := by rcases hst with h | h <;> rw [h] <;> decide
    have hany := any_failed_of_mem (mem_tasksOf (getElem?_some_mem ht) rfl) hs
    rw [hexec, reconcile_failed_eq task.workflowId w workflow hwf hc hnf hany]
    simp [getElem?_some_lt hwf, failedWorkflow]

/-- An instance of `failed_redelivery_when_store_works`: the only task of a RUNNING workflow
is FAILED and is redelivered. -/
theorem failed_redelivery_example :
    executeTask (succeedingDelivery .null)
        (storeOf (workflowIn .RUNNING) [{ freshTask with status := .FAILED }])
      = (.returned, (reconcileWorkflow noFaults 0
          (storeOf (workflowIn .RUNNING) [{ freshTask with status := .FAILED }])).2) ∧
    toolInvocations (executeTask (succeedingDelivery .null)
        (storeOf (workflowIn .RUNNING) [{ freshTask with status := .FAILED }])).2.effects
      = toolInvocations
        (storeOf (workflowIn .RUNNING) [{ freshTask with status := .FAILED }]).effects ∧
    (executeTask (succeedingDelivery .null)
        (storeOf (workflowIn .RUNNING) [{ freshTask with status := .FAILED }])).2.tasks
      = (storeOf (workflowIn .RUNNING) [{ freshTask with status := .FAILED }]).tasks ∧
    (((executeTask (succeedingDelivery .null)
        (storeOf (workflowIn .RUNNING) [{ freshTask with status := .FAILED }])).2.workflows[0]?).map
      (fun wf => wf.status)) = some .FAILED :=
  have h := failed_redelivery_when_store_works (succeedingDelivery .null)
    (storeOf (workflowIn .RUNNING) [{ freshTask with status := .FAILED }])
    { freshTask with status := .FAILED } rfl rfl rfl
  ⟨h.1, h.2.1, h.2.2.1, h.2.2.2 (workflowIn .RUNNING) rfl (Or.inr rfl)⟩

/-- Counterexample to C4 as stated ("for every value of maxRetries"): a task that starts
PENDING with retryCount 0 and maxRetries 0 is FAILED after one failing delivery, with
retryCount 1, which is neither equal to maxRetries nor at most maxRetries. -/
theorem c4_zero_maxRetries_exceeded :
    ((zeroRetriesStore.tasks[0]?).map (fun t => (t.status, t.retryCount, t.maxRetries)))
      = some (.PENDING, 0, 0) ∧
    (((deliverAll [failingDelivery "boom"] zeroRetriesStore).tasks[0]?).map
      (fun t => (t.status, t.retryCount, t.maxRetries))) = some (.FAILED, 1, 0) := by
  refine ⟨by decide, by decide⟩

/-- C4 amended (retry bound on the counter, for maxRetries at least 1 and deliveries during
which every store operation succeeds): for a task that starts with retryCount 0, is not
FAILED at the start and has an integer maxRetries of at least 1, after any number of
deliveries during all of which the tool fails and the store works, maxRetries is as it was,
retryCount is at most maxRetries, and if the task is FAILED its retryCount equals
maxRetries; moreover every task document saved along the way has a retryCount of at most
maxRetries. The list of deliveries is arbitrary, so this covers the states before the task
fails and all redeliveries after it during which the store works. -/
theorem c4_retry_bound (taskId : Nat) (ds : List Delivery) (w : World) (task : Task)
    (hds : failingDeliveries taskId ds) (ht : w.tasks[taskId]? = some task)
    (h0 : task.retryCount = 0) (hm : 1 ≤ task.maxRetries) (hs : task.status ≠ .FAILED) :
    ∃ task', (deliverAll ds w).tasks[taskId]? = some task' ∧
      task'.maxRetries = task.maxRetries ∧
      (task'.retryCount : Int) ≤ task.maxRetries ∧
      (task'.status = .FAILED → (task'.retryCount : Int) = task.maxRetries) ∧
      ∃ es, (deliverAll ds w).effects = w.effects ++ es ∧
        ∀ t ∈ savedTasks taskId es, (t.retryCount : Int) ≤ task.maxRetries := by
  have hinv : RetryInv task.maxRetries task :=
    ⟨rfl, by rw [h0]; omega, fun h => absurd h hs, fun _ _ _ => by rw [h0]; omega⟩
  obtain ⟨task', ht', ⟨h1, h2, h3, _⟩, es, hes, hb⟩ :=
    retryInv_deliveries task.maxRetries taskId ds w task hds ht hinv
  exact ⟨task', ht', h1, h2, h3, es, hes, hb⟩

/-- Witness of C4 amended: four failing deliveries of the fresh task (three retries). -/
theorem c4_retry_bound_witness :
    ∃ task', (deliverAll (["a", "b", "c", "d"].map failingDelivery) freshStore).tasks[0]?
        = some task' ∧
      task'.maxRetries = freshTask.maxRetries ∧
      (task'.retryCount : Int) ≤ freshTask.maxRetries ∧
      (task'.status = .FAILED → (task'.retryCount : Int) = freshTask.maxRetries) ∧
      ∃ es, (deliverAll (["a", "b", "c", "d"].map failingDelivery) freshStore).effects
          = freshStore.effects ++ es ∧
        ∀ t ∈ savedTasks 0 es, (t.retryCount : Int) ≤ freshTask.maxRetries :=
  c4_retry_bound 0 (["a", "b", "c", "d"].map failingDelivery) freshStore freshTask
    (failingDeliveries_map _) rfl rfl (by decide) (by decide)

/-- Why C4 amended is about deliveries during which the store works: a FAILED task with
retryCount 3 of 3 is delivered again, the tool would fail and `Task.find` (line 9) throws;
the tool is not even invoked, the `catch` block counts the exception of `reconcileWorkflow`
as an attempt and saves retryCount 4. -/
theorem retry_bound_needs_working_store :
    ((executeTask { failingDelivery "again" with faults := findTasksDown }
        exhaustedStore).2.tasks[0]?).map (fun t => (t.status, t.retryCount, t.maxRetries))
      = some (.FAILED, 4, 3) ∧
    toolInvocations (executeTask { failingDelivery "again" with faults := findTasksDown }
        exhaustedStore).2.effects = 0 := by
  refine ⟨by decide, by decide⟩

/-- Counterexample to C5 as stated: with maxRetries 3 the task is still PENDING after two
failing deliveries and FAILED after the third, and the status history PENDING, RUNNING,
PENDING, RUNNING, PENDING, RUNNING, FAILED contains the cycle PENDING, RUNNING, PENDING
twice, not three times. -/
theorem c5_three_retries_two_cycles :
    ((freshStore.tasks[0]?).map (fun t => (t.status, t.retryCount, t.maxRetries)))
      = some (.PENDING, 0, 3) ∧
    (((deliverAll (["a", "b"].map failingDelivery) freshStore).tasks[0]?).map
      (fun t => t.status)) = some .PENDING ∧
    (((deliverAll (["a", "b", "c"].map failingDelivery) freshStore).tasks[0]?).map
      (fun t => t.status)) = some .FAILED ∧
    savedStatuses 0 (deliverAll (["a", "b", "c"].map failingDelivery) freshStore).effects
      = [.RUNNING, .PENDING, .RUNNING, .PENDING, .RUNNING, .FAILED] ∧
    countRetryCycles (.PENDING ::
      savedStatuses 0 (deliverAll (["a", "b", "c"].map failingDelivery) freshStore).effects)
      = 2 := by
  refine ⟨by decide, by decide, by decide, by decide, by decide⟩

/-- C5 amended (retry bound on the transitions): for a task that starts PENDING with
retryCount 0, no output and maxRetries = n with n at least 1, whose tool invocation fails in
each of n deliveries (the store working normally), the statuses saved for the task are
RUNNING, PENDING repeated n - 1 times and then RUNNING, FAILED; so the status history from
the initial PENDING on contains the cycle PENDING, RUNNING, PENDING exactly n - 1 times, and
the n-th delivery is the one that sets FAILED. -/
theorem c5_retry_cycles (taskId : Nat) (ds : List Delivery) (w : World) (task : Task)
    (hds : failingDeliveries taskId ds) (ht : w.tasks[taskId]? = some task)
    (hst : task.status = .PENDING) (hout : truthy? task.output = false)
    (h0 : task.retryCount = 0) (hmax : task.maxRetries = (ds.length : Int))
    (hpos : 1 ≤ ds.length) :
    savedStatuses taskId (deliverAll ds w).effects =
      savedStatuses taskId w.effects ++ retryCycles (ds.length - 1) ++ [.RUNNING, .FAILED] ∧
    countRetryCycles (.PENDING :: (retryCycles (ds.length - 1) ++ [.RUNNING, .FAILED]))
      = ds.length - 1 ∧
    ((deliverAll ds w).tasks[taskId]?).map (fun t => t.status) = some .FAILED := by
  obtain ⟨init, dlast, e, task', _, _, ht', hs', _, _, _, _, hsaved, _⟩ :=
    exhausting_deliveries taskId ds w task hds ht (by rw [hst]; decide) (by rw [hst]; decide)
      hout h0 hmax hpos
  exact ⟨hsaved, countRetryCycles_retryCycles _, by rw [ht']; simp [hs']⟩

/-- Witness of C5 amended: three failing deliveries of the fresh task (three retries). -/
theorem c5_retry_cycles_witness :
    savedStatuses 0 (deliverAll (["a", "b", "c"].map failingDelivery) freshStore).effects =
      savedStatuses 0 freshStore.effects ++ retryCycles (3 - 1) ++ [.RUNNING, .FAILED] ∧
    countRetryCycles (.PENDING :: (retryCycles (3 - 1) ++ [.RUNNING, .FAILED])) = 3 - 1 ∧
    ((deliverAll (["a", "b", "c"].map failingDelivery) freshStore).tasks[0]?).map
      (fun t => t.status) = some .FAILED :=
  c5_retry_cycles 0 (["a", "b", "c"].map failingDelivery) freshStore freshTask
    (failingDeliveries_map _) rfl rfl rfl rfl rfl (by decide)

/-- C6 at its failing input: the fresh task (maxRetries 3) after three deliveries during
which the tool fails, then one further delivery during which `Workflow.findById` (line 10)
throws. The three deliveries leave exactly the log of the scenario and the task FAILED with
retryCount 3. The further delivery invokes no tool, but the exception of `reconcileWorkflow`
(line 54) reaches the `catch` block: a second TASK_FAILED and a second WORKFLOW_FAILED are
appended, retryCount becomes 4 and the error of the workflow is rewritten. -/
theorem c6_further_delivery_adds_events :
    eventTypes (deliverAll (["a", "b", "c"].map failingDelivery) freshStore).auditLog
      = [.TASK_STARTED, .TASK_STARTED, .TASK_STARTED, .TASK_FAILED, .WORKFLOW_FAILED] ∧
    ((deliverAll (["a", "b", "c"].map failingDelivery) freshStore).tasks[0]?).map
        (fun t => (t.status, t.retryCount)) = some (.FAILED, 3) ∧
    toolInvocations (executeTask lookupFailsDelivery
        (deliverAll (["a", "b", "c"].map failingDelivery) freshStore)).2.effects = 3 ∧
    eventTypes (executeTask lookupFailsDelivery
        (deliverAll (["a", "b", "c"].map failingDelivery) freshStore)).2.auditLog
      = [.TASK_STARTED, .TASK_STARTED, .TASK_STARTED, .TASK_FAILED, .WORKFLOW_FAILED,
         .TASK_FAILED, .WORKFLOW_FAILED] ∧
    ((executeTask lookupFailsDelivery
        (deliverAll (["a", "b", "c"].map failingDelivery) freshStore)).2.tasks[0]?).map
        (fun t => (t.status, t.retryCount)) = some (.FAILED, 4) ∧
    ((executeTask lookupFailsDelivery
        (deliverAll (["a", "b", "c"].map failingDelivery) freshStore)).2.workflows[0]?).map
        (fun wf => wf.error) = some (some ⟨"Task search_web failed: store down", none⟩) := by
  refine ⟨by decide, by decide, by decide, by decide, by decide, by decide⟩

/-- What C6 asks does hold while the store works normally: for a task with maxRetries = n,
n at least 1, retryCount 0, no output and a status that is neither COMPLETED nor FAILED,
owned by an existing workflow, after n deliveries during all of which the tool fails, the
audit log is the log before followed by exactly n TASK_STARTED events, one TASK_FAILED and
one WORKFLOW_FAILED, all of that workflow; the tool was invoked n times; the task is FAILED
with retryCount n; the workflow is FAILED with the error message
"Task <name> failed: <message>", the message being the one of the failure of the last
delivery; and any further delivery for the task during which the store works, whatever the
tool would answer, leaves the audit log, the tasks and the workflows as they are. -/
theorem exhausted_retries_when_store_works (taskId : Nat) (ds : List Delivery) (w : World) (task : Task)
    (workflow : Workflow)
    (hds : failingDeliveries taskId ds) (ht : w.tasks[taskId]? = some task)
    (hwf : w.workflows[task.workflowId]? = some workflow)
    (hc : task.status ≠ .COMPLETED) (hnf : task.status ≠ .FAILED)
    (hout : truthy? task.output = false)
    (h0 : task.retryCount = 0) (hmax : task.maxRetries = (ds.length : Int))
    (hpos : 1 ≤ ds.length) :
    (deliverAll ds w).auditLog.map (fun e => (e.workflowId, e.eventType)) =
      w.auditLog.map (fun e => (e.workflowId, e.eventType)) ++
        List.replicate ds.length (task.workflowId, .TASK_STARTED) ++
        [(task.workflowId, .TASK_FAILED), (task.workflowId, .WORKFLOW_FAILED)] ∧
    toolInvocations (deliverAll ds w).effects = toolInvocations w.effects + ds.length ∧
    (∃ task', (deliverAll ds w).tasks[taskId]? = some task' ∧
      task'.status = .FAILED ∧ task'.retryCount = ds.length) ∧
    (∃ dlast e, ds.getLast? = some dlast ∧ dlast.tool task.name task.input = .error e ∧
      (deliverAll ds w).workflows[task.workflowId]? =
        some { workflow with
          status := .FAILED,
          error := some ⟨"Task " ++ task.name ++ " failed: " ++ e.message, none⟩ }) ∧
    (∀ d : Delivery, d.taskId = taskId → d.faults = noFaults →
      (executeTask d (deliverAll ds w)).2.auditLog = (deliverAll ds w).auditLog ∧
      (executeTask d (deliverAll ds w)).2.tasks = (deliverAll ds w).tasks ∧
      (executeTask d (deliverAll ds w)).2.workflows = (deliverAll ds w).workflows) := by
  obtain ⟨init, dlast, e, task', hcat, he, ht', hs', hrc', hwid', hwfs, hlog, _, htools⟩ :=
    exhausting_deliveries taskId ds w task hds ht hc hnf hout h0 hmax hpos
  have hlt := getElem?_some_lt hwf
  rw [hwf] at hwfs
  have hwf' : (deliverAll ds w).workflows[task.workflowId]? =
      some { workflow with
        status := .FAILED,
        error := some ⟨"Task " ++ task.name ++ " failed: " ++ e.message, none⟩ } := by
    rw [hwfs]
    simp [hlt, taskFailureMessage]
  refine ⟨?_, htools, ⟨task', ht', hs', hrc'⟩, ⟨dlast, e, ?_, he, hwf'⟩, ?_⟩
  · rw [hlog]
    simp
  · rw [hcat]
    simp
  · intro d hid hf
    subst hid
    rw [exec_failed d (deliverAll ds w) task' hf ht' hs', hwid',
      reconcile_terminal_eq task.workflowId (deliverAll ds w) _ hwf' (Or.inr rfl)]
    exact ⟨rfl, rfl, rfl⟩

/-- An instance of `exhausted_retries_when_store_works`: three failing deliveries of the
fresh task (three retries); the log is TASK_STARTED three times, TASK_FAILED,
WORKFLOW_FAILED. -/
theorem exhausted_retries_example :
    eventTypes (deliverAll (["a", "b", "c"].map failingDelivery) freshStore).auditLog
      = [.TASK_STARTED, .TASK_STARTED, .TASK_STARTED, .TASK_FAILED, .WORKFLOW_FAILED] ∧
    (deliverAll (["a", "b", "c"].map failingDelivery) freshStore).auditLog.map
        (fun e => (e.workflowId, e.eventType)) =
      freshStore.auditLog.map (fun e => (e.workflowId, e.eventType)) ++
        List.replicate 3 (0, .TASK_STARTED) ++ [(0, .TASK_FAILED), (0, .WORKFLOW_FAILED)] :=
  ⟨by decide,
    (exhausted_retries_when_store_works 0 (["a", "b", "c"].map failingDelivery) freshStore freshTask
      (workflowIn .RUNNING) (failingDeliveries_map _) rfl rfl (by decide) (by decide) rfl rfl
      rfl (by decide)).1⟩

/-- C7 (reconciliation monotonicity): once a workflow is COMPLETED or FAILED,
`reconcileWorkflow` leaves the whole store as it was (tasks, workflow records with their
status, result and error, audit log, job queue), whatever the states of the tasks and
whatever store operations fail. -/
theorem c7_reconcile_terminal_unchanged (f : Faults) (workflowId : Nat) (w : World)
    (workflow : Workflow) (hwf : w.workflows[workflowId]? = some workflow)
    (hterm : workflow.status = .COMPLETED ∨ workflow.status = .FAILED) :
    (reconcileWorkflow f workflowId w).2.tasks = w.tasks ∧
    (reconcileWorkflow f workflowId w).2.workflows = w.workflows ∧
    (reconcileWorkflow f workflowId w).2.auditLog = w.auditLog ∧
    (reconcileWorkflow f workflowId w).2.jobs = w.jobs :=
  reconcile_terminal f workflowId w workflow hwf hterm

/-- Witness of C7: a FAILED workflow whose only task is COMPLETED. -/
theorem c7_reconcile_terminal_unchanged_witness :
    (reconcileWorkflow noFaults 0
        (storeOf (workflowIn .FAILED) [{ freshTask with status := .COMPLETED }])).2.tasks
      = (storeOf (workflowIn .FAILED) [{ freshTask with status := .COMPLETED }]).tasks ∧
    (reconcileWorkflow noFaults 0
        (storeOf (workflowIn .FAILED) [{ freshTask with status := .COMPLETED }])).2.workflows
      = (storeOf (workflowIn .FAILED) [{ freshTask with status := .COMPLETED }]).workflows ∧
    (reconcileWorkflow noFaults 0
        (storeOf (workflowIn .FAILED) [{ freshTask with status := .COMPLETED }])).2.auditLog
      = (storeOf (workflowIn .FAILED) [{ freshTask with status := .COMPLETED }]).auditLog ∧
    (reconcileWorkflow noFaults 0
        (storeOf (workflowIn .FAILED) [{ freshTask with status := .COMPLETED }])).2.jobs
      = (storeOf (workflowIn .FAILED) [{ freshTask with status := .COMPLETED }]).jobs :=
  c7_reconcile_terminal_unchanged noFaults 0
    (storeOf (workflowIn .FAILED) [{ freshTask with status := .COMPLETED }])
    (workflowIn .FAILED) rfl (Or.inr rfl)

/-- Counterexample to C8 as stated: a FAILED workflow whose single task is COMPLETED is
still FAILED after `reconcileWorkflow`, not COMPLETED. -/
theorem c8_failed_workflow_stays_failed :
    (tasksOf 0 (storeOf (workflowIn .FAILED) [{ freshTask with status := .COMPLETED }])).length
      = 1 ∧
    (∀ t ∈ tasksOf 0 (storeOf (workflowIn .FAILED) [{ freshTask with status := .COMPLETED }]),
      t.status = .COMPLETED) ∧
    ((reconcileWorkflow noFaults 0
        (storeOf (workflowIn .FAILED) [{ freshTask with status := .COMPLETED }])).2.workflows[0]?).map
      (fun wf => wf.status) = some .FAILED := by
  refine ⟨by decide, by decide, by decide⟩

/-- C8 amended (all-complete implies workflow-complete, for a workflow that is not FAILED),
with the store working normally: for a workflow whose status is not FAILED and whose tasks,
N of them with N at least 0, are all COMPLETED, `reconcileWorkflow` returns, leaves the tasks
as they are, and the workflow is COMPLETED afterwards; if it was COMPLETED already, the
workflows and the audit log are unchanged; otherwise the workflow record is saved with
status COMPLETED and the summary result, and exactly one WORKFLOW_COMPLETED event is
appended. -/
theorem c8_all_completed (workflowId : Nat) (w : World) (workflow : Workflow)
    (hwf : w.workflows[workflowId]? = some workflow)
    (hnf : workflow.status ≠ .FAILED)
    (hall : ∀ t ∈ w.tasks, t.workflowId = workflowId → t.status = .COMPLETED) :
    (reconcileWorkflow noFaults workflowId w).1 = .ok () ∧
    (reconcileWorkflow noFaults workflowId w).2.tasks = w.tasks ∧
    ((reconcileWorkflow noFaults workflowId w).2.workflows[workflowId]?).map
      (fun wf => wf.status) = some .COMPLETED ∧
    (workflow.status = .COMPLETED →
      (reconcileWorkflow noFaults workflowId w).2.workflows = w.workflows ∧
      (reconcileWorkflow noFaults workflowId w).2.auditLog = w.auditLog) ∧
    (workflow.status ≠ .COMPLETED →
      (reconcileWorkflow noFaults workflowId w).2.workflows =
        w.workflows.set workflowId
          { workflow with status := .COMPLETED, result := some reconciledResult } ∧
      (reconcileWorkflow noFaults workflowId w).2.auditLog =
        w.auditLog ++ [⟨workflowId, .INFO, .WORKFLOW_COMPLETED,
          some (.obj [("reason", .str "Reconciliation confirmed completion")])⟩]) := by
  have hlt := getElem?_some_lt hwf
  obtain ⟨hany, hall'⟩ := all_completed_tasksOf hall
  by_cases hc : workflow.status = .COMPLETED
  · rw [reconcile_terminal_eq workflowId w workflow hwf (Or.inl hc)]
    simp [hwf, hc]
  · rw [reconcile_completed_eq workflowId w workflow hwf hc hnf hany hall']
    simp [hc, hlt, completedWorkflow, reconcileCompletedEntry_eq]

/-- Witness of C8 amended: a RUNNING workflow whose single task is COMPLETED. -/
theorem c8_all_completed_witness :
    ((reconcileWorkflow noFaults 0 completedStore).2.workflows[0]?).map
      (fun wf => wf.status) = some .COMPLETED ∧
    eventTypes (reconcileWorkflow noFaults 0 completedStore).2.auditLog
      = [.WORKFLOW_COMPLETED] :=
  ⟨(c8_all_completed 0 completedStore (workflowIn .RUNNING) rfl (by decide)
      (by decide)).2.2.1, by decide⟩

/-- C9 (any-failed implies workflow-failed), with the store working normally: for a
workflow that is neither COMPLETED nor FAILED and any one of its tasks that is FAILED,
wherever it stands among the tasks and whatever the statuses of the others,
`reconcileWorkflow` returns, leaves the tasks as they are, saves the workflow with status
FAILED and the generic reconciliation error message, and appends exactly one
WORKFLOW_FAILED event. -/
theorem c9_any_failed (workflowId : Nat) (w : World) (workflow : Workflow) (t : Task)
    (hwf : w.workflows[workflowId]? = some workflow)
    (hc : workflow.status ≠ .COMPLETED) (hf : workflow.status ≠ .FAILED)
    (hmem : t ∈ w.tasks) (hown : t.workflowId = workflowId) (hfailed : t.status = .FAILED) :
    (reconcileWorkflow noFaults workflowId w).1 = .ok () ∧
    (reconcileWorkflow noFaults workflowId w).2.tasks = w.tasks ∧
    (reconcileWorkflow noFaults workflowId w).2.workflows =
      w.workflows.set workflowId
        { workflow with status := .FAILED,
                        error := some ⟨reconciledFailureMessage, none⟩ } ∧
    ((reconcileWorkflow noFaults workflowId w).2.workflows[workflowId]?).map
      (fun wf => wf.status) = some .FAILED ∧
    (reconcileWorkflow noFaults workflowId w).2.auditLog =
      w.auditLog ++ [⟨workflowId, .INFO, .WORKFLOW_FAILED,
        some (.obj [("reason", .str "Reconciliation found failed tasks")])⟩] := by
  have hlt := getElem?_some_lt hwf
  have hany := any_failed_of_mem (mem_tasksOf hmem hown) hfailed
  rw [reconcile_failed_eq workflowId w workflow hwf hc hf hany]
  simp [hlt, failedWorkflow, reconcileFailedEntry_eq]

/-- Witness of C9: a RUNNING workflow with a COMPLETED, a FAILED and a PENDING task. -/
theorem c9_any_failed_witness :
    ((reconcileWorkflow noFaults 0 mixedStore).2.workflows[0]?).map
      (fun wf => wf.status) = some .FAILED ∧
    eventTypes (reconcileWorkflow noFaults 0 mixedStore).2.auditLog = [.WORKFLOW_FAILED] :=
  ⟨(c9_any_failed 0 mixedStore (workflowIn .RUNNING) { freshTask with status := .FAILED } rfl
      (by decide) (by decide) (by simp [mixedStore, storeOf]) rfl rfl).2.2.2.1, by decide⟩

/-- C10 (reconciliation is idempotent): for every store, every workflow id and whatever
store operations fail (the same in both calls, in particular none), calling
`reconcileWorkflow` a second time right after the first leaves the tasks, the workflows,
the audit log and the job queue as the first call left them. -/
theorem c10_reconcile_idempotent (f : Faults) (workflowId : Nat) (w : World) :
    (reconcileWorkflow f workflowId (reconcileWorkflow f workflowId w).2).2.tasks
      = (reconcileWorkflow f workflowId w).2.tasks ∧
    (reconcileWorkflow f workflowId (reconcileWorkflow f workflowId w).2).2.workflows
      = (reconcileWorkflow f workflowId w).2.workflows ∧
    (reconcileWorkflow f workflowId (reconcileWorkflow f workflowId w).2).2.auditLog
      = (reconcileWorkflow f workflowId w).2.auditLog ∧
    (reconcileWorkflow f workflowId (reconcileWorkflow f workflowId w).2).2.jobs
      = (reconcileWorkflow f workflowId w).2.jobs := by
  rcases reconcile_dichotomy f workflowId w with h | ⟨wf, hwf, hterm⟩
  · exact (reconcile_congr f workflowId _ w h).2
  · exact reconcile_terminal f workflowId _ wf hwf hterm

/-! ### The router and the orchestration service -/

theorem set_length_concat {α : Type} (l : List α) (a b : α) :
    (l ++ [a]).set l.length b = l ++ [b] := by
  induction l with
  | nil => rfl
  | cons x xs ih => simp [List.set, ih]

theorem getElem?_length_concat {α : Type} (l : List α) (a : α) :
    (l ++ [a])[l.length]? = some a := by
  simp

theorem startsWithChars_iff (pattern : List Char) :
    ∀ text : List Char, startsWithChars pattern text = true ↔ ∃ post, text = pattern ++ post := by
  induction pattern with
  | nil => intro text; simp [startsWithChars]
  | cons p ps ih =>
    intro text
    cases text with
    | nil => simp [startsWithChars]
    | cons c cs =>
      simp only [startsWithChars, Bool.and_eq_true, beq_iff_eq, ih, List.cons_append,
        List.cons.injEq]
      constructor
      · rintro ⟨rfl, post, rfl⟩
        exact ⟨post, rfl, rfl⟩
      · rintro ⟨post, rfl, rfl⟩
        exact ⟨rfl, post, rfl⟩

/-- The scan of `includesChars` finds the pattern exactly when the text is some characters,
then the pattern, then some characters. -/
theorem includesChars_iff (pattern : List Char) :
    ∀ text : List Char,
      includesChars pattern text = true ↔ ∃ pre post, text = pre ++ pattern ++ post := by
  intro text
  induction text with
  | nil =>
    simp only [includesChars, startsWithChars_iff]
    constructor
    · rintro ⟨post, h⟩
      exact ⟨[], post, by simpa using h⟩
    · rintro ⟨pre, post, h⟩
      have h1 : pre ++ pattern ++ post = [] := h.symm
      simp only [List.append_eq_nil] at h1
      exact ⟨[], by rw [h1.1.2]; rfl⟩
  | cons c cs ih =>
    simp only [includesChars, Bool.or_eq_true, startsWithChars_iff, ih]
    constructor
    · rintro (⟨post, h⟩ | ⟨pre, post, h⟩)
      · exact ⟨[], post, by simpa using h⟩
      · exact ⟨c :: pre, post, by rw [h]; rfl⟩
    · rintro ⟨pre, post, h⟩
      cases pre with
      | nil => exact Or.inl ⟨post, by simpa using h⟩
      | cons x xs =>
        simp only [List.cons_append, List.cons.injEq] at h
        exact Or.inr ⟨xs, post, h.2⟩

/-- The test of line 17 is the condition of the specification. -/
theorem includes_search_iff (goal : String) :
    includes (toLowerCase goal) "search" = true ↔ mentionsSearch goal :=
  includesChars_iff _ _

theorem route_search (goal : String) (context : Payload)
    (h : includes (toLowerCase goal) "search" = true) :
    contextRouter_route goal context = [searchDescriptor goal] := by
  simp [contextRouter_route, h, searchDescriptor]

theorem route_fallback (goal : String) (context : Payload)
    (h : includes (toLowerCase goal) "search" = false) :
    contextRouter_route goal context = [fallbackDescriptor goal] := by
  simp [contextRouter_route, h, fallbackDescriptor]

/-- `createWorkflow` when the router returns one descriptor and the store works, for
documents that pass validation. -/
theorem create_single (env : CreateEnv) (goal : String) (context? : Option Payload)
    (w : World) (descriptor : TaskDescriptor) (hf : env.faults = noFaults)
    (htrace : env.traceId ≠ "") (hgoal : goal ≠ "") (hname : descriptor.name ≠ "")
    (hr : env.route goal (context?.getD (.obj [])) = .ok [descriptor]) :
    workflowService_createWorkflow env goal context? w =
      (.ok (w.workflows.length, { pendingWorkflow env goal context? with status := .RUNNING }),
        createdStore env goal context? w descriptor) := by
  simp [workflowService_createWorkflow, routeAndSchedule, scheduleSteps, Workflow_create,
    Workflow_saveAt, Task_create, scheduleJob, auditService_log, hf, hr, pendingWorkflow,
    createdEntry, scheduledEntry, set_length_concat, createdStore, htrace, hgoal, hname,
    newTask]

/-- `createWorkflow` when the router throws and the store works, for a document that passes
validation. -/
theorem create_routing_failed (env : CreateEnv) (goal : String) (context? : Option Payload)
    (w : World) (error : JsError) (hf : env.faults = noFaults)
    (htrace : env.traceId ≠ "") (hgoal : goal ≠ "")
    (hr : env.route goal (context?.getD (.obj [])) = .error error) :
    workflowService_createWorkflow env goal context? w =
      (.ok (w.workflows.length,
          { pendingWorkflow env goal context? with
              status := .FAILED, error := some ⟨error.message, some error.stack⟩ }),
        { w with
          workflows := w.workflows ++
            [{ pendingWorkflow env goal context? with
                status := .FAILED, error := some ⟨error.message, some error.stack⟩ }],
          auditLog := w.auditLog ++ [createdEntry env goal w.workflows.length],
          effects := w.effects ++
            [.workflowCreated w.workflows.length (pendingWorkflow env goal context?),
             .auditAppended (createdEntry env goal w.workflows.length),
             .workflowSaved w.workflows.length
               { pendingWorkflow env goal context? with
                   status := .FAILED, error := some ⟨error.message, some error.stack⟩ }] }) := by
  simp [workflowService_createWorkflow, routeAndSchedule, Workflow_create,
    Workflow_saveAt, auditService_log, hf, hr, pendingWorkflow, createdEntry,
    set_length_concat, htrace, hgoal]

/-! ### The audit log only grows -/

theorem audit_log_eq (f : Faults) (wid : Nat) (ev : EventType) (details : Payload)
    (level : Level) (w : World) :
    (auditService_log f wid ev details level w).auditLog =
      w.auditLog ++ auditSuffix f wid ev details level := by
  unfold auditService_log auditSuffix
  cases f (.audit ev) <;> simp

theorem reconcile_log_eq (f : Faults) (wid : Nat) (w : World) :
    (reconcileWorkflow f wid w).2.auditLog = w.auditLog ++ reconcileSuffix f wid w := by
  obtain ⟨suffix, h, _⟩ := reconcile_log f wid w
  unfold reconcileSuffix
  rw [h]
  simp

theorem tryBlock_log (d : Delivery) (task : Task) (w : World) :
    ∃ suffix, (tryBlock d task w).2.2.auditLog = w.auditLog ++ suffix := by
  unfold tryBlock withTask Task_save executeTool
  split
  · exact ⟨_, reconcile_log_eq _ _ _⟩
  · split
    · exact ⟨_, reconcile_log_eq _ _ _⟩
    · split
      · cases d.faults .saveRecovered <;>
          simp only [reconcile_log_eq, audit_log_eq, List.append_assoc]
        · exact ⟨_, rfl⟩
        · exact ⟨[], by simp⟩
      · cases d.faults .saveRunning
        · dsimp only
          cases d.tool task.name task.input
          · simp only [audit_log_eq]
            exact ⟨_, rfl⟩
          · dsimp only
            cases d.faults .saveCompleted <;>
              simp only [reconcile_log_eq, audit_log_eq, List.append_assoc] <;>
              exact ⟨_, rfl⟩
        · exact ⟨[], by simp⟩

theorem audit_workflows (f : Faults) (wid : Nat) (ev : EventType) (details : Payload)
    (level : Level) (w : World) :
    (auditService_log f wid ev details level w).workflows = w.workflows := by
  unfold auditService_log
  cases f (.audit ev) <;> rfl

theorem audit_tasks (f : Faults) (wid : Nat) (ev : EventType) (details : Payload)
    (level : Level) (w : World) :
    (auditService_log f wid ev details level w).tasks = w.tasks := by
  unfold auditService_log
  cases f (.audit ev) <;> rfl

theorem catchBlock_log (d : Delivery) (task : Task) (error : JsError) (w : World) :
    ∃ suffix, (catchBlock d task error w).2.auditLog = w.auditLog ++ suffix := by
  unfold catchBlock Task_save Workflow_findByIdAndUpdate
  dsimp only
  split
  · cases d.faults .saveRetry <;> exact ⟨[], by simp⟩
  · cases d.faults .saveFailed
    · dsimp only
      cases d.faults .updateWorkflow
      · simp only [audit_workflows]
        cases w.workflows[task.workflowId]? <;>
          simp only [audit_log_eq, List.append_assoc] <;> exact ⟨_, rfl⟩
      · simp only [audit_log_eq]
        exact ⟨_, rfl⟩
    · exact ⟨[], by simp⟩

theorem executeTask_log (d : Delivery) (w : World) :
    ∃ suffix, (executeTask d w).2.auditLog = w.auditLog ++ suffix := by
  unfold executeTask Task_findById
  cases d.faults .loadTask
  · dsimp only
    cases w.tasks[d.taskId]? with
    | none => exact ⟨[], by simp⟩
    | some task =>
      dsimp only
      obtain ⟨s1, h1⟩ := tryBlock_log d task w
      cases hres : (tryBlock d task w).1 with
      | ok u =>
        have : tryBlock d task w = (.ok u, (tryBlock d task w).2.1, (tryBlock d task w).2.2) := by
          rw [← hres]
        rw [this]
        exact ⟨s1, h1⟩
      | error e =>
        have : tryBlock d task w = (.error e, (tryBlock d task w).2.1, (tryBlock d task w).2.2) := by
          rw [← hres]
        rw [this]
        dsimp only
        obtain ⟨s2, h2⟩ := catchBlock_log d (tryBlock d task w).2.1 e (tryBlock d task w).2.2
        exact ⟨s1 ++ s2, by rw [h2, h1, List.append_assoc]⟩
  · exact ⟨[], by simp⟩

theorem scheduleSteps_log (env : CreateEnv) (workflowId : Nat) (steps : List TaskDescriptor) :
    ∀ (step : Nat) (w : World),
      ∃ suffix, (scheduleSteps env workflowId step steps w).2.auditLog = w.auditLog ++ suffix := by
  induction steps with
  | nil => intro step w; exact ⟨[], by simp [scheduleSteps]⟩
  | cons descriptor rest ih =>
    intro step w
    unfold scheduleSteps Task_create scheduleJob
    by_cases hname : (newTask workflowId descriptor).name = ""
    · rw [if_pos hname]
      exact ⟨[], by simp⟩
    rw [if_neg hname]
    cases env.faults (.createTask step)
    · dsimp only
      cases env.faults (.scheduleJob step)
      · dsimp only
        obtain ⟨s, hs⟩ := ih (step + 1)
          (auditService_log env.faults workflowId .TASK_SCHEDULED
            (.obj [("taskId", idPayload w.tasks.length), ("taskName", .str descriptor.name),
              ("executionId", .str (env.executionId step))]) .INFO
            { tasks := w.tasks ++ [newTask workflowId descriptor], workflows := w.workflows,
              auditLog := w.auditLog,
              jobs := w.jobs ++ [(w.tasks.length, env.executionId step)],
              effects := w.effects ++ [.taskCreated w.tasks.length (newTask workflowId descriptor)]
                ++ [.jobScheduled w.tasks.length (env.executionId step)] })
        rw [hs, audit_log_eq, List.append_assoc]
        exact ⟨_, rfl⟩
      · exact ⟨[], by simp⟩
    · exact ⟨[], by simp⟩

theorem routeAndSchedule_log (env : CreateEnv) (goal : String) (context : Payload)
    (workflowId : Nat) (workflow : Workflow) (w : World) :
    ∃ suffix, (routeAndSchedule env goal context workflowId workflow w).2.2.auditLog =
      w.auditLog ++ suffix := by
  unfold routeAndSchedule Workflow_saveAt
  cases env.route goal context with
  | error e => exact ⟨[], by simp⟩
  | ok nextSteps =>
    dsimp only
    split
    · cases env.faults .saveWorkflowRunning
      · exact scheduleSteps_log env workflowId nextSteps 0 _
      · exact ⟨[], by simp⟩
    · exact scheduleSteps_log env workflowId nextSteps 0 w

theorem suffix_of_exists {α : Type} {l0 l : List α} (h : ∃ s, l = l0 ++ s) :
    l = l0 ++ l.drop l0.length := by
  obtain ⟨s, hs⟩ := h
  rw [hs]
  simp

theorem createWorkflow_log (env : CreateEnv) (goal : String) (context? : Option Payload)
    (w : World) :
    ∃ suffix, (workflowService_createWorkflow env goal context? w).2.auditLog =
      w.auditLog ++ suffix := by
  unfold workflowService_createWorkflow Workflow_create
  dsimp only
  by_cases hreq : env.traceId = "" ∨ goal = ""
  · rw [if_pos hreq]
    exact ⟨[], by simp⟩
  rw [if_neg hreq]
  cases env.faults .createWorkflow
  · dsimp only
    split
    · next a workflow1 w3 heq =>
      have h := congrArg (fun r => r.2.2.auditLog) heq
      dsimp only at h
      rw [suffix_of_exists (routeAndSchedule_log _ _ _ _ _ _), audit_log_eq] at h
      dsimp only at h
      exact ⟨_, by rw [← h, List.append_assoc]⟩
    · next error workflow1 w3 heq =>
      have h := congrArg (fun r => r.2.2.auditLog) heq
      dsimp only at h
      rw [suffix_of_exists (routeAndSchedule_log _ _ _ _ _ _), audit_log_eq] at h
      dsimp only at h
      unfold Workflow_saveAt
      cases env.faults .saveWorkflowFailed <;> exact ⟨_, by rw [← h, List.append_assoc]⟩
  · exact ⟨[], by simp⟩

theorem controller_log (env : CreateEnv) (body : RequestBody) (w : World) :
    ∃ suffix, (workflowController_createWorkflow env body w).2.auditLog =
      w.auditLog ++ suffix := by
  unfold workflowController_createWorkflow
  cases createWorkflowSchema_parse body with
  | none => exact ⟨[], by simp⟩
  | some parsed =>
    obtain ⟨goal, context⟩ := parsed
    dsimp only
    obtain ⟨s, hs⟩ := createWorkflow_log env goal context w
    split <;> next heq => (rw [heq] at hs; exact ⟨s, hs⟩)

/-! ### Partial progress -/

theorem not_all_completed_of_mem {ts : List Task} {t : Task} (hm : t ∈ ts)
    (hs : t.status ≠ .COMPLETED) : ts.all (fun t => t.status == .COMPLETED) = false := by
  rw [Bool.eq_false_iff]
  intro hall
  rw [List.all_eq_true] at hall
  have := hall t hm
  simp at this
  exact hs this

theorem none_failed_tasksOf {w : World} {wid : Nat}
    (hnone : ∀ t ∈ w.tasks, t.workflowId = wid → t.status ≠ .FAILED) :
    (tasksOf wid w).any (fun t => t.status == .FAILED) = false := by
  rw [Bool.eq_false_iff]
  intro hany
  rw [List.any_eq_true] at hany
  obtain ⟨t, hm, hs⟩ := hany
  unfold tasksOf at hm
  rw [List.mem_filter] at hm
  exact hnone t hm.1 (by simpa using hm.2) (by simpa using hs)

/-- Partial progress, whatever store operations fail. -/
theorem reconcile_unfinished (f : Faults) (wid : Nat) (w : World) (wf : Workflow)
    (hwf : w.workflows[wid]? = some wf)
    (hany : (tasksOf wid w).any (fun t => t.status == .FAILED) = false)
    (hall : (tasksOf wid w).all (fun t => t.status == .COMPLETED) = false) :
    (reconcileWorkflow f wid w).2.sameStore w := by
  unfold tasksOf at hany hall
  unfold reconcileWorkflow Task_find Workflow_findById World.sameStore
  cases f .findTasks <;> cases f .findWorkflow <;> simp [hwf]
  split
  · simp
  · rw [if_neg (by simpa using hany), if_neg (by simpa using hall)]
    simp

/-- When reconciliation turns a workflow COMPLETED, all its tasks are COMPLETED. -/
theorem reconcile_completes_only_all (f : Faults) (wid : Nat) (w : World) (wf wf' : Workflow)
    (hwf : w.workflows[wid]? = some wf) (hc : wf.status ≠ .COMPLETED)
    (hwf' : (reconcileWorkflow f wid w).2.workflows[wid]? = some wf')
    (hc' : wf'.status = .COMPLETED) :
    (tasksOf wid w).all (fun t => t.status == .COMPLETED) = true := by
  have hlt := getElem?_some_lt hwf
  unfold tasksOf
  revert hwf'
  unfold reconcileWorkflow Task_find Workflow_findById
  have hstay : w.workflows[wid]? = some wf' → (List.filter (fun t => t.workflowId == wid)
      w.tasks).all (fun t => t.status == .COMPLETED) = true := by
    intro h
    rw [hwf] at h
    injection h with h
    rw [h] at hc
    exact absurd hc' hc
  cases f .findTasks with
  | some e => exact hstay
  | none =>
    cases f .findWorkflow with
    | some e => exact hstay
    | none =>
      dsimp only
      rw [hwf]
      dsimp only
      split
      · exact hstay
      · split
        · unfold Workflow_save auditService_log
          cases f .saveWorkflow with
          | some e => exact hstay
          | none =>
            cases f (.audit .WORKFLOW_FAILED) <;>
            · dsimp only
              rw [getElem?_set_self_of_some hwf]
              intro h
              injection h with h
              rw [← h] at hc'
              exact absurd hc' (show WorkflowStatus.FAILED ≠ .COMPLETED by decide)
        · split
          · next hall => intro _; exact hall
          · exact hstay

/-! ### The claims on the orchestration service, the log and reconciliation -/

/-- Counterexample to C11 as stated ("output equal to the tool's result"): on the empty
store, the goal "Search for trace execution logs" and a tool that answers the empty object
give the five events and a COMPLETED workflow, but the task is COMPLETED with no output at
all: the save of line 76 drops a `Mixed` value that is an empty object. -/
theorem c11_empty_result_not_stored :
    eventTypes (executeTask (succeedingDelivery (.obj []))
        (workflowService_createWorkflow keywordEnv "Search for trace execution logs" none
          emptyStore).2).2.auditLog
      = [.WORKFLOW_CREATED, .TASK_SCHEDULED, .TASK_STARTED, .TASK_COMPLETED,
          .WORKFLOW_COMPLETED] ∧
    ((executeTask (succeedingDelivery (.obj []))
        (workflowService_createWorkflow keywordEnv "Search for trace execution logs" none
          emptyStore).2).2.tasks[0]?).map (fun t => (t.status, t.output.isSome))
      = some (.COMPLETED, false) ∧
    ((executeTask (succeedingDelivery (.obj []))
        (workflowService_createWorkflow keywordEnv "Search for trace execution logs" none
          emptyStore).2).2.workflows[0]?).map (fun wf => wf.status) = some .COMPLETED := by
  refine ⟨by decide, by decide, by decide⟩

/-- C11 amended (happy path), with the store working normally: for a goal whose lower-cased
text contains "search", `createWorkflow` with the keyword router creates one task named
`search_web`, and one delivery for that task during which the tool answers `result` leaves
the audit log as the log before followed by exactly WORKFLOW_CREATED, TASK_SCHEDULED,
TASK_STARTED, TASK_COMPLETED, WORKFLOW_COMPLETED, in that order and all of the new workflow
(so exactly that sequence on an empty log); the task is COMPLETED, its output is the tool's
result as the save writes it, without its empty objects, which is the result itself whenever
the result is not an object; and the workflow is COMPLETED. The store before is any store
in which no task already refers to the id the new workflow gets. -/
theorem c11_happy_path (env : CreateEnv) (goal : String) (context? : Option Payload)
    (w : World) (d : Delivery) (result : Payload)
    (henv : env.faults = noFaults) (htrace : env.traceId ≠ "")
    (hroute : env.route goal (context?.getD (.obj [])) =
      .ok (contextRouter_route goal (context?.getD (.obj []))))
    (hmentions : mentionsSearch goal)
    (hfresh : ∀ t ∈ w.tasks, t.workflowId ≠ w.workflows.length)
    (hid : d.taskId = w.tasks.length) (hf : d.faults = noFaults)
    (htool : d.tool "search_web" (some (.obj [("query", .str goal)])) = .ok result) :
    (workflowService_createWorkflow env goal context? w).2.tasks =
      w.tasks ++ [newTask w.workflows.length (searchDescriptor goal)] ∧
    (executeTask d (workflowService_createWorkflow env goal context? w).2).2.auditLog.map
        (fun e => (e.workflowId, e.eventType)) =
      w.auditLog.map (fun e => (e.workflowId, e.eventType)) ++
        [(w.workflows.length, .WORKFLOW_CREATED), (w.workflows.length, .TASK_SCHEDULED),
         (w.workflows.length, .TASK_STARTED), (w.workflows.length, .TASK_COMPLETED),
         (w.workflows.length, .WORKFLOW_COMPLETED)] ∧
    (∃ task, (executeTask d (workflowService_createWorkflow env goal context? w).2).2.tasks[
          w.tasks.length]? = some task ∧
      task.status = .COMPLETED ∧ task.output = minimizedValue result ∧
      ((∀ fields, result ≠ .obj fields) → task.output = some result)) ∧
    ((executeTask d (workflowService_createWorkflow env goal context? w).2).2.workflows[
        w.workflows.length]?).map (fun wf => wf.status) = some .COMPLETED := by
  have hsearch : includes (toLowerCase goal) "search" = true :=
    (includes_search_iff goal).2 hmentions
  have hgoal : goal ≠ "" := by
    intro h
    rw [h] at hsearch
    exact absurd hsearch (by decide)
  rw [route_search goal _ hsearch] at hroute
  rw [create_single env goal context? w (searchDescriptor goal) henv htrace hgoal
    (show ("search_web" : String) ≠ "" by decide) hroute]
  simp only
  have ht : (createdStore env goal context? w (searchDescriptor goal)).tasks[d.taskId]? =
      some (newTask w.workflows.length (searchDescriptor goal)) := by
    rw [hid]; exact getElem?_length_concat _ _
  have hexec := exec_success d (createdStore env goal context? w (searchDescriptor goal))
    (newTask w.workflows.length (searchDescriptor goal)) result hf
    ht (by simp [newTask]) (by simp [newTask]) (by simp [newTask, truthy?])
    (by simpa [newTask, searchDescriptor] using htool)
  rw [hexec]
  have hwf : (createdStore env goal context? w (searchDescriptor goal)).workflows[
      w.workflows.length]? = some { pendingWorkflow env goal context? with status := .RUNNING } :=
    getElem?_length_concat _ _
  simp only [createdStore, hid, set_length_concat] at hwf ⊢
  have hall : ∀ t ∈ w.tasks ++
      [finishedTask d (newTask w.workflows.length (searchDescriptor goal)) result],
      t.workflowId = w.workflows.length → t.status = .COMPLETED := by
    intro t hmem heq
    rw [List.mem_append, List.mem_singleton] at hmem
    rcases hmem with h | h
    · exact absurd heq (hfresh t h)
    · rw [h]; rfl
  rw [reconcile_completed_eq _ _ { pendingWorkflow env goal context? with status := .RUNNING }
    hwf (by simp) (by simp) (all_completed_tasksOf hall).1 (all_completed_tasksOf hall).2]
  refine ⟨trivial, ?_, ⟨_, getElem?_length_concat _ _, rfl, rfl, ?_⟩, ?_⟩
  · simp [createdEntry, scheduledEntry, startedEntry, completedEntry, reconcileCompletedEntry,
      newTask]
  · intro hno
    cases result <;> first | rfl | exact absurd rfl (hno _)
  · simp [set_length_concat, completedWorkflow, newTask]

/-- Witness of C11: the goal "Search for trace execution logs" on the empty store. -/
theorem c11_happy_path_witness :
    eventTypes (executeTask (succeedingDelivery (.str "found"))
        (workflowService_createWorkflow keywordEnv "Search for trace execution logs" none
          emptyStore).2).2.auditLog
      = [.WORKFLOW_CREATED, .TASK_SCHEDULED, .TASK_STARTED, .TASK_COMPLETED,
          .WORKFLOW_COMPLETED] ∧
    ((executeTask (succeedingDelivery (.str "found"))
        (workflowService_createWorkflow keywordEnv "Search for trace execution logs" none
          emptyStore).2).2.workflows[0]?).map (fun wf => wf.status) = some .COMPLETED :=
  ⟨by decide,
    (c11_happy_path keywordEnv "Search for trace execution logs" none emptyStore
      (succeedingDelivery (.str "found")) (.str "found") rfl (by decide) rfl
      ⟨[], " for trace execution logs".data, by decide⟩
      (by intro t ht; cases ht) rfl rfl rfl).2.2.2⟩

theorem internalServer_fails_unknown (renderQuery : Option Payload → String)
    (protocolError : String → JsError) (toolName : String) (args : Option Payload)
    (h : toolName ≠ "search_web") :
    internalServer_executeTool renderQuery protocolError toolName args =
      .error (protocolError "Tool not found") := by
  simp [internalServer_executeTool, h]

/-- Counterexample to C12 as stated ("for every goal that does not contain search"): the
empty goal does not contain "search", and `createWorkflow` throws the validation error of
`Workflow.create` (the schema requires a goal) and leaves the store as it was: no workflow,
no task, no event. -/
theorem c12_empty_goal_rejected :
    ¬ mentionsSearch "" ∧
    (∃ e, (workflowService_createWorkflow keywordEnv "" none emptyStore).1 = .error e) ∧
    (workflowService_createWorkflow keywordEnv "" none emptyStore).2.workflows = [] ∧
    (workflowService_createWorkflow keywordEnv "" none emptyStore).2.tasks = [] ∧
    (workflowService_createWorkflow keywordEnv "" none emptyStore).2.auditLog = [] := by
  exact ⟨fun h => absurd ((includes_search_iff "").2 h) (by decide), ⟨_, rfl⟩, rfl, rfl, rfl⟩

/-- C12 amended (a goal that matches no tool ends FAILED), with the store working normally:
for a non-empty goal whose lower-cased text does not contain "search", `createWorkflow` with
the keyword router creates a single task, named `analyze_request`; the internal tool server
fails every call whose tool name is not `search_web`, so after 3 deliveries for that task
(the default maxRetries) whose tool is the internal server the task is FAILED with
retryCount 3, the workflow is FAILED, and the audit log holds a TASK_FAILED and a
WORKFLOW_FAILED event of the workflow. -/
theorem c12_unmatched_goal_fails (env : CreateEnv) (goal : String)
    (context? : Option Payload) (w : World) (ds : List Delivery)
    (renderQuery : Option Payload → String) (protocolError : String → JsError)
    (henv : env.faults = noFaults) (htrace : env.traceId ≠ "") (hgoal : goal ≠ "")
    (hroute : env.route goal (context?.getD (.obj [])) =
      .ok (contextRouter_route goal (context?.getD (.obj []))))
    (hnot : ¬ mentionsSearch goal)
    (hds : ∀ d ∈ ds, d.taskId = w.tasks.length ∧ d.faults = noFaults ∧
      d.tool = internalServer_executeTool renderQuery protocolError)
    (hlen : ds.length = 3) :
    (workflowService_createWorkflow env goal context? w).2.tasks =
      w.tasks ++ [newTask w.workflows.length
        ⟨.REASONING, "analyze_request", some (.obj [("goal", .str goal)])⟩] ∧
    (∃ task, (deliverAll ds (workflowService_createWorkflow env goal context? w).2).tasks[
          w.tasks.length]? = some task ∧
      task.status = .FAILED ∧ task.retryCount = 3) ∧
    ((deliverAll ds (workflowService_createWorkflow env goal context? w).2).workflows[
        w.workflows.length]?).map (fun wf => wf.status) = some .FAILED ∧
    (w.workflows.length, EventType.TASK_FAILED) ∈
      (deliverAll ds (workflowService_createWorkflow env goal context? w).2).auditLog.map
        (fun e => (e.workflowId, e.eventType)) ∧
    (w.workflows.length, EventType.WORKFLOW_FAILED) ∈
      (deliverAll ds (workflowService_createWorkflow env goal context? w).2).auditLog.map
        (fun e => (e.workflowId, e.eventType)) := by
  have hno : includes (toLowerCase goal) "search" = false := by
    cases hc : includes (toLowerCase goal) "search"
    · rfl
    · exact absurd ((includes_search_iff goal).1 hc) hnot
  rw [route_fallback goal _ hno] at hroute
  rw [create_single env goal context? w (fallbackDescriptor goal) henv htrace hgoal
    (show ("analyze_request" : String) ≠ "" by decide) hroute]
  simp only
  have ht : (createdStore env goal context? w (fallbackDescriptor goal)).tasks[
      w.tasks.length]? = some (newTask w.workflows.length (fallbackDescriptor goal)) :=
    getElem?_length_concat _ _
  have hwf : (createdStore env goal context? w (fallbackDescriptor goal)).workflows[
      w.workflows.length]? = some { pendingWorkflow env goal context? with status := .RUNNING } :=
    getElem?_length_concat _ _
  have hfail : failingOn w.tasks.length (newTask w.workflows.length (fallbackDescriptor goal)).name
      (newTask w.workflows.length (fallbackDescriptor goal)).input ds := by
    intro d hd
    obtain ⟨h1, h2, h3⟩ := hds d hd
    refine ⟨h1, h2, protocolError "Tool not found", ?_⟩
    rw [h3]
    exact internalServer_fails_unknown _ _ _ _
      (show ("analyze_request" : String) ≠ "search_web" by decide)
  obtain ⟨init, dlast, e, task', _, _, ht', hs', hrc', hwid', hwfs, hlog, _, _⟩ :=
    exhausting_deliveries_on w.tasks.length ds
      (createdStore env goal context? w (fallbackDescriptor goal))
      (newTask w.workflows.length (fallbackDescriptor goal)) hfail ht
      (by simp [newTask]) (by simp [newTask]) (by simp [newTask, truthy?]) rfl
      (by rw [hlen]; rfl) (by omega)
  have hwf' : (createdStore env goal context? w (fallbackDescriptor goal)).workflows[
      (newTask w.workflows.length (fallbackDescriptor goal)).workflowId]? =
      some { pendingWorkflow env goal context? with status := .RUNNING } := hwf
  rw [hwf'] at hwfs
  refine ⟨rfl, ⟨task', ht', hs', by rw [hrc', hlen]⟩, ?_, ?_, ?_⟩
  · rw [hwfs]
    simp [createdStore, newTask, set_length_concat]
  · rw [hlog]
    simp [newTask]
  · rw [hlog]
    simp [newTask]

/-- Witness of C12: the goal "Do something impossible" on the empty store. -/
theorem c12_unmatched_goal_fails_witness :
    (∃ task, (deliverAll [internalDelivery, internalDelivery, internalDelivery]
        (workflowService_createWorkflow keywordEnv "Do something impossible" none
          emptyStore).2).tasks[0]? = some task ∧
      task.status = .FAILED ∧ task.retryCount = 3) ∧
    ((deliverAll [internalDelivery, internalDelivery, internalDelivery]
        (workflowService_createWorkflow keywordEnv "Do something impossible" none
          emptyStore).2).workflows[0]?).map (fun wf => wf.status) = some .FAILED :=
  have h := c12_unmatched_goal_fails keywordEnv "Do something impossible" none emptyStore
    [internalDelivery, internalDelivery, internalDelivery] (fun _ => "undefined")
    (fun message => ⟨message, "stack"⟩) rfl (by decide) (by decide) rfl
    (fun h => absurd ((includes_search_iff "Do something impossible").2 h) (by decide))
    (by intro d hd; simp at hd; subst hd; exact ⟨rfl, rfl, rfl⟩) rfl
  ⟨h.2.1, h.2.2.1⟩

/-- C13 (the keyword router): for every goal and context `ContextRouter.route` returns
exactly one descriptor: the tool call `search_web` with input `{ query: goal }` when the
lower-cased goal contains "search", and otherwise the fallback reasoning step
`analyze_request` with input `{ goal }`; the result is the same for every context. As a
function of the embedding it is total and deterministic. Five goals are worked out: two that
mention the word in capitals, one that does not mention it, one that has it broken by a
blank, and the empty goal. -/
theorem c13_router_single_descriptor (goal : String) (context : Payload) :
    (contextRouter_route goal context).length = 1 ∧
    (mentionsSearch goal →
      contextRouter_route goal context =
        [⟨.TOOL_CALL, "search_web", some (.obj [("query", .str goal)])⟩]) ∧
    (¬ mentionsSearch goal →
      contextRouter_route goal context =
        [⟨.REASONING, "analyze_request", some (.obj [("goal", .str goal)])⟩]) ∧
    (∀ context' : Payload, contextRouter_route goal context' = contextRouter_route goal context) ∧
    contextRouter_route "Search for trace execution logs" (.obj []) =
      [⟨.TOOL_CALL, "search_web",
        some (.obj [("query", .str "Search for trace execution logs")])⟩] ∧
    contextRouter_route "deep RESEARCH" .null =
      [⟨.TOOL_CALL, "search_web", some (.obj [("query", .str "deep RESEARCH")])⟩] ∧
    contextRouter_route "Do something impossible" (.obj []) =
      [⟨.REASONING, "analyze_request",
        some (.obj [("goal", .str "Do something impossible")])⟩] ∧
    contextRouter_route "sea rch" (.obj []) =
      [⟨.REASONING, "analyze_request", some (.obj [("goal", .str "sea rch")])⟩] ∧
    contextRouter_route "" (.obj []) =
      [⟨.REASONING, "analyze_request", some (.obj [("goal", .str "")])⟩] := by
  refine ⟨?_, ?_, ?_, ?_, rfl, rfl, rfl, rfl, rfl⟩
  · cases h : includes (toLowerCase goal) "search"
    · simp [route_fallback goal _ h]
    · simp [route_search goal _ h]
  · intro h
    rw [route_search goal _ ((includes_search_iff goal).2 h)]
    rfl
  · intro h
    have hno : includes (toLowerCase goal) "search" = false := by
      cases hc : includes (toLowerCase goal) "search"
      · rfl
      · exact absurd ((includes_search_iff goal).1 hc) h
    rw [route_fallback goal _ hno]
    rfl
  · intro context'
    rfl

/-- Witness of C13: a goal that mentions the word in capitals, in the middle. -/
theorem c13_router_single_descriptor_witness :
    mentionsSearch "Find and SEARCH the logs" ∧
    contextRouter_route "Find and SEARCH the logs" .null =
      [⟨.TOOL_CALL, "search_web", some (.obj [("query", .str "Find and SEARCH the logs")])⟩] :=
  have h : mentionsSearch "Find and SEARCH the logs" :=
    ⟨"find and ".data, " the logs".data, by decide⟩
  ⟨h, (c13_router_single_descriptor "Find and SEARCH the logs" .null).2.1 h⟩

/-- Counterexample to C14 as stated ("for every goal and context on which the router's
route fails"): with a router that throws on everything and the empty goal, `createWorkflow`
does not return a FAILED workflow, it throws: `Workflow.create` stands before the `try` and
rejects a document without a goal, so the router is not even asked and no workflow is
stored. -/
theorem c14_empty_goal_throws :
    brokenRouterEnv.route "" (.obj []) = .error ⟨"router down", "stack"⟩ ∧
    (∃ e, (workflowService_createWorkflow brokenRouterEnv "" none emptyStore).1 = .error e) ∧
    (workflowService_createWorkflow brokenRouterEnv "" none emptyStore).2.workflows = [] ∧
    (workflowService_createWorkflow brokenRouterEnv "" none emptyStore).2.auditLog = [] := by
  exact ⟨rfl, ⟨_, rfl⟩, rfl, rfl⟩

/-- C14 amended (routing failure), with the store working normally: when the router throws
on a non-empty goal and a context, `createWorkflow` returns a workflow whose status is
FAILED and whose error carries the message (and stack) of the routing error; that workflow
is the one record added to the store; no task is created, no job is enqueued, and the only
event appended is WORKFLOW_CREATED, so no TASK_SCHEDULED. -/
theorem c14_routing_failure (env : CreateEnv) (goal : String) (context? : Option Payload)
    (w : World) (error : JsError) (henv : env.faults = noFaults)
    (htrace : env.traceId ≠ "") (hgoal : goal ≠ "")
    (hroute : env.route goal (context?.getD (.obj [])) = .error error) :
    ∃ workflow,
      (workflowService_createWorkflow env goal context? w).1 =
        .ok (w.workflows.length, workflow) ∧
      workflow.status = .FAILED ∧
      workflow.error = some ⟨error.message, some error.stack⟩ ∧
      (workflowService_createWorkflow env goal context? w).2.workflows =
        w.workflows ++ [workflow] ∧
      (workflowService_createWorkflow env goal context? w).2.tasks = w.tasks ∧
      (workflowService_createWorkflow env goal context? w).2.jobs = w.jobs ∧
      (workflowService_createWorkflow env goal context? w).2.auditLog =
        w.auditLog ++ [⟨w.workflows.length, .INFO, .WORKFLOW_CREATED,
          some (.obj [("goal", .str goal), ("traceId", .str env.traceId)])⟩] := by
  rw [create_routing_failed env goal context? w error henv htrace hgoal hroute]
  exact ⟨_, rfl, rfl, rfl, rfl, rfl, rfl, rfl⟩

/-- Witness of C14: a router that throws "router down", on the empty store. -/
theorem c14_routing_failure_witness :
    ∃ workflow,
      (workflowService_createWorkflow brokenRouterEnv "any goal" none emptyStore).1 =
        .ok (emptyStore.workflows.length, workflow) ∧
      workflow.status = .FAILED ∧
      workflow.error = some ⟨"router down", some "stack"⟩ ∧
      (workflowService_createWorkflow brokenRouterEnv "any goal" none emptyStore).2.workflows =
        emptyStore.workflows ++ [workflow] ∧
      (workflowService_createWorkflow brokenRouterEnv "any goal" none emptyStore).2.tasks =
        emptyStore.tasks ∧
      (workflowService_createWorkflow brokenRouterEnv "any goal" none emptyStore).2.jobs =
        emptyStore.jobs ∧
      (workflowService_createWorkflow brokenRouterEnv "any goal" none emptyStore).2.auditLog =
        emptyStore.auditLog ++ [⟨emptyStore.workflows.length, .INFO, .WORKFLOW_CREATED,
          some (.obj [("goal", .str "any goal"), ("traceId", .str brokenRouterEnv.traceId)])⟩] :=
  c14_routing_failure brokenRouterEnv "any goal" none emptyStore ⟨"router down", "stack"⟩
    rfl (by decide) (by decide) rfl

/-- C15 (the audit log is append-only): every operation of the system, `createWorkflow`
(also through the endpoint), a delivery of the execute-task handler, `reconcileWorkflow` and
`auditService.log`, with any router, any tool behaviour and whatever store operations fail,
leaves the audit log that existed before it as a prefix of the log after it: the log after
is the log before with entries appended at the end. -/
theorem c15_audit_log_append_only :
    (∀ (env : CreateEnv) (goal : String) (context? : Option Payload) (w : World),
      ∃ suffix, (workflowService_createWorkflow env goal context? w).2.auditLog =
        w.auditLog ++ suffix) ∧
    (∀ (env : CreateEnv) (body : RequestBody) (w : World),
      ∃ suffix, (workflowController_createWorkflow env body w).2.auditLog =
        w.auditLog ++ suffix) ∧
    (∀ (d : Delivery) (w : World),
      ∃ suffix, (executeTask d w).2.auditLog = w.auditLog ++ suffix) ∧
    (∀ (f : Faults) (workflowId : Nat) (w : World),
      ∃ suffix, (reconcileWorkflow f workflowId w).2.auditLog = w.auditLog ++ suffix) ∧
    (∀ (f : Faults) (workflowId : Nat) (eventType : EventType) (details : Payload)
        (level : Level) (w : World),
      ∃ suffix, (auditService_log f workflowId eventType details level w).auditLog =
        w.auditLog ++ suffix) :=
  ⟨createWorkflow_log, controller_log, executeTask_log,
    fun f wid w => ⟨_, reconcile_log_eq f wid w⟩,
    fun f wid ev details level w => ⟨_, audit_log_eq f wid ev details level w⟩⟩

/-- C16 at its failing input: the request body of `verification_script.js`, a goal and the
context `{ userId: 'user123' }`, on the empty store with the keyword router and a store that
works. The endpoint accepts the request (201), but the workflow it returns and stores has
the context `{}`, not the context the caller supplied: `z.object({})` declares no key and
keeps none. -/
theorem c16_context_is_stripped :
    (∃ workflow, (workflowController_createWorkflow keywordEnv
        ⟨some (.str "Search for \"Model Context Protocol\""),
          some (.obj [("userId", .str "user123")])⟩ emptyStore).1 = .created 0 workflow ∧
      workflow.context = .obj []) ∧
    (workflowController_createWorkflow keywordEnv
        ⟨some (.str "Search for \"Model Context Protocol\""),
          some (.obj [("userId", .str "user123")])⟩ emptyStore).2.workflows.map
      (fun wf => wf.context) = [.obj []] ∧
    Payload.obj [("userId", .str "user123")] ≠ .obj [] := by
  refine ⟨⟨_, rfl, rfl⟩, rfl, ?_⟩
  intro h
  injection h with h
  cases h

/-- C17 (partial progress leaves the workflow alone), whatever store operations fail. First
part: for a workflow that is neither COMPLETED nor FAILED, with no FAILED task and a task
that is not COMPLETED, `reconcileWorkflow` leaves the tasks, the workflows, the audit log and
the job queue as they are. Second part: if a workflow that was not COMPLETED is COMPLETED
after `reconcileWorkflow`, then every one of its tasks is COMPLETED. -/
theorem c17_partial_progress :
    (∀ (f : Faults) (workflowId : Nat) (w : World) (workflow : Workflow) (t : Task),
      w.workflows[workflowId]? = some workflow →
      workflow.status ≠ .COMPLETED → workflow.status ≠ .FAILED →
      (∀ t' ∈ w.tasks, t'.workflowId = workflowId → t'.status ≠ .FAILED) →
      t ∈ w.tasks → t.workflowId = workflowId → t.status ≠ .COMPLETED →
      (reconcileWorkflow f workflowId w).2.tasks = w.tasks ∧
      (reconcileWorkflow f workflowId w).2.workflows = w.workflows ∧
      (reconcileWorkflow f workflowId w).2.auditLog = w.auditLog ∧
      (reconcileWorkflow f workflowId w).2.jobs = w.jobs) ∧
    (∀ (f : Faults) (workflowId : Nat) (w : World) (workflow workflow' : Workflow),
      w.workflows[workflowId]? = some workflow → workflow.status ≠ .COMPLETED →
      (reconcileWorkflow f workflowId w).2.workflows[workflowId]? = some workflow' →
      workflow'.status = .COMPLETED →
      ∀ t ∈ w.tasks, t.workflowId = workflowId → t.status = .COMPLETED) := by
  constructor
  · intro f wid w wf t hwf _ _ hnone hmem hown hnc
    exact reconcile_unfinished f wid w wf hwf (none_failed_tasksOf hnone)
      (not_all_completed_of_mem (mem_tasksOf hmem hown) hnc)
  · intro f wid w wf wf' hwf hc hwf' hc' t hmem hown
    have hall := reconcile_completes_only_all f wid w wf wf' hwf hc hwf' hc'
    rw [List.all_eq_true] at hall
    simpa using hall t (mem_tasksOf hmem hown)

/-- Witness of C17: a RUNNING workflow with a COMPLETED and a PENDING task is left alone. -/
theorem c17_partial_progress_witness :
    (reconcileWorkflow noFaults 0 progressStore).2.tasks = progressStore.tasks ∧
    (reconcileWorkflow noFaults 0 progressStore).2.workflows = progressStore.workflows ∧
    (reconcileWorkflow noFaults 0 progressStore).2.auditLog = progressStore.auditLog ∧
    (reconcileWorkflow noFaults 0 progressStore).2.jobs = progressStore.jobs :=
  c17_partial_progress.1 noFaults 0 progressStore (workflowIn .RUNNING) freshTask rfl
    (by decide) (by decide) (by decide) (by simp [progressStore, storeOf]) rfl (by decide)

/-- What C18 asks does hold for every delivery that does not exhaust the retries: with the
store working normally, a delivery whose tool call succeeds, or fails with retries left, or
is skipped by a guard, leaves the record of a COMPLETED or FAILED owning workflow as it is.
The condition excludes only the failure propagation of lines 98-108. -/
theorem terminal_workflow_kept_unless_exhausted (d : Delivery) (w : World) (task : Task)
    (workflow : Workflow) (hf : d.faults = noFaults)
    (ht : w.tasks[d.taskId]? = some task)
    (hwf : w.workflows[task.workflowId]? = some workflow)
    (hterm : workflow.status = .COMPLETED ∨ workflow.status = .FAILED)
    (hleft : task.status = .COMPLETED ∨ task.status = .FAILED ∨ truthy? task.output = true ∨
      (∃ result, d.tool task.name task.input = .ok result) ∨
      ((task.retryCount + 1 : Nat) : Int) < task.maxRetries) :
    (executeTask d w).2.workflows = w.workflows := by
  by_cases hc : task.status = .COMPLETED
  · rw [exec_completed d w task hf ht hc]
    exact (reconcile_terminal noFaults task.workflowId w workflow hwf hterm).2.1
  by_cases hnf : task.status = .FAILED
  · rw [exec_failed d w task hf ht hnf]
    exact (reconcile_terminal noFaults task.workflowId w workflow hwf hterm).2.1
  by_cases hout : truthy? task.output = true
  · rw [exec_recovered d w task hf ht hc hnf hout]
    exact (reconcile_terminal noFaults task.workflowId
      { w with tasks := w.tasks.set d.taskId (recoveredTask d task),
               effects := w.effects ++ [.taskSaved d.taskId (recoveredTask d task)] }
      workflow hwf hterm).2.1
  have hout' : truthy? task.output = false := by simpa using hout
  cases htool : d.tool task.name task.input with
  | ok result =>
    rw [exec_success d w task result hf ht hc hnf hout' htool]
    exact (reconcile_terminal noFaults task.workflowId
      { w with tasks := w.tasks.set d.taskId (finishedTask d task result),
               auditLog := w.auditLog ++ [startedEntry d task, completedEntry d task result],
               effects := w.effects ++ [.taskSaved d.taskId (runningTask d task),
                 .auditAppended (startedEntry d task), .toolInvoked task.name task.input,
                 .taskSaved d.taskId (finishedTask d task result),
                 .auditAppended (completedEntry d task result)] }
      workflow hwf hterm).2.1
  | error e =>
    have hlt : ((task.retryCount + 1 : Nat) : Int) < task.maxRetries := by
      rcases hleft with h | h | h | ⟨r, h⟩ | h
      · exact absurd h hc
      · exact absurd h hnf
      · exact absurd h hout
      · rw [htool] at h; cases h
      · exact h
    rw [exec_retry d w task e hf ht hc hnf hout' htool hlt]

/-- C18 at its failing inputs. First: a workflow with two tasks, both failing for good; the
three deliveries of task 0 leave the workflow FAILED with the error of task 0, and the
three deliveries of task 1 then rewrite the record of the already FAILED workflow with the
error of task 1 and log a second WORKFLOW_FAILED. Second: a COMPLETED workflow with a PENDING task whose three deliveries
fail ends FAILED. In both the record is written by `Workflow.findByIdAndUpdate` at line 104,
which does not look at the status. -/
theorem c18_terminal_workflow_overwritten :
    ((deliverAll (["a", "a", "a"].map failingDelivery) twoTaskStore).workflows[0]?).map
        (fun wf => (wf.status, wf.error))
      = some (.FAILED, some ⟨"Task search_web failed: a", none⟩) ∧
    ((deliverAll (["b", "b", "b"].map (fun m => { failingDelivery m with taskId := 1 }))
        (deliverAll (["a", "a", "a"].map failingDelivery) twoTaskStore)).workflows[0]?).map
        (fun wf => (wf.status, wf.error))
      = some (.FAILED, some ⟨"Task analyze_request failed: b", none⟩) ∧
    eventTypes
        (deliverAll (["b", "b", "b"].map (fun m => { failingDelivery m with taskId := 1 }))
          (deliverAll (["a", "a", "a"].map failingDelivery) twoTaskStore)).auditLog
      = [.TASK_STARTED, .TASK_STARTED, .TASK_STARTED, .TASK_FAILED, .WORKFLOW_FAILED,
         .TASK_STARTED, .TASK_STARTED, .TASK_STARTED, .TASK_FAILED, .WORKFLOW_FAILED] ∧
    ((storeOf (workflowIn .COMPLETED) [freshTask]).workflows[0]?).map (fun wf => wf.status)
      = some .COMPLETED ∧
    ((deliverAll (["a", "a", "a"].map failingDelivery)
        (storeOf (workflowIn .COMPLETED) [freshTask])).workflows[0]?).map
        (fun wf => (wf.status, wf.error))
      = some (.FAILED, some ⟨"Task search_web failed: a", none⟩) := by
  refine ⟨by decide, by decide, by decide, by decide, by decide⟩

/-- Counterexample to C19 as stated: a CANCELLED workflow whose single task is COMPLETED is
COMPLETED after `reconcileWorkflow`, and one whose single task is FAILED is FAILED. -/
theorem c19_cancelled_is_reopened :
    ((reconcileWorkflow noFaults 0
        (storeOf (workflowIn .CANCELLED) [{ freshTask with status := .COMPLETED }])).2.workflows[0]?).map
      (fun wf => wf.status) = some .COMPLETED ∧
    ((reconcileWorkflow noFaults 0
        (storeOf (workflowIn .CANCELLED) [{ freshTask with status := .FAILED }])).2.workflows[0]?).map
      (fun wf => wf.status) = some .FAILED := by
  refine ⟨by decide, by decide⟩

/-- C19 amended (what reconciliation does to a CANCELLED workflow), with the store working
normally: CANCELLED is treated like PENDING and RUNNING. If a task of the workflow is FAILED
the status after `reconcileWorkflow` is FAILED; if none is FAILED and all of them (possibly
none) are COMPLETED it is COMPLETED; and it is still CANCELLED, the store being left as it
is, exactly in the remaining case: no task is FAILED and some task is not COMPLETED. -/
theorem c19_cancelled_reconciled (workflowId : Nat) (w : World) (workflow : Workflow)
    (hwf : w.workflows[workflowId]? = some workflow) (hs : workflow.status = .CANCELLED) :
    ((tasksOf workflowId w).any (fun t => t.status == .FAILED) = true →
      ((reconcileWorkflow noFaults workflowId w).2.workflows[workflowId]?).map
        (fun wf => wf.status) = some .FAILED) ∧
    ((tasksOf workflowId w).any (fun t => t.status == .FAILED) = false →
      (tasksOf workflowId w).all (fun t => t.status == .COMPLETED) = true →
      ((reconcileWorkflow noFaults workflowId w).2.workflows[workflowId]?).map
        (fun wf => wf.status) = some .COMPLETED) ∧
    ((tasksOf workflowId w).any (fun t => t.status == .FAILED) = false →
      (tasksOf workflowId w).all (fun t => t.status == .COMPLETED) = false →
      ((reconcileWorkflow noFaults workflowId w).2.workflows[workflowId]?).map
        (fun wf => wf.status) = some .CANCELLED ∧
      (reconcileWorkflow noFaults workflowId w).2.tasks = w.tasks ∧
      (reconcileWorkflow noFaults workflowId w).2.workflows = w.workflows ∧
      (reconcileWorkflow noFaults workflowId w).2.auditLog = w.auditLog) := by
  have hlt := getElem?_some_lt hwf
  have hc : workflow.status ≠ .COMPLETED := by rw [hs]; decide
  have hf : workflow.status ≠ .FAILED := by rw [hs]; decide
  refine ⟨?_, ?_, ?_⟩
  · intro hany
    rw [reconcile_failed_eq workflowId w workflow hwf hc hf hany]
    simp [hlt, failedWorkflow]
  · intro hany hall
    rw [reconcile_completed_eq workflowId w workflow hwf hc hf hany hall]
    simp [hlt, completedWorkflow]
  · intro hany hall
    obtain ⟨h1, h2, h3, _⟩ := reconcile_unfinished noFaults workflowId w workflow hwf hany hall
    exact ⟨by rw [h2, hwf]; simp [hs], h1, h2, h3⟩

/-- Witness of C19 amended: a CANCELLED workflow with a COMPLETED and a PENDING task stays
CANCELLED. -/
theorem c19_cancelled_reconciled_witness :
    ((reconcileWorkflow noFaults 0
        (storeOf (workflowIn .CANCELLED)
          [{ freshTask with status := .COMPLETED }, freshTask])).2.workflows[0]?).map
      (fun wf => wf.status) = some .CANCELLED :=
  ((c19_cancelled_reconciled 0
      (storeOf (workflowIn .CANCELLED) [{ freshTask with status := .COMPLETED }, freshTask])
      (workflowIn .CANCELLED) rfl rfl).2.2 (by decide) (by decide)).1

/-- C20 at its failing input: on the empty store, `createWorkflow` with a router that throws
(the store working normally) leaves workflow 0 FAILED while the audit log holds
WORKFLOW_CREATED only: a FAILED workflow without a WORKFLOW_FAILED event. -/
theorem c20_failed_without_event :
    ((workflowService_createWorkflow brokenRouterEnv "any goal" none
        emptyStore).2.workflows[0]?).map (fun wf => wf.status) = some .FAILED ∧
    eventTypes (workflowService_createWorkflow brokenRouterEnv "any goal" none
        emptyStore).2.auditLog = [.WORKFLOW_CREATED] ∧
    EventType.WORKFLOW_FAILED ∉
      eventTypes (workflowService_createWorkflow brokenRouterEnv "any goal" none
        emptyStore).2.auditLog := by
  refine ⟨by decide, by decide, by decide⟩

/-! ### Consistency of the audit log with the terminal statuses -/

theorem hasEvent_append_left {log : List AuditLogEntry} {i : Nat} {ev : EventType}
    (h : hasEvent log i ev) (suffix : List AuditLogEntry) : hasEvent (log ++ suffix) i ev := by
  obtain ⟨e, hm, h1, h2⟩ := h
  exact ⟨e, List.mem_append_left _ hm, h1, h2⟩

theorem hasEvent_append_right {suffix : List AuditLogEntry} {i : Nat} {ev : EventType}
    (h : hasEvent suffix i ev) (log : List AuditLogEntry) : hasEvent (log ++ suffix) i ev := by
  obtain ⟨e, hm, h1, h2⟩ := h
  exact ⟨e, List.mem_append_right _ hm, h1, h2⟩

/-- Consistency is kept by a step that only appends to the log and leaves each workflow as
it was or in a status that the new log accounts for. -/
theorem consistent_step {w w' : World} (hc : AuditConsistent w)
    (hlog : ∃ suffix, w'.auditLog = w.auditLog ++ suffix)
    (hwf : ∀ i wf, w'.workflows[i]? = some wf → w.workflows[i]? = some wf ∨
      ((wf.status = .FAILED → hasEvent w'.auditLog i .WORKFLOW_FAILED) ∧
       (wf.status = .COMPLETED → hasEvent w'.auditLog i .WORKFLOW_COMPLETED))) :
    AuditConsistent w' := by
  intro i wf hi
  obtain ⟨suffix, hs⟩ := hlog
  rcases hwf i wf hi with h | h
  · obtain ⟨h1, h2⟩ := hc i wf h
    rw [hs]
    exact ⟨fun hf => hasEvent_append_left (h1 hf) _, fun hcm => hasEvent_append_left (h2 hcm) _⟩
  · exact h

theorem getElem?_set_cases {α : Type} {l : List α} {i j : Nat} {a b : α}
    (h : (l.set i a)[j]? = some b) : l[j]? = some b ∨ (j = i ∧ b = a) := by
  rw [List.getElem?_set] at h
  by_cases hij : i = j
  · rw [if_pos hij] at h
    by_cases hlt : i < l.length
    · rw [if_pos hlt] at h
      injection h with h
      exact Or.inr ⟨hij.symm, h.symm⟩
    · rw [if_neg hlt] at h
      cases h
  · rw [if_neg hij] at h
    exact Or.inl h

theorem reconcile_consistent (wid : Nat) (w : World) (hc : AuditConsistent w) :
    AuditConsistent (reconcileWorkflow noFaults wid w).2 := by
  refine consistent_step hc ⟨_, reconcile_log_eq noFaults wid w⟩ ?_
  intro i wf hi
  cases hwf : w.workflows[wid]? with
  | none =>
    rw [reconcile_missing_eq wid w hwf] at hi
    exact Or.inl hi
  | some wf0 =>
    by_cases hterm : wf0.status = .COMPLETED ∨ wf0.status = .FAILED
    · rw [reconcile_terminal_eq wid w wf0 hwf hterm] at hi
      exact Or.inl hi
    · have hnc : wf0.status ≠ .COMPLETED := fun h => hterm (Or.inl h)
      have hnf : wf0.status ≠ .FAILED := fun h => hterm (Or.inr h)
      cases hany : (tasksOf wid w).any (fun t => t.status == .FAILED) with
      | true =>
        rw [reconcile_failed_eq wid w wf0 hwf hnc hnf hany] at hi ⊢
        rcases getElem?_set_cases hi with h | ⟨h1, h2⟩
        · exact Or.inl h
        · refine Or.inr ⟨fun _ => ?_, fun h => ?_⟩
          · exact hasEvent_append_right
              ⟨reconcileFailedEntry wid, List.mem_singleton.mpr rfl, h1.symm, rfl⟩ _
          · rw [h2] at h
            exact absurd h (show WorkflowStatus.FAILED ≠ .COMPLETED by decide)
      | false =>
        cases hall : (tasksOf wid w).all (fun t => t.status == .COMPLETED) with
        | true =>
          rw [reconcile_completed_eq wid w wf0 hwf hnc hnf hany hall] at hi ⊢
          rcases getElem?_set_cases hi with h | ⟨h1, h2⟩
          · exact Or.inl h
          · refine Or.inr ⟨fun h => ?_, fun _ => ?_⟩
            · rw [h2] at h
              exact absurd h (show WorkflowStatus.COMPLETED ≠ .FAILED by decide)
            · exact hasEvent_append_right
                ⟨reconcileCompletedEntry wid, List.mem_singleton.mpr rfl, h1.symm, rfl⟩ _
        | false =>
          have h := (reconcile_unfinished noFaults wid w wf0 hwf hany hall).2.1
          rw [h] at hi
          exact Or.inl hi

/-- Consistency looks at the workflows and the log only. -/
theorem consistent_congr {w w' : World} (hc : AuditConsistent w)
    (h1 : w'.workflows = w.workflows) (hlog : ∃ suffix, w'.auditLog = w.auditLog ++ suffix) :
    AuditConsistent w' :=
  consistent_step hc hlog (fun _ _ hi => Or.inl (h1 ▸ hi))

theorem executeTask_consistent (d : Delivery) (w : World) (hf : d.faults = noFaults)
    (hc : AuditConsistent w) : AuditConsistent (executeTask d w).2 := by
  cases ht : w.tasks[d.taskId]? with
  | none =>
    have : executeTask d w = (.returned, w) := by
      simp [executeTask, Task_findById, hf, ht]
    rw [this]
    exact hc
  | some task =>
    by_cases hcomp : task.status = .COMPLETED
    · rw [exec_completed d w task hf ht hcomp]
      exact reconcile_consistent _ _ hc
    by_cases hnf : task.status = .FAILED
    · rw [exec_failed d w task hf ht hnf]
      exact reconcile_consistent _ _ hc
    by_cases hout : truthy? task.output = true
    · rw [exec_recovered d w task hf ht hcomp hnf hout]
      exact reconcile_consistent _ _ (consistent_congr hc rfl ⟨[], by simp⟩)
    have hout' : truthy? task.output = false := by simpa using hout
    cases htool : d.tool task.name task.input with
    | ok result =>
      rw [exec_success d w task result hf ht hcomp hnf hout' htool]
      exact reconcile_consistent _ _ (consistent_congr hc rfl ⟨_, rfl⟩)
    | error e =>
      by_cases hlt : ((task.retryCount + 1 : Nat) : Int) < task.maxRetries
      · rw [exec_retry d w task e hf ht hcomp hnf hout' htool hlt]
        exact consistent_congr hc rfl ⟨_, rfl⟩
      · rw [exec_exhausted d w task e hf ht hcomp hnf hout' htool hlt]
        refine consistent_step hc ⟨_, rfl⟩ ?_
        intro i wf hi
        dsimp only at hi ⊢
        cases hw : w.workflows[task.workflowId]? with
        | none => rw [hw] at hi; exact Or.inl hi
        | some wf0 =>
          rw [hw] at hi
          rcases getElem?_set_cases hi with h | ⟨h1, h2⟩
          · exact Or.inl h
          · refine Or.inr ⟨fun _ => ?_, fun h => ?_⟩
            · exact hasEvent_append_right
                ⟨workflowFailedEntry task e, by simp, h1.symm, rfl⟩ _
            · rw [h2] at h
              exact absurd h (show WorkflowStatus.FAILED ≠ .COMPLETED by decide)

theorem scheduleSteps_workflows (env : CreateEnv) (workflowId : Nat)
    (steps : List TaskDescriptor) :
    ∀ (step : Nat) (w : World),
      (scheduleSteps env workflowId step steps w).2.workflows = w.workflows := by
  induction steps with
  | nil => intro step w; rfl
  | cons descriptor rest ih =>
    intro step w
    unfold scheduleSteps Task_create scheduleJob
    by_cases hname : (newTask workflowId descriptor).name = ""
    · rw [if_pos hname]
    rw [if_neg hname]
    cases env.faults (.createTask step)
    · dsimp only
      cases env.faults (.scheduleJob step)
      · dsimp only
        rw [ih, audit_workflows]
      · rfl
    · rfl

theorem scheduleSteps_noFaults_ok (env : CreateEnv) (workflowId : Nat)
    (steps : List TaskDescriptor) (hf : env.faults = noFaults)
    (hnames : ∀ step ∈ steps, step.name ≠ "") :
    ∀ (step : Nat) (w : World), (scheduleSteps env workflowId step steps w).1 = .ok () := by
  induction steps with
  | nil => intro step w; rfl
  | cons descriptor rest ih =>
    intro step w
    have hname : (newTask workflowId descriptor).name ≠ "" :=
      hnames descriptor (List.mem_cons_self _ _)
    unfold scheduleSteps Task_create scheduleJob
    simp only [hf, noFaults_apply, if_neg hname]
    exact ih (fun s hs => hnames s (List.mem_cons_of_mem _ hs)) _ _

/-- The `try` block of `createWorkflow` when the router returns descriptors that name their
task and the store works. -/
theorem routeAndSchedule_ok (env : CreateEnv) (goal : String) (context : Payload)
    (workflowId : Nat) (workflow : Workflow) (w : World) (steps : List TaskDescriptor)
    (hf : env.faults = noFaults) (hr : env.route goal context = .ok steps)
    (hnames : ∀ step ∈ steps, step.name ≠ "") :
    (routeAndSchedule env goal context workflowId workflow w).1 = .ok () ∧
    (routeAndSchedule env goal context workflowId workflow w).2.2.workflows =
      (if steps.length > 0 then w.workflows.set workflowId { workflow with status := .RUNNING }
        else w.workflows) := by
  unfold routeAndSchedule Workflow_saveAt
  simp only [hf, noFaults_apply, hr]
  split
  · exact ⟨scheduleSteps_noFaults_ok env _ steps hf hnames _ _,
      scheduleSteps_workflows env _ steps _ _⟩
  · exact ⟨scheduleSteps_noFaults_ok env _ steps hf hnames _ _,
      scheduleSteps_workflows env _ steps _ _⟩

/-- The workflows after a `createWorkflow` whose router returns descriptors that name their
task and whose store works: one record is added, PENDING or RUNNING, unless the document is
rejected by validation, and then none is. -/
theorem create_ok_workflows (env : CreateEnv) (goal : String) (context? : Option Payload)
    (w : World) (steps : List TaskDescriptor) (hf : env.faults = noFaults)
    (hr : env.route goal (context?.getD (.obj [])) = .ok steps)
    (hnames : ∀ step ∈ steps, step.name ≠ "") :
    (workflowService_createWorkflow env goal context? w).2.workflows = w.workflows ∨
    ∃ workflow, (workflowService_createWorkflow env goal context? w).2.workflows =
        w.workflows ++ [workflow] ∧
      (workflow.status = .PENDING ∨ workflow.status = .RUNNING) := by
  unfold workflowService_createWorkflow Workflow_create
  dsimp only
  by_cases hreq : env.traceId = "" ∨ goal = ""
  · rw [if_pos hreq]
    exact Or.inl rfl
  rw [if_neg hreq]
  refine Or.inr ?_
  simp only [hf, noFaults_apply]
  split
  · next a workflow1 w3 heq =>
    have h := congrArg (fun r => r.2.2.workflows) heq
    dsimp only at h
    rw [(routeAndSchedule_ok env goal _ _ _ _ steps hf hr hnames).2, audit_workflows] at h
    dsimp only at h
    rw [← h]
    split
    · exact ⟨_, set_length_concat _ _ _, Or.inr rfl⟩
    · exact ⟨_, rfl, Or.inl rfl⟩
  · next error workflow1 w3 heq =>
    have h := congrArg (fun r => r.1) heq
    dsimp only at h
    rw [(routeAndSchedule_ok env goal _ _ _ _ steps hf hr hnames).1] at h
    cases h

theorem create_consistent (env : CreateEnv) (goal : String) (context? : Option Payload)
    (w : World) (steps : List TaskDescriptor) (hf : env.faults = noFaults)
    (hr : env.route goal (context?.getD (.obj [])) = .ok steps)
    (hnames : ∀ step ∈ steps, step.name ≠ "") (hc : AuditConsistent w) :
    AuditConsistent (workflowService_createWorkflow env goal context? w).2 := by
  refine consistent_step hc (createWorkflow_log env goal context? w) ?_
  intro i wf hi
  rcases create_ok_workflows env goal context? w steps hf hr hnames with hsame |
    ⟨wfNew, hwfs, hst⟩
  · rw [hsame] at hi
    exact Or.inl hi
  rw [hwfs] at hi
  by_cases hlt : i < w.workflows.length
  · rw [List.getElem?_append_left hlt] at hi
    exact Or.inl hi
  · have hge : w.workflows.length ≤ i := Nat.le_of_not_lt hlt
    rw [List.getElem?_append_right hge] at hi
    have hmem : wf ∈ [wfNew] := getElem?_some_mem hi
    rw [List.mem_singleton] at hmem
    subst hmem
    refine Or.inr ⟨fun h => ?_, fun h => ?_⟩ <;> rcases hst with h' | h' <;>
      rw [h'] at h <;> cases h

/-- What holds of C20: as long as the `try` block of `createWorkflow` does not fail (the
router returns, and what it returns passes the validation of `Task.create`), every reachable
store is consistent: a FAILED workflow has a WORKFLOW_FAILED event and a COMPLETED one a
WORKFLOW_COMPLETED event. -/
theorem reachable_consistent (w : World) (h : ReachableRouted w) : AuditConsistent w := by
  induction h with
  | empty => intro i wf hi; simp at hi
  | create env goal context? w steps _ hf hr hnames ih =>
    exact create_consistent env goal context? w steps hf hr hnames ih
  | deliver d w _ hf ih => exact executeTask_consistent d w hf ih
  | reconcile wid w _ ih => exact reconcile_consistent wid w ih

/-! ### The order of saves and audit events in one delivery -/

theorem persistBeforeAudit_append (taskId : Nat) (task : Task) (a b : List Effect) :
    ∀ pre, persistBeforeAudit taskId task pre (a ++ b) =
      (persistBeforeAudit taskId task pre a && persistBeforeAudit taskId task (pre ++ a) b) := by
  induction a with
  | nil => intro pre; simp [persistBeforeAudit]
  | cons x xs ih =>
    intro pre
    cases x <;> simp [persistBeforeAudit, ih, Bool.and_assoc]

theorem audit_effects_eq (f : Faults) (wid : Nat) (ev : EventType) (details : Payload)
    (level : Level) (w : World) :
    (auditService_log f wid ev details level w).effects =
      w.effects ++ auditTrace f wid ev details level := by
  unfold auditService_log auditTrace
  cases f (.audit ev) <;> simp

theorem reconcile_effects_eq (f : Faults) (wid : Nat) (w : World) :
    (reconcileWorkflow f wid w).2.effects = w.effects ++ reconcileTrace f wid w := by
  obtain ⟨es, h, _⟩ := reconcile_trace f wid w
  unfold reconcileTrace
  rw [h]
  simp

/-- The trace of a reconciliation in detail: the call, then possibly the save of the
workflow, FAILED or COMPLETED, then possibly the event of that name for that workflow. -/
theorem reconcileTrace_shape (f : Faults) (wid : Nat) (w : World) :
    reconcileTrace f wid w = [.reconcileCalled wid] ∨
    (∃ wf, reconcileTrace f wid w = [.reconcileCalled wid, .workflowSaved wid wf]) ∨
    (∃ wf entry, reconcileTrace f wid w =
        [.reconcileCalled wid, .workflowSaved wid wf, .auditAppended entry] ∧
      entry.workflowId = wid ∧
      ((entry.eventType = .WORKFLOW_FAILED ∧ wf.status = .FAILED) ∨
       (entry.eventType = .WORKFLOW_COMPLETED ∧ wf.status = .COMPLETED))) := by
  unfold reconcileTrace reconcileWorkflow Task_find Workflow_findById
  cases f .findTasks with
  | some e => exact Or.inl (by simp)
  | none =>
    cases f .findWorkflow with
    | some e => exact Or.inl (by simp)
    | none =>
      dsimp only
      cases w.workflows[wid]? with
      | none => exact Or.inl (by simp)
      | some wf =>
        dsimp only
        split
        · exact Or.inl (by simp)
        · split
          · unfold Workflow_save auditService_log
            cases f .saveWorkflow with
            | some e => exact Or.inl (by simp)
            | none =>
              cases f (.audit .WORKFLOW_FAILED) with
              | some e => exact Or.inr (Or.inl ⟨failedWorkflow wf, by simp [failedWorkflow]⟩)
              | none =>
                exact Or.inr (Or.inr ⟨failedWorkflow wf, reconcileFailedEntry wid,
                  by simp [failedWorkflow, reconcileFailedEntry], rfl, Or.inl ⟨rfl, rfl⟩⟩)
          · split
            · unfold Workflow_save auditService_log
              cases f .saveWorkflow with
              | some e => exact Or.inl (by simp)
              | none =>
                cases f (.audit .WORKFLOW_COMPLETED) with
                | some e =>
                  exact Or.inr (Or.inl ⟨completedWorkflow wf, by simp [completedWorkflow]⟩)
                | none =>
                  exact Or.inr (Or.inr ⟨completedWorkflow wf, reconcileCompletedEntry wid,
                    by simp [completedWorkflow, reconcileCompletedEntry], rfl,
                    Or.inr ⟨rfl, rfl⟩⟩)
            · exact Or.inl (by simp)

theorem savedWorkflowWith_append_self (wid : Nat) (wf : Workflow) (p : Workflow → Bool)
    (pre post : List Effect) (h : p wf = true) :
    savedWorkflowWith wid p (pre ++ .workflowSaved wid wf :: post) = true := by
  simp [savedWorkflowWith, h]

/-- The trace of a reconciliation is in order wherever the status of the task in the store
is COMPLETED or FAILED at the call. -/
theorem reconcileTrace_ordered (f : Faults) (wid : Nat) (w : World) (taskId : Nat)
    (task : Task) (pre : List Effect)
    (hpre : (persistedStatus taskId task pre == .COMPLETED ||
      persistedStatus taskId task pre == .FAILED) = true) :
    persistBeforeAudit taskId task pre (reconcileTrace f wid w) = true := by
  rcases reconcileTrace_shape f wid w with h | ⟨wf, h⟩ | ⟨wf, entry, h, hid, hev⟩ <;> rw [h]
  · simp [persistBeforeAudit, hpre]
  · simp [persistBeforeAudit, hpre]
  · rcases hev with ⟨h1, h2⟩ | ⟨h1, h2⟩ <;>
      simp [persistBeforeAudit, hpre, accountedFor, h1, hid, savedWorkflowWith, h2]

/-! ### The try block and the catch block keep the order -/

theorem persistedStatus_nil (taskId : Nat) (task : Task) :
    persistedStatus taskId task [] = task.status := rfl

theorem persistedStatus_saved (taskId : Nat) (task t : Task) (pre : List Effect) :
    persistedStatus taskId task (pre ++ [.taskSaved taskId t]) = t.status := by
  simp [persistedStatus, savedTasks, List.filterMap_append]

theorem persistedStatus_audit (taskId : Nat) (task : Task) (pre : List Effect)
    (e : AuditLogEntry) :
    persistedStatus taskId task (pre ++ [.auditAppended e]) =
      persistedStatus taskId task pre := by
  simp [persistedStatus, savedTasks, List.filterMap_append]

theorem persistedStatus_auditTrace (taskId : Nat) (task : Task) (pre : List Effect)
    (f : Faults) (workflowId : Nat) (eventType : EventType) (details : Payload)
    (level : Level) :
    persistedStatus taskId task (pre ++ auditTrace f workflowId eventType details level) =
      persistedStatus taskId task pre := by
  unfold auditTrace
  cases f (.audit eventType)
  · exact persistedStatus_audit _ _ _ _
  · simp

theorem auditTrace_ordered (taskId : Nat) (task : Task) (pre : List Effect)
    (f : Faults) (workflowId : Nat) (eventType : EventType) (details : Payload)
    (level : Level)
    (h : accountedFor taskId pre (auditEntry workflowId level eventType details) = true) :
    persistBeforeAudit taskId task pre
      (auditTrace f workflowId eventType details level) = true := by
  unfold auditTrace
  cases f (.audit eventType)
  · simp [persistBeforeAudit, h]
  · rfl

theorem savedTaskWith_append (taskId : Nat) (p : Task → Bool) (a b : List Effect) :
    savedTaskWith taskId p (a ++ b) =
      (savedTaskWith taskId p a || savedTaskWith taskId p b) := by
  simp [savedTaskWith, List.any_append]

theorem savedWorkflowWith_append (workflowId : Nat) (p : Workflow → Bool)
    (a b : List Effect) :
    savedWorkflowWith workflowId p (a ++ b) =
      (savedWorkflowWith workflowId p a || savedWorkflowWith workflowId p b) := by
  simp [savedWorkflowWith, List.any_append]

theorem tryBlock_ordered (d : Delivery) (task : Task) (w : World) :
    ∃ es, (tryBlock d task w).2.2.effects = w.effects ++ es ∧
      persistBeforeAudit d.taskId task [] es = true := by
  unfold tryBlock withTask Task_save executeTool
  split
  · next h =>
    exact ⟨_, reconcile_effects_eq _ _ _,
      reconcileTrace_ordered _ _ _ _ _ _ (by simp [persistedStatus_nil, h])⟩
  · split
    · next h =>
      exact ⟨_, reconcile_effects_eq _ _ _,
        reconcileTrace_ordered _ _ _ _ _ _ (by simp [persistedStatus_nil, h])⟩
    · split
      · cases d.faults .saveRecovered
        · dsimp only
          simp only [reconcile_effects_eq, List.append_assoc]
          refine ⟨_, rfl, ?_⟩
          rw [persistBeforeAudit_append]
          simp only [persistBeforeAudit, List.nil_append, Bool.true_and]
          exact reconcileTrace_ordered _ _ _ _ _ _
            (by rw [← List.nil_append [Effect.taskSaved _ _], persistedStatus_saved]; rfl)
        · exact ⟨[], by simp, rfl⟩
      · cases d.faults .saveRunning
        · dsimp only
          cases d.tool task.name task.input
          · simp only [audit_effects_eq, List.append_assoc]
            refine ⟨_, rfl, ?_⟩
            unfold auditTrace
            cases d.faults (.audit .TASK_STARTED) <;>
              simp [persistBeforeAudit, accountedFor, savedTaskWith]
          · dsimp only
            cases d.faults .saveCompleted
            · dsimp only
              simp only [reconcile_effects_eq, audit_effects_eq, List.append_assoc]
              refine ⟨_, rfl, ?_⟩
              simp only [persistBeforeAudit_append, Bool.and_eq_true]
              refine ⟨rfl, ?_, rfl, rfl, ?_, ?_⟩
              · exact auditTrace_ordered _ _ _ _ _ _ _ _
                  (by simp [accountedFor, savedTaskWith])
              · exact auditTrace_ordered _ _ _ _ _ _ _ _
                  (by simp [accountedFor, savedTaskWith_append, savedTaskWith])
              · exact reconcileTrace_ordered _ _ _ _ _ _
                  (by rw [persistedStatus_auditTrace, persistedStatus_saved]; rfl)
            · simp only [audit_effects_eq, List.append_assoc]
              refine ⟨_, rfl, ?_⟩
              unfold auditTrace
              cases d.faults (.audit .TASK_STARTED) <;>
                simp [persistBeforeAudit, accountedFor, savedTaskWith]
        · exact ⟨[], by simp, rfl⟩

theorem reconcile_workflows_length (f : Faults) (wid : Nat) (w : World) :
    (reconcileWorkflow f wid w).2.workflows.length = w.workflows.length := by
  rcases reconcile_shape f wid w with h | ⟨wf, h⟩ | ⟨wf, entry, h, _⟩ <;> rw [h] <;> simp

theorem tryBlock_workflowId (d : Delivery) (task : Task) (w : World) :
    (tryBlock d task w).2.1.workflowId = task.workflowId := by
  unfold tryBlock withTask Task_save executeTool
  split
  · rfl
  · split
    · rfl
    · split
      · cases d.faults .saveRecovered <;> rfl
      · cases d.faults .saveRunning
        · dsimp only
          cases d.tool task.name task.input
          · rfl
          · dsimp only
            cases d.faults .saveCompleted <;> rfl
        · rfl

theorem tryBlock_workflows_length (d : Delivery) (task : Task) (w : World) :
    (tryBlock d task w).2.2.workflows.length = w.workflows.length := by
  unfold tryBlock withTask Task_save executeTool
  split
  · exact reconcile_workflows_length _ _ _
  · split
    · exact reconcile_workflows_length _ _ _
    · split
      · cases d.faults .saveRecovered
        · dsimp only
          rw [reconcile_workflows_length]
        · rfl
      · cases d.faults .saveRunning
        · dsimp only
          cases d.tool task.name task.input
          · dsimp only
            rw [audit_workflows]
          · dsimp only
            cases d.faults .saveCompleted
            · dsimp only
              rw [reconcile_workflows_length, audit_workflows]
              dsimp only
              rw [audit_workflows]
            · dsimp only
              rw [audit_workflows]
        · rfl

theorem catchBlock_ordered (d : Delivery) (task0 task : Task) (error : JsError) (w : World)
    (pre : List Effect) (h : task.workflowId < w.workflows.length) :
    ∃ es, (catchBlock d task error w).2.effects = w.effects ++ es ∧
      persistBeforeAudit d.taskId task0 pre es = true := by
  obtain ⟨wf, hwf⟩ : ∃ wf, w.workflows[task.workflowId]? = some wf :=
    ⟨w.workflows[task.workflowId], List.getElem?_eq_getElem h⟩
  unfold catchBlock Task_save Workflow_findByIdAndUpdate
  dsimp only
  split
  · cases d.faults .saveRetry
    · exact ⟨_, rfl, by simp [persistBeforeAudit]⟩
    · exact ⟨[], by simp, rfl⟩
  · cases d.faults .saveFailed
    · dsimp only
      cases d.faults .updateWorkflow
      · simp only [audit_workflows, hwf]
        simp only [audit_effects_eq, List.append_assoc]
        refine ⟨_, rfl, ?_⟩
        simp only [persistBeforeAudit_append, Bool.and_eq_true]
        refine ⟨rfl, ?_, rfl, ?_⟩
        · exact auditTrace_ordered _ _ _ _ _ _ _ _
            (by simp [accountedFor, savedTaskWith_append, savedTaskWith])
        · exact auditTrace_ordered _ _ _ _ _ _ _ _
            (by simp [accountedFor, savedWorkflowWith_append, savedWorkflowWith])
      · simp only [audit_effects_eq, List.append_assoc]
        refine ⟨_, rfl, ?_⟩
        simp only [persistBeforeAudit_append, Bool.and_eq_true]
        refine ⟨rfl, ?_⟩
        exact auditTrace_ordered _ _ _ _ _ _ _ _
            (by simp [accountedFor, savedTaskWith_append, savedTaskWith])
    · exact ⟨[], by simp, rfl⟩

theorem executeTask_ordered (d : Delivery) (w : World) (task : Task)
    (hload : w.tasks[d.taskId]? = some task)
    (howner : task.workflowId < w.workflows.length) :
    ∃ es, (executeTask d w).2.effects = w.effects ++ es ∧
      persistBeforeAudit d.taskId task [] es = true := by
  unfold executeTask Task_findById
  cases d.faults .loadTask
  · simp only [hload]
    obtain ⟨es1, h1, ho1⟩ := tryBlock_ordered d task w
    cases hres : (tryBlock d task w).1 with
    | ok u =>
      have : tryBlock d task w = (.ok u, (tryBlock d task w).2.1, (tryBlock d task w).2.2) := by
        rw [← hres]
      rw [this]
      exact ⟨es1, h1, ho1⟩
    | error e =>
      have : tryBlock d task w = (.error e, (tryBlock d task w).2.1, (tryBlock d task w).2.2) := by
        rw [← hres]
      rw [this]
      dsimp only
      obtain ⟨es2, h2, ho2⟩ := catchBlock_ordered d task (tryBlock d task w).2.1 e
        (tryBlock d task w).2.2 es1
        (by rw [tryBlock_workflowId, tryBlock_workflows_length]; exact howner)
      refine ⟨es1 ++ es2, by rw [h2, h1, List.append_assoc], ?_⟩
      rw [persistBeforeAudit_append, ho1, List.nil_append, ho2]
      rfl
  · exact ⟨[], by simp, rfl⟩

/-! ### Persist before audit, and the scope of the retry policy -/

theorem deliveryTrace_eq (d : Delivery) (w : World) (es : List Effect)
    (h : (executeTask d w).2.effects = w.effects ++ es) : deliveryTrace d w = es := by
  unfold deliveryTrace
  rw [h]
  simp

/-- The order check is not vacuous: an event with no save before it is refused, and so is
a reconciliation called while the stored status of the task is PENDING. -/
theorem persistBeforeAudit_refuses :
    persistBeforeAudit 0 freshTask []
      [.auditAppended (startedEntry (succeedingDelivery .null) freshTask),
       .taskSaved 0 (runningTask (succeedingDelivery .null) freshTask)] = false ∧
    persistBeforeAudit 0 freshTask [] [.reconcileCalled 0] = false ∧
    persistBeforeAudit 0 freshTask []
      [.taskSaved 0 (runningTask (succeedingDelivery .null) freshTask),
       .auditAppended (startedEntry (succeedingDelivery .null) freshTask)] = true := by
  decide

/-- While the store works, the retry policy is applied on tool failure only: a delivery in
which the tool is not invoked, or answers, leaves retryCount and error as they were and a
COMPLETED task COMPLETED. -/
theorem retry_policy_when_store_works (d : Delivery) (w : World) (task : Task)
    (hf : d.faults = noFaults) (ht : w.tasks[d.taskId]? = some task)
    (h : toolInvocations (deliveryTrace d w) = 0 ∨
      ∃ result, d.tool task.name task.input = .ok result) :
    ∃ task1, (executeTask d w).2.tasks[d.taskId]? = some task1 ∧
      task1.retryCount = task.retryCount ∧ task1.error = task.error ∧
      (task.status = .COMPLETED → task1.status = .COMPLETED) := by
  by_cases hc : task.status = .COMPLETED
  · rw [exec_completed d w task hf ht hc, reconcile_tasks]
    exact ⟨task, ht, rfl, rfl, id⟩
  by_cases hnf : task.status = .FAILED
  · rw [exec_failed d w task hf ht hnf, reconcile_tasks]
    exact ⟨task, ht, rfl, rfl, id⟩
  cases hout : truthy? task.output with
  | true =>
    rw [exec_recovered d w task hf ht hc hnf hout, reconcile_tasks]
    exact ⟨recoveredTask d task, getElem?_set_self_of_some ht, rfl, rfl, fun _ => rfl⟩
  | false =>
    cases htool : d.tool task.name task.input with
    | ok result =>
      rw [exec_success d w task result hf ht hc hnf hout htool, reconcile_tasks]
      exact ⟨finishedTask d task result, getElem?_set_self_of_some ht, rfl, rfl, fun _ => rfl⟩
    | error error =>
      exfalso
      rcases h with h | ⟨result, h⟩
      · by_cases hlt : ((task.retryCount + 1 : Nat) : Int) < task.maxRetries
        · have he := congrArg (fun r => r.2.effects)
            (exec_retry d w task error hf ht hc hnf hout htool hlt)
          rw [deliveryTrace_eq d w _ he] at h
          simp [toolInvocations] at h
        · have he := congrArg (fun r => r.2.effects)
            (exec_exhausted d w task error hf ht hc hnf hout htool hlt)
          rw [deliveryTrace_eq d w _ he] at h
          simp [toolInvocations, List.countP_append] at h
      · rw [htool] at h
        cases h

/-- C21 at its failing input: the only task of the store names a workflow that does not
exist and has one attempt; the tool fails and the store works. The failure propagation of
lines 98-108 saves the task FAILED and logs TASK_FAILED, then `Workflow.findByIdAndUpdate`
(line 104) matches no record and saves nothing, and line 108 logs WORKFLOW_FAILED all the
same: an event of workflow 7 with no save of a workflow before it. `reconcileWorkflow`
checks that the workflow exists (line 12) before it writes and logs. -/
theorem c21_workflow_failed_without_save :
    orphanStore.workflows = [] ∧
    eventTypes (executeTask (failingDelivery "boom") orphanStore).2.auditLog
      = [.TASK_STARTED, .TASK_FAILED, .WORKFLOW_FAILED] ∧
    (executeTask (failingDelivery "boom") orphanStore).2.auditLog.map (fun e => e.workflowId)
      = [7, 7, 7] ∧
    (executeTask (failingDelivery "boom") orphanStore).2.workflows = [] ∧
    savedWorkflowWith 7 (fun _ => true)
      (executeTask (failingDelivery "boom") orphanStore).2.effects = false ∧
    persistBeforeAudit 0 { freshTask with workflowId := 7, maxRetries := 1 } []
      (deliveryTrace (failingDelivery "boom") orphanStore) = false := by
  refine ⟨rfl, by decide, by decide, rfl, by decide, by decide⟩

/-- What C21 asks does hold for every task whose workflow exists: in the effects of one
delivery of the handler, whatever the tool answers and whichever store operations fail,
every audit event comes after the save that made the transition it describes and every call
of reconcileWorkflow comes when the stored status of the task is COMPLETED or FAILED. -/
theorem persist_before_audit_when_owned (d : Delivery) (w : World) (task : Task)
    (hload : w.tasks[d.taskId]? = some task)
    (howner : task.workflowId < w.workflows.length) :
    (executeTask d w).2.effects = w.effects ++ deliveryTrace d w ∧
      persistBeforeAudit d.taskId task [] (deliveryTrace d w) = true := by
  obtain ⟨es, h, ho⟩ := executeTask_ordered d w task hload howner
  rw [deliveryTrace_eq d w es h]
  exact ⟨h, ho⟩

/-- An instance of `persist_before_audit_when_owned`: the fresh task is delivered and the
tool answers. -/
theorem persist_before_audit_example :
    freshStore.tasks[(succeedingDelivery (.str "found")).taskId]? = some freshTask ∧
    freshTask.workflowId < freshStore.workflows.length ∧
    persistBeforeAudit 0 freshTask []
      (deliveryTrace (succeedingDelivery (.str "found")) freshStore) = true :=
  ⟨rfl, by decide,
    (persist_before_audit_when_owned (succeedingDelivery (.str "found")) freshStore freshTask rfl
      (by decide)).2⟩

/-- C22 (code bug). A delivery of a COMPLETED task invokes no tool, yet when the query of
reconcileWorkflow throws, the task is saved PENDING with retryCount 1 and the error; and a
last attempt whose tool answers ends with the task and its workflow FAILED. -/
theorem c22_store_failure_applies_retry_policy :
    (toolInvocations (deliveryTrace reconcileFailsDelivery completedStore) = 0 ∧
      completedStore.tasks[0]? =
        some { freshTask with status := .COMPLETED, output := some (.str "done") } ∧
      (executeTask reconcileFailsDelivery completedStore).2.tasks[0]? =
        some { freshTask with status := .PENDING, output := some (.str "done"),
                              retryCount := 1,
                              error := some ⟨"store down", some "stack"⟩ }) ∧
    (reconcileFailsDelivery.tool "search_web" freshTask.input = .ok (.str "found") ∧
      toolInvocations (deliveryTrace reconcileFailsDelivery lastAttemptStore) = 1 ∧
      ((executeTask reconcileFailsDelivery lastAttemptStore).2.tasks[0]?).map
          (fun t => (t.status, t.output, t.retryCount, t.error)) =
        some (.FAILED, some (.str "found"), 3, some ⟨"store down", some "stack"⟩) ∧
      ((executeTask reconcileFailsDelivery lastAttemptStore).2.workflows[0]?).map
          (fun wf => wf.status) = some .FAILED ∧
      eventTypes (executeTask reconcileFailsDelivery lastAttemptStore).2.auditLog =
        [.TASK_STARTED, .TASK_COMPLETED, .TASK_FAILED, .WORKFLOW_FAILED]) := by
  refine ⟨⟨?_, rfl, rfl⟩, rfl, ?_, rfl, rfl, rfl⟩
  · decide
  · decide

end ControlPlane
